import Mathlib

/-!
# Verification of the qwen handler/orchestrator core

Shallow embedding of the request-execution pipeline of the orchestrator
(`src/app`): storage rows and operations (`storage.py`), the chat manager
(`chats/manager.py`), the per-profile lock (`profiles/profile_lock.py`),
the upstream HTTP client's retry loop (`upstream_client.py`), the container
busy classification (`containers/selector.py`), and the multi-container
executor (`engine/executor.py`).

Python strings are Lean `String`; Python `None`/values become `Option`;
SQL integer columns become `Int`/`Nat`; nondeterministic external effects
(profile resolution, the container selector, upstream HTTP responses,
generated UUIDs and clock readings) are supplied as explicit environment
parameters, so every function is a pure, executable transition on the
modelled store.
-/

namespace Orchestrator

/-! ## Python-value helpers -/

/-- A loosely-typed value as it appears in an upstream JSON status payload
(`dict[str, Any]` in the source).  Only the shapes the orchestrator ever
inspects are needed: strings, booleans and ints. -/
inductive PyVal
  | pstr (s : String)
  | pbool (b : Bool)
  | pint (n : Int)
  deriving DecidableEq, Repr

/-- Python truthiness `bool(x)` for the payload values we model. -/
def PyVal.truthy : PyVal → Bool
  | .pstr s => s ≠ ""
  | .pbool b => b
  | .pint n => n ≠ 0

/-- Python `str.strip()` at the character level (kernel-computable, unlike
`String.trim`): drop leading and trailing whitespace. -/
def pyStrip (s : String) : String :=
  String.mk (((s.data.dropWhile Char.isWhitespace).reverse.dropWhile
    Char.isWhitespace).reverse)

/-- Python `str.lower()` for the ASCII range the markers use. -/
def pyLower (s : String) : String := String.mk (s.data.map Char.toLower)

/-- Python `x or ""` on an optional string (`storage._norm_key`). -/
def normKey (v : Option String) : String := v.getD ""

/-- Python truthiness of an optional string: `None` and `""` are falsy. -/
def strTruthy : Option String → Bool
  | none => false
  | some s => s ≠ ""

/-- Python `a or b` on optional strings (first truthy operand, else `b`). -/
def pyOr (a b : Option String) : Option String :=
  if strTruthy a then a else b

/-- `(s or "").strip()`. -/
def pstrip (v : Option String) : String := pyStrip (v.getD "")

/-- `(s or "").strip().lower()` as used by the guest/archive checks. -/
def stripLower (v : Option String) : String := pyLower (pyStrip (v.getD ""))

/-! ## Storage rows (`storage.py`)

Each structure mirrors the columns of the corresponding SQLite table that
the core reads or writes.  `disabled` is the 0/1 integer column. -/

structure ChatSessionRow where
  id : Nat
  container_id : String
  prompt_id : String
  profile_id : String
  socks_id : String
  chat_id : Option String
  page_url : String
  uses_count : Nat
  disabled : Nat
  locked_by : Option String
  locked_until : Option String
  tag : Option String
  created_at : String
  updated_at : String
  deriving DecidableEq, Repr

structure JobRow where
  job_id : String
  request_id : Option String
  prompt_id : String
  selected_prompt_id : Option String
  decision_mode : Option String
  fanout_requested : Option Int
  fanout_used : Option Int
  container_ids_used : List String
  input_text : Option String
  input_image_present : Option Nat
  input_image_ext : Option String
  profile_id : Option String
  socks_id : Option String
  status : Option String
  result_text : Option String
  error_code : Option String
  error_message : Option String
  started_at : String
  finished_at : Option String
  deriving DecidableEq, Repr

structure AttemptRow where
  attempt_id : String
  job_id : String
  container_id : String
  prompt_id : String
  role : String
  profile_id : Option String
  socks_id : Option String
  chat_id : Option String
  page_url : Option String
  chat_session_id : Option String
  status : Option String
  result_text : Option String
  error_code : Option String
  error_message : Option String
  started_at : String
  finished_at : Option String
  deriving DecidableEq, Repr

structure ProfileRow where
  profile_id : String
  profile_value : String
  socks_id : Option String
  max_uses : Option Int
  uses_count : Nat
  pending_replace : Bool
  created_at : String
  updated_at : String
  deriving DecidableEq, Repr

/-- The relational store: the tables the executor touches, plus the
auto-increment counter for `chat_sessions.id`. -/
structure Store where
  chat_sessions : List ChatSessionRow
  jobs : List JobRow
  job_attempts : List AttemptRow
  profiles : List ProfileRow
  next_chat_session_id : Nat
  deriving DecidableEq, Repr

/-! ## Storage operations -/

/-- `chat_id='guest' OR tag='guest'` — SQL equality, so a NULL column never
matches. -/
def isGuestRow (r : ChatSessionRow) : Bool :=
  r.chat_id = some "guest" || r.tag = some "guest"

/-- `Storage.profile_has_guest_chat`. -/
def profile_has_guest_chat (st : Store) (profile_id : Option String) : Bool :=
  let pid := normKey profile_id
  if pid = "" then false
  else st.chat_sessions.any fun r => r.profile_id = pid && isGuestRow r

/-- `Storage.count_guest_chats_for_profile`. -/
def count_guest_chats_for_profile (st : Store) (profile_id : Option String) : Nat :=
  let pid := normKey profile_id
  if pid = "" then 0
  else (st.chat_sessions.filter fun r => r.profile_id = pid && isGuestRow r).length

/-- `Storage.delete_guest_chats_for_profile`: deletes every guest row of the
profile and reports how many went away. -/
def delete_guest_chats_for_profile (st : Store) (profile_id : Option String) :
    Store × Nat :=
  let pid := normKey profile_id
  if pid = "" then (st, 0)
  else
    let keep := st.chat_sessions.filter fun r => !(r.profile_id = pid && isGuestRow r)
    ({ st with chat_sessions := keep }, st.chat_sessions.length - keep.length)

/-- COALESCE(chat_id,'') / COALESCE(tag,'') NOT IN ('guest','archive'). -/
def notGuestArchive (v : Option String) : Bool :=
  let s := v.getD ""
  s ≠ "guest" && s ≠ "archive"

/-- `ORDER BY id DESC LIMIT 1` over a filtered row set. -/
def maxById : List ChatSessionRow → Option ChatSessionRow
  | [] => none
  | r :: rs =>
    match maxById rs with
    | none => some r
    | some m => if r.id ≥ m.id then some r else some m

/-- The WHERE clause of `Storage.get_chat_session` (without the optional
`chat_id=?` conjunct). -/
def chatSessionMatches (cid prompt_id pid sid : String) (r : ChatSessionRow) : Bool :=
  r.container_id = cid && r.prompt_id = prompt_id && r.profile_id = pid &&
  r.socks_id = sid && r.disabled = 0 &&
  notGuestArchive r.chat_id && notGuestArchive r.tag

/-- `Storage.get_chat_session`: newest active (disabled=0, non-guest/archive)
session for the (container, prompt, profile, socks) keys, optionally narrowed
to `preferred_chat_id`. -/
def get_chat_session (st : Store) (prompt_id : String) (container_id : String)
    (profile_id socks_id : Option String) (preferred_chat_id : Option String) :
    Option ChatSessionRow :=
  let cid := pyStrip container_id
  if cid = "" then none
  else
    let pid := normKey profile_id
    let sid := normKey socks_id
    let base := st.chat_sessions.filter (chatSessionMatches cid prompt_id pid sid)
    match preferred_chat_id with
    | some pref =>
      if pref ≠ "" then maxById (base.filter fun r => r.chat_id = some pref)
      else maxById base
    | none => maxById base

/-- `Storage.create_full_chat_session`: inserts a fresh row with
`uses_count=0, disabled=0` and NULL lock/tag columns. -/
def create_full_chat_session (st : Store) (container_id prompt_id : String)
    (profile_id socks_id : Option String) (chat_id : Option String)
    (page_url : String) (now : String) : Store × ChatSessionRow :=
  let row : ChatSessionRow :=
    { id := st.next_chat_session_id
      container_id := container_id
      prompt_id := prompt_id
      profile_id := normKey profile_id
      socks_id := normKey socks_id
      chat_id := chat_id
      page_url := page_url
      uses_count := 0
      disabled := 0
      locked_by := none
      locked_until := none
      tag := none
      created_at := now
      updated_at := now }
  ({ st with chat_sessions := st.chat_sessions ++ [row]
             next_chat_session_id := st.next_chat_session_id + 1 }, row)

/-- `storage._norm_tag`: strip, empty becomes NULL. -/
def normTag : Option String → Option String
  | none => none
  | some v => let s := pyStrip v; if s = "" then none else some s

/-- `Storage.update_full_chat_session_by_id`: COALESCE semantics — each field
is overwritten only when the argument is non-NULL; `updated_at` always moves.
Returns the row as re-read after the UPDATE (or `none` if the id is absent,
where the source's `assert row is not None` would fire). -/
def update_full_chat_session_by_id (st : Store) (chat_session_id : Nat)
    (chat_id page_url : Option String) (disabled : Option Bool)
    (tag : Option String) (now : String) : Store × Option ChatSessionRow :=
  let upd := fun (r : ChatSessionRow) =>
    if r.id = chat_session_id then
      { r with chat_id := (match chat_id with
                           | some c => some c
                           | none => r.chat_id)
               page_url := page_url.getD r.page_url
               disabled := (disabled.map fun b => if b then 1 else 0).getD r.disabled
               tag := (match normTag tag with
                       | some t => some t
                       | none => r.tag)
               updated_at := now }
    else r
  let st' := { st with chat_sessions := st.chat_sessions.map upd }
  (st', st'.chat_sessions.find? fun r => r.id = chat_session_id)

/-- `Storage.increment_chat_use`: a non-positive `by` is a no-op; otherwise
`uses_count += by` on the addressed row (`COALESCE(uses_count,0)+?`). -/
def increment_chat_use (st : Store) (chat_session_id : Nat) (by_ : Int)
    (now : String) : Store :=
  if by_ ≤ 0 then st
  else
    { st with chat_sessions := st.chat_sessions.map fun r =>
        if r.id = chat_session_id then
          { r with uses_count := r.uses_count + by_.toNat, updated_at := now }
        else r }

/-- `Storage.get_full_chat_session_by_url`: newest row with that `page_url`,
ignoring disabled/tag/chat_id. -/
def get_full_chat_session_by_url (st : Store) (page_url : String) :
    Option ChatSessionRow :=
  let url := pyStrip page_url
  if url = "" then none
  else maxById (st.chat_sessions.filter fun r => r.page_url = url)

/-- `Storage.mark_chat_session_tag`. -/
def mark_chat_session_tag (st : Store) (chat_session_id : Nat) (tag : String)
    (disabled : Option Bool) (now : String) : Store :=
  { st with chat_sessions := st.chat_sessions.map fun r =>
      if r.id = chat_session_id then
        match disabled with
        | none => { r with tag := normTag (some tag), updated_at := now }
        | some d => { r with tag := normTag (some tag),
                             disabled := if d then 1 else 0,
                             updated_at := now }
      else r }

/-- `Storage.get_profile`. -/
def get_profile (st : Store) (profile_id : String) : Option ProfileRow :=
  st.profiles.find? fun p => p.profile_id = profile_id

/-- `Storage.list_profiles` (ORDER BY profile_id ASC). -/
def list_profiles (st : Store) : List ProfileRow :=
  st.profiles.mergeSort fun a b => a.profile_id ≤ b.profile_id

/-- `Storage.increment_profile_use`. -/
def increment_profile_use (st : Store) (profile_id : String) (by_ : Int)
    (now : String) : Store :=
  if by_ ≤ 0 then st
  else
    { st with profiles := st.profiles.map fun p =>
        if p.profile_id = profile_id then
          { p with uses_count := p.uses_count + by_.toNat, updated_at := now }
        else p }

/-- `Storage.insert_job_start` as invoked by the executor: the row starts with
NULL status/result/error columns and NULL `finished_at`. -/
def insert_job_start (st : Store) (job_id : String) (prompt_id : String)
    (request_id input_text : Option String) (input_image_present : Bool)
    (input_image_ext profile_id socks_id : Option String) (started_at : String)
    (selected_prompt_id decision_mode : Option String)
    (fanout_requested fanout_used : Option Int)
    (container_ids_used : List String) : Store :=
  let row : JobRow :=
    { job_id := job_id
      request_id := request_id
      prompt_id := prompt_id
      selected_prompt_id := selected_prompt_id
      decision_mode := decision_mode
      fanout_requested := fanout_requested
      fanout_used := fanout_used
      container_ids_used := container_ids_used
      input_text := input_text
      input_image_present := some (if input_image_present then 1 else 0)
      input_image_ext := input_image_ext
      profile_id := profile_id
      socks_id := socks_id
      status := none
      result_text := none
      error_code := none
      error_message := none
      started_at := started_at
      finished_at := none }
  { st with jobs := st.jobs ++ [row] }

/-- `Storage.set_job_selected_containers`. -/
def set_job_selected_containers (st : Store) (job_id : String)
    (container_ids : List String) : Store :=
  { st with jobs := st.jobs.map fun j =>
      if j.job_id = job_id then { j with container_ids_used := container_ids } else j }

/-- The UPDATE of `MultiContainerExecutor._update_job_identity`. -/
def update_job_identity (st : Store) (job_id : String)
    (profile_id socks_id : Option String) : Store :=
  if job_id = "" then st
  else
    { st with jobs := st.jobs.map fun j =>
        if j.job_id = job_id then
          { j with profile_id := profile_id, socks_id := socks_id }
        else j }

/-- `Storage.update_job_finish` as invoked by the executor (the `status=`
keyword form): validates the status string, COALESCEs it into the row, and
always rewrites the result/error columns and `finished_at`. -/
def update_job_finish (st : Store) (job_id : String) (status : Option String)
    (result_text error_code error_message : Option String)
    (finished_at : String) (decision_mode : Option String) : Store :=
  let status_val :=
    let s := pstrip status
    if s = "succeeded" || s = "failed" then some s else none
  { st with jobs := st.jobs.map fun j =>
      if j.job_id = job_id then
        { j with status := (match status_val with
                            | some s => some s
                            | none => j.status)
                 result_text := result_text
                 error_code := error_code
                 error_message := error_message
                 decision_mode := (match decision_mode with
                                   | some d => some d
                                   | none => j.decision_mode)
                 finished_at := some finished_at }
      else j }

/-- `Storage.create_job_attempt`: inserts a row with NULL status and NULL
`finished_at`. -/
def create_job_attempt (st : Store) (attempt_id job_id container_id prompt_id
    role : String) (profile_id socks_id chat_id page_url chat_session_id :
    Option String) (started_at : String) : Store :=
  let row : AttemptRow :=
    { attempt_id := attempt_id
      job_id := job_id
      container_id := container_id
      prompt_id := prompt_id
      role := role
      profile_id := profile_id
      socks_id := socks_id
      chat_id := chat_id
      page_url := page_url
      chat_session_id := chat_session_id
      status := none
      result_text := none
      error_code := none
      error_message := none
      started_at := started_at
      finished_at := none }
  { st with job_attempts := st.job_attempts ++ [row] }

/-- `Storage.finish_job_attempt`. -/
def finish_job_attempt (st : Store) (attempt_id : String) (status : String)
    (result_text error_code error_message : Option String)
    (finished_at : String) : Store :=
  { st with job_attempts := st.job_attempts.map fun a =>
      if a.attempt_id = attempt_id then
        { a with status := some status
                 result_text := result_text
                 error_code := error_code
                 error_message := error_message
                 finished_at := some finished_at }
      else a }

/-! ## ProfileLock (`profiles/profile_lock.py`)

The per-profile mutex table is an association list `profile_id → entry`.
`asyncio.Lock` becomes the boolean `locked`; the four phases of the
`try_lock` context manager (fail-fast/reserve, acquire, cancel-rollback,
release) are separate pure transitions, because the await between
reservation and acquisition is the suspension point where cancellation can
strike. -/

structure LockEntry where
  locked : Bool
  holders : Int
  reserved : Bool
  reserved_by : Option String
  reserved_at_iso : Option String
  reserved_at_ts : Option Int
  locked_by : Option String
  locked_at_iso : Option String
  locked_at_ts : Option Int
  deriving DecidableEq, Repr

/-- A fresh `_LockEntry(lock=asyncio.Lock())`. -/
def LockEntry.fresh : LockEntry :=
  { locked := false, holders := 0, reserved := false, reserved_by := none,
    reserved_at_iso := none, reserved_at_ts := none, locked_by := none,
    locked_at_iso := none, locked_at_ts := none }

/-- The `ProfileLock._locks` dict. -/
structure LockState where
  entries : List (String × LockEntry)
  deriving DecidableEq, Repr

def LockState.get (st : LockState) (pid : String) : Option LockEntry :=
  (st.entries.find? fun e => e.1 = pid).map Prod.snd

def LockState.set (st : LockState) (pid : String) (entry : LockEntry) : LockState :=
  if (st.entries.find? fun e => e.1 = pid).isSome then
    ⟨st.entries.map fun e => if e.1 = pid then (pid, entry) else e⟩
  else ⟨st.entries ++ [(pid, entry)]⟩

/-- `self._locks.pop(profile_id, None)`. -/
def LockState.pop (st : LockState) (pid : String) : LockState :=
  ⟨st.entries.filter fun e => e.1 ≠ pid⟩

/-- `owner = (owner or "unknown").strip() or "unknown"`. -/
def normOwner (owner : String) : String :=
  let o := pyStrip (if owner = "" then "unknown" else owner)
  if o = "" then "unknown" else o

/-- Outcome of the first phase of `ProfileLock.try_lock` (everything up to
and including the reservation, before `await lock.acquire()`). -/
inductive TryLockStart
  /-- `profile_id` was empty after strip: yield immediately, touch nothing. -/
  | passthrough (st : LockState)
  /-- Fail-fast `ProfileBusyError` (state is "locked" or "reserved"). -/
  | busy (state : String) (held_by : Option String) (st : LockState)
  /-- Reservation placed and `holders` incremented; the caller now awaits
  the per-profile mutex. -/
  | reserved (st : LockState)
  deriving DecidableEq, Repr

/-- Phase 1 of `ProfileLock.try_lock`: strip ids, create the entry on
demand, fail fast when locked or reserved, otherwise reserve. -/
def tryLockStart (st : LockState) (profile_id owner : String)
    (now_iso : String) (now_ts : Int) : TryLockStart :=
  let pid := pyStrip profile_id
  let ow := normOwner owner
  if pid = "" then .passthrough st
  else
    let entry := (st.get pid).getD LockEntry.fresh
    let st0 := st.set pid entry
    if entry.locked then .busy "locked" entry.locked_by st0
    else if entry.reserved then .busy "reserved" entry.reserved_by st0
    else
      .reserved (st0.set pid
        { entry with reserved := true, reserved_by := some ow,
                     reserved_at_iso := some now_iso,
                     reserved_at_ts := some now_ts,
                     holders := entry.holders + 1 })

/-- The `finally` branch of `try_lock` taken when the task was cancelled (or
failed) before `lock.acquire()` completed: clear the reservation, roll back
`holders`, and garbage-collect the entry when it is idle. -/
def tryLockCancel (st : LockState) (profile_id : String) : LockState :=
  let pid := pyStrip profile_id
  match st.get pid with
  | none => st
  | some e =>
    let e' := { e with reserved := false, reserved_by := none,
                       reserved_at_iso := none, reserved_at_ts := none,
                       holders := e.holders - 1 }
    if e'.holders ≤ 0 && !e'.locked && !e'.reserved then st.pop pid
    else st.set pid e'

/-- `await lock.acquire()` succeeded: the mutex is taken and the reservation
is converted into ownership. -/
def tryLockAcquired (st : LockState) (profile_id owner : String)
    (now_iso : String) (now_ts : Int) : LockState :=
  let pid := pyStrip profile_id
  let ow := normOwner owner
  match st.get pid with
  | none => st
  | some e =>
    st.set pid { e with locked := true, reserved := false, reserved_by := none,
                        reserved_at_iso := none, reserved_at_ts := none,
                        locked_by := some ow, locked_at_iso := some now_iso,
                        locked_at_ts := some now_ts }

/-- The `finally` branch of `try_lock` after a successful acquire: release
the mutex, clear owner fields, decrement `holders`, garbage-collect. -/
def tryLockRelease (st : LockState) (profile_id : String) : LockState :=
  let pid := pyStrip profile_id
  match st.get pid with
  | none => st
  | some e =>
    let e' := { e with locked := false, locked_by := none,
                       locked_at_iso := none, locked_at_ts := none,
                       holders := e.holders - 1 }
    if e'.holders ≤ 0 && !e'.locked && !e'.reserved then st.pop pid
    else st.set pid e'

/-- Outcome of the entry phase of the legacy blocking `ProfileLock.lock`. -/
inductive LockStart
  /-- empty `profile_id`: yield immediately, touch nothing. -/
  | passthrough (st : LockState)
  /-- `holders` incremented; the caller now awaits the mutex. -/
  | awaiting (st : LockState)
  deriving DecidableEq, Repr

/-- Entry phase of `ProfileLock.lock` (lines 133–147): strip the id, yield
straight through when it is empty, otherwise register as a holder. -/
def lockStart (st : LockState) (profile_id : String) : LockStart :=
  let pid := pyStrip profile_id
  if pid = "" then .passthrough st
  else
    let entry := (st.get pid).getD LockEntry.fresh
    .awaiting (st.set pid { entry with holders := entry.holders + 1 })

/-! ## Upstream client (`upstream_client.py`) -/

/-- The typed view of an upstream JSON response body: the keys the
orchestrator reads, plus `dump`, the full `json.dumps` serialization used
only as a last-resort text fallback. -/
structure RawResp where
  text : Option String
  answer : Option String
  message : Option String
  result : Option String
  url : Option String
  page_url : Option String
  dump : String
  deriving DecidableEq, Repr

def RawResp.empty : RawResp :=
  { text := none, answer := none, message := none, result := none,
    url := none, page_url := none, dump := "{}" }

/-- What one low-level HTTP exchange produced: a status + body, or a
transport fault (timeout / connection / DNS). -/
inductive HttpAttempt
  | response (status : Nat) (payload : RawResp)
  | fault (msg : String)
  deriving DecidableEq, Repr

/-- Result of `UpstreamClient._request_json`: the classified outcome. -/
inductive ReqResult
  | ok (payload : RawResp)
  | busyErr (status : Nat) (payload : RawResp)
  | badRequestErr (status : Nat) (payload : RawResp)
  | serverErr (status : Nat) (payload : RawResp)
  | transportErr (msg : String)
  deriving DecidableEq, Repr

/-- The status classification of `_request_json`: transport fault →
`UpstreamTransportError`; `423` → `UpstreamBusyError`; other `4xx` →
`UpstreamBadRequestError`; `5xx` → `UpstreamServerError`. -/
def request_json : HttpAttempt → ReqResult
  | .fault msg => .transportErr msg
  | .response s p =>
    if s = 423 then .busyErr s p
    else if 400 ≤ s ∧ s < 500 then .badRequestErr s p
    else if s ≥ 500 then .serverErr s p
    else .ok p

def ReqResult.isTransport : ReqResult → Bool
  | .transportErr _ => true
  | _ => false

/-- `self._analyze_retries = max(0, min(int(analyze_retries), 2))`. -/
def clampAnalyzeRetries (analyze_retries : Int) : Int :=
  max 0 (min analyze_retries 2)

/-- `min(0.25 * (2 ** attempt), 2.0)` — the backoff slept between retried
attempts, in seconds. -/
def retryBackoff (attempt : Nat) : ℚ :=
  min ((1 / 4) * 2 ^ attempt) 2

/-- The retry loop of `_request_json_with_retries`, starting at a given
attempt index.  Returns the raised/returned result, the index of the last
attempt issued, and the list of backoffs slept. -/
def retryLoopFrom (env : Nat → HttpAttempt) (retries : Nat) (attempt : Nat) :
    ReqResult × Nat × List ℚ :=
  match request_json (env attempt) with
  | .transportErr m =>
    if attempt ≥ retries then (.transportErr m, attempt, [])
    else
      let r := retryLoopFrom env retries (attempt + 1)
      (r.1, r.2.1, retryBackoff attempt :: r.2.2)
  | r => (r, attempt, [])
termination_by retries + 1 - attempt
decreasing_by
  simp only [not_le] at *
  omega

/-- `UpstreamClient._request_json_with_retries` with a clamped retry
budget. -/
def request_json_with_retries (env : Nat → HttpAttempt) (retries : Nat) :
    ReqResult × Nat × List ℚ :=
  retryLoopFrom env retries 0

/-! ## Container selector busy classification (`containers/selector.py`) -/

/-- The fields of the upstream `/status` payload that busy classification
inspects. -/
structure StatusPayload where
  status : Option PyVal
  busy : Option PyVal
  deriving DecidableEq, Repr

/-- `selector._is_busy`: `status == "busy"` OR `bool(busy)` (Python
truthiness). -/
def selector_is_busy (p : StatusPayload) : Bool :=
  if p.status = some (.pstr "busy") then true
  else if (match p.busy with | some v => v.truthy | none => false) then true
  else false

/-- The executor's inline busy pre-check (executor.py line 762):
`st.get("status") == "busy" or bool(st.get("busy") is True)` — note the
identity test `is True`, which only the boolean `True` passes. -/
def precheckBusy (p : StatusPayload) : Bool :=
  p.status = some (.pstr "busy") || p.busy = some (.pbool true)

/-! ## ChatManager (`chats/manager.py`) -/

/-- `PromptSpec` from `prompts/registry.py`. -/
structure PromptSpec where
  prompt_id : String
  start_prompt : String
  default_max_chat_uses : Int
  file_path : String
  deriving DecidableEq, Repr

/-- `[^/?#]` — a character allowed in the captured chat id. -/
def chatIdChar (c : Char) : Bool := c ≠ '/' && c ≠ '?' && c ≠ '#'

/-- `re.search` for `/c/([^/?#]+)`: leftmost position where `/c/` is
followed by at least one allowed character; the group is the maximal run. -/
def extractChatIdAux : List Char → Option String
  | '/' :: 'c' :: '/' :: rest =>
    let run := rest.takeWhile chatIdChar
    if run ≠ [] then some (String.mk run)
    else extractChatIdAux ('c' :: '/' :: rest)
  | _ :: rest => extractChatIdAux rest
  | [] => none
termination_by l => l.length
decreasing_by all_goals simp [List.length]

/-- `chats/manager._extract_chat_id`. -/
def extract_chat_id (url : Option String) : Option String :=
  if (url.getD "") = "" then none
  else extractChatIdAux (url.getD "").data

/-- Exceptions that propagate out of the chat-setup steps (the executor
does not catch these, so they escape `execute`). -/
inductive Escape
  /-- `KeyError(f"chat_url not registered: ...")` in `get_or_create_chat`. -/
  | chatUrlNotRegistered (url : String)
  /-- `RuntimeError("chat_url container mismatch: ...")`. -/
  | chatUrlContainerMismatch (expected got : String)
  /-- the source's `assert row is not None` after an UPDATE. -/
  | storageAssert
  /-- a non-`UpstreamBusyError` upstream exception raised inside
  `ensure_chat_loaded` (only busy is caught by the executor there). -/
  | ensureUpstream (msg : String)
  deriving DecidableEq, Repr

/-- `uses_limit = int(max_chat_uses) if max_chat_uses is not None else
int(prompt_spec.default_max_chat_uses or 0) or 50`. -/
def usesLimit (max_chat_uses : Option Int) (ps : PromptSpec) : Int :=
  match max_chat_uses with
  | some m => m
  | none => if ps.default_max_chat_uses ≠ 0 then ps.default_max_chat_uses else 50

/-- `ChatManager.get_or_create_chat`: pinned `chat_url` lookup with
defensive container check, else reuse via `get_chat_session`, else a fresh
row on the service root URL. -/
def get_or_create_chat (st : Store) (container_id prompt_id : String)
    (ps : PromptSpec) (profile_id : String) (socks_id : Option String)
    (force_new : Bool) (max_chat_uses : Option Int)
    (chat_url : Option String) (preferred_chat_id : Option String)
    (now : String) : Except Escape (Store × ChatSessionRow) :=
  if strTruthy chat_url then
    match get_full_chat_session_by_url st (chat_url.getD "") with
    | none => .error (.chatUrlNotRegistered (chat_url.getD ""))
    | some sess =>
      if sess.container_id ≠ container_id then
        .error (.chatUrlContainerMismatch container_id sess.container_id)
      else .ok (st, sess)
  else
    match get_chat_session st prompt_id container_id (some profile_id)
      socks_id preferred_chat_id with
    | some s =>
      if force_new || (s.uses_count : Int) ≥ usesLimit max_chat_uses ps then
        .ok (create_full_chat_session st container_id prompt_id
          (some profile_id) (some ((pyOr socks_id (some "")).getD ""))
          none "https://chat.qwen.ai/" now)
      else .ok (st, s)
    | none =>
      .ok (create_full_chat_session st container_id prompt_id
        (some profile_id) (some ((pyOr socks_id (some "")).getD ""))
        none "https://chat.qwen.ai/" now)

/-- Whether `ensure_chat_loaded` sends the start prompt at all: only when
the session has no (truthy) chat id and the prompt has a non-empty start
prompt. -/
def ensureSendsStartPrompt (sess : ChatSessionRow) (ps : PromptSpec) : Bool :=
  !strTruthy sess.chat_id && pyStrip ps.start_prompt ≠ ""

/-- Result of `ChatManager.ensure_chat_loaded` as the executor sees it. -/
inductive EnsureResult
  | done (st : Store) (sess : ChatSessionRow)
  /-- `UpstreamBusyError` raised by the start-prompt `analyze_text`
  (the executor catches exactly this one and counts the container busy). -/
  | busyRaised (payload : RawResp)
  | escaped (e : Escape)
  deriving DecidableEq, Repr

/-- Upstream outcome of one `analyze_*` invocation, as supplied by the
environment. -/
inductive UpstreamOutcome
  | ok (raw : RawResp)
  | busy (payload : RawResp)
  | badRequest (payload : RawResp)
  | server (msg : String)
  | transport (msg : String)
  | other (msg : String)
  deriving DecidableEq, Repr

/-- `ChatManager.ensure_chat_loaded`: no-op when the chat id is already set
or the start prompt is empty; otherwise send the start prompt, adopt the
returned `page_url` (falling back to the previous one), extract the chat id
via `/c/([^/?#]+)`, persist, and count the start prompt as one use. -/
def ensure_chat_loaded (st : Store) (sess : ChatSessionRow) (ps : PromptSpec)
    (startOutcome : UpstreamOutcome) (now : String) : EnsureResult :=
  if strTruthy sess.chat_id then .done st sess
  else if pyStrip ps.start_prompt = "" then .done st sess
  else
    match startOutcome with
    | .ok raw =>
      match update_full_chat_session_by_id st sess.id
        (extract_chat_id (some ((pyOr raw.page_url
          (some sess.page_url)).getD "")))
        (some ((pyOr raw.page_url (some sess.page_url)).getD ""))
        (some false) none now with
      | (st1, some updated) =>
        .done (increment_chat_use st1 updated.id 1 now) updated
      | (_, none) => .escaped .storageAssert
    | .busy payload => .busyRaised payload
    | .badRequest _ => .escaped (.ensureUpstream "UpstreamBadRequestError")
    | .server m => .escaped (.ensureUpstream m)
    | .transport m => .escaped (.ensureUpstream m)
    | .other m => .escaped (.ensureUpstream m)

/-! ## Executor (`engine/executor.py`) -/

/-- `executor._is_blocked_chat` (same logic also lives in `storage.py`):
strip+lower the chat id and tag and test membership in {guest, archive}. -/
def exec_is_blocked_chat (chat_id tag : Option String) : Bool :=
  let cid := stripLower chat_id
  let t := stripLower tag
  if cid = "guest" || cid = "archive" then true
  else if t = "guest" || t = "archive" then true
  else false

/-- First string in the list that is non-empty after strip, stripped
(`isinstance(v, str) and v.strip()`). -/
def firstNonemptyStr : List (Option String) → Option String
  | [] => none
  | none :: rest => firstNonemptyStr rest
  | some s :: rest => if pyStrip s ≠ "" then some (pyStrip s) else firstNonemptyStr rest

/-- `executor._pick_text_from_raw` on a dict response: first non-empty of
`text/answer/message/result`, else of `url/page_url`, else the JSON dump of
the whole payload. -/
def pick_text_from_raw (raw : RawResp) : String :=
  match firstNonemptyStr [raw.text, raw.answer, raw.message, raw.result] with
  | some s => s
  | none =>
    match firstNonemptyStr [raw.url, raw.page_url] with
    | some s => s
    | none => raw.dump

/-- A value inside a `details` dict of a `SolveError`. -/
inductive DVal
  | dstr (s : String)
  | dint (n : Int)
  deriving DecidableEq, Repr

/-- The `details` of a `SolveError`: either a dict literal built by the
executor, or an upstream error payload forwarded verbatim. -/
inductive Details
  | fields (kvs : List (String × DVal))
  | payload (r : RawResp)
  deriving DecidableEq, Repr

structure SolveError where
  code : String
  message : String
  details : Details
  deriving DecidableEq, Repr

/-- The `meta` block of a `SolveResponse`.  The redacted `socks_url` of the
success meta and the raw `result_raw` blobs are opaque log-only strings and
are not modelled. -/
structure Meta where
  job_id : String
  request_id : String
  prompt_id_selected : String
  fanout_requested : Int
  container_ids_used : List String
  profile_id : Option String
  socks_id : Option String
  chat_ids_used : List String
  page_url : Option String
  started_at : String
  finished_at : String
  deriving DecidableEq, Repr

structure SolveResponse where
  ok : Bool
  final_text : Option String
  error : Option SolveError
  meta : Meta
  deriving DecidableEq, Repr

structure SolveInput where
  text : Option String
  image_b64 : Option String
  image_ext : Option String
  deriving DecidableEq, Repr

structure SolveOptions where
  prompt_id : Option String
  profile_id : Option String
  socks_override : Option String
  socks_id : Option String
  force_new_chat : Bool
  max_chat_uses : Option Int
  include_debug : Bool
  chat_url : Option String
  deriving DecidableEq, Repr

structure SolveRequest where
  prompt_id : Option String
  input : Option SolveInput
  options : Option SolveOptions
  deriving DecidableEq, Repr

/-- `executor._ProfileCandidate`. -/
structure ProfileCandidate where
  profile_id : String
  socks_override : Option String
  preferred_container_id : Option String
  preferred_chat_id : Option String
  deriving DecidableEq, Repr

/-- `ResolvedProfile` from `profiles/manager.py` as the executor consumes
it. -/
structure ResolvedProfile where
  profile_id : String
  profile_value : String
  socks_id : Option String
  socks_url : Option String
  allowed_containers : List String
  max_uses : Option Int
  pending_replace : Bool
  deriving DecidableEq, Repr

/-- Outcome of `ProfileManager.resolve_for_request`: success, `KeyError`
(unknown profile — the executor skips the candidate), or any other
exception (the executor fails the job with INTERNAL_ERROR). -/
inductive ResolveOutcome
  | ok (r : ResolvedProfile)
  | keyError
  | crash (msg : String)
  deriving DecidableEq, Repr

/-- The environment a single candidate iteration interacts with: the
profile manager, the profile lock, the selector, the pool and the upstream
container.  Each field is the outcome the corresponding external call
produces for this candidate. -/
structure CandEnv where
  resolve : ResolveOutcome
  /-- `try_lock` raised `ProfileBusyError` (the lock table belongs to other
  concurrent tasks, so its verdict is environmental). -/
  lockBusy : Bool
  /-- `pool.is_enabled` for the preferred container. -/
  isEnabled : String → Bool
  /-- `select_containers(..., fanout_requested=1)`: the chosen container,
  or `none` for `NotEnoughContainersError`. -/
  selector : Option String
  /-- `pool.get(container_id)` succeeded. -/
  poolGetOk : Bool
  /-- `upstream.status()` payload; `none` models a raised exception (the
  executor ignores it and proceeds). -/
  statusPayload : Option StatusPayload
  /-- outcome of the start-prompt `analyze_text` inside
  `ensure_chat_loaded`. -/
  ensureOutcome : UpstreamOutcome
  /-- outcome of the first `analyze_text`/`analyze_image_b64` call. -/
  analyze1 : UpstreamOutcome
  /-- outcome of the second analyze call (text+image requests only). -/
  analyze2 : UpstreamOutcome
  /-- the uuid `create_job_attempt` assigns. -/
  attemptId : String

/-- An upstream HTTP interaction issued by the executor for candidate
`cand` against container `container`. -/
inductive Event
  | statusCall (cand : Nat) (container : String)
  | analyzeText (cand : Nat) (container : String)
  | analyzeImage (cand : Nat) (container : String)
  deriving DecidableEq, Repr

/-- Is the event an `analyze_text`/`analyze_image_b64` invocation? -/
def Event.isAnalyze : Event → Bool
  | .statusCall _ _ => false
  | .analyzeText _ _ => true
  | .analyzeImage _ _ => true

/-- Request-scoped data threaded through the candidate loop. -/
structure ExecCtx where
  request_id : String
  prompt_id : String
  text : String
  has_image : Bool
  image_b64 : Option String
  image_ext : Option String
  force_new : Bool
  include_debug : Bool
  chat_url : Option String
  max_chat_uses : Int
  started_at : String
  now : String
  job_id : String
  ps : PromptSpec
  explicit_profile : Bool
  deriving DecidableEq, Repr

/-- `MultiContainerExecutor._fail`: finalize the job (when one exists) as
failed and build the error response with its meta block. -/
def failStep (st : Store) (ctx : ExecCtx) (job_id code message : String)
    (http : Nat) (profile_id socks_id : Option String)
    (container_ids_used : List String) (details : Details) :
    Nat × SolveResponse × Store :=
  let st' :=
    if job_id ≠ "" then
      update_job_finish st job_id (some "failed") none (some code)
        (some message) ctx.now (some "multi")
    else st
  (http,
   { ok := false, final_text := none,
     error := some { code := code, message := message, details := details },
     meta := { job_id := job_id, request_id := ctx.request_id,
               prompt_id_selected := ctx.prompt_id, fanout_requested := 1,
               container_ids_used := container_ids_used,
               profile_id := profile_id, socks_id := socks_id,
               chat_ids_used := [], page_url := none,
               started_at := ctx.started_at, finished_at := ctx.now } },
   st')

/-- `MultiContainerExecutor._handle_attempt_error`: finalize the attempt
row and the job row as failed with the mapped code and build the response. -/
def handleAttemptError (st : Store) (ctx : ExecCtx)
    (attempt_id container_id : String) (profile_id : String)
    (socks_id : Option String) (chat_session : ChatSessionRow)
    (code : String) (http : Nat) (message : String) (details : Details) :
    Nat × SolveResponse × Store :=
  let stA := finish_job_attempt st attempt_id "failed" none (some code)
    (some message) ctx.now
  let stB := update_job_finish stA ctx.job_id (some "failed") none (some code)
    (some message) ctx.now (some "multi")
  (http,
   { ok := false, final_text := none,
     error := some { code := code, message := message, details := details },
     meta := { job_id := ctx.job_id, request_id := ctx.request_id,
               prompt_id_selected := ctx.prompt_id, fanout_requested := 1,
               container_ids_used := [container_id],
               profile_id := some profile_id, socks_id := socks_id,
               chat_ids_used := if strTruthy chat_session.chat_id then
                 [chat_session.chat_id.getD ""] else [],
               page_url := some chat_session.page_url,
               started_at := ctx.started_at, finished_at := ctx.now } },
   stB)

/-- Result of processing one candidate of the loop in `execute`. -/
inductive StepOut
  /-- `continue`: counter deltas for `profile_busy`/`container_busy`. -/
  | skip (st : Store) (dProfileBusy dContainerBusy : Nat) (events : List Event)
  /-- a `return` out of `execute`. -/
  | done (http : Nat) (resp : SolveResponse) (st : Store) (events : List Event)
  /-- an uncaught exception propagating out of `execute`. -/
  | escape (e : Escape) (st : Store) (events : List Event)
  deriving DecidableEq, Repr

/-- Result of the setup stage of one candidate iteration (steps 5.1–5.7 of
`execute`: resolve, guest pre-check, lock, container choice, busy
pre-check, chat setup, and the blocked-session check).  `proceed` carries
everything the analyze stage (steps 5.8–5.9) needs. -/
inductive SetupOut
  | skip (st : Store) (dProfileBusy dContainerBusy : Nat) (events : List Event)
  | done (http : Nat) (resp : SolveResponse) (st : Store) (events : List Event)
  | escape (e : Escape) (st : Store) (events : List Event)
  | proceed (st : Store) (resolved : ResolvedProfile)
      (socks_key : Option String) (container_id : String)
      (sess : ChatSessionRow) (events : List Event)
  deriving DecidableEq, Repr

/-- The classification of a failed analyze call (executor lines 994–1058):
busy → CONTAINER_BUSY 503, bad request → INVALID_REQUEST 400,
server/transport → UPSTREAM_ERROR 502, anything else → INTERNAL_ERROR
500. -/
def analyzeErrorMapping (o : UpstreamOutcome) : String × Nat × String × Details :=
  match o with
  | .busy p => ("CONTAINER_BUSY", 503, "Контейнер занят", .payload p)
  | .badRequest p => ("INVALID_REQUEST", 400, "Неверный запрос", .payload p)
  | .server m => ("UPSTREAM_ERROR", 502, m, .fields [("error", .dstr m)])
  | .transport m => ("UPSTREAM_ERROR", 502, m, .fields [("error", .dstr m)])
  | .other m => ("INTERNAL_ERROR", 500, m, .fields [("error", .dstr m)])
  | .ok _ => ("", 0, "", .fields [])

/-- `resolved.socks_id or resolved.socks_url or None` (line 659). -/
def socksKeyOf (resolved : ResolvedProfile) : Option String :=
  pyOr resolved.socks_id (pyOr resolved.socks_url none)

/-- The `max_uses` guard of step 5.1 (lines 677–680): skip the candidate
when the profile row exists and its `uses_count` reached
`resolved.max_uses`. -/
def maxUsesSkip (st : Store) (resolved : ResolvedProfile) : Bool :=
  match resolved.max_uses with
  | some m =>
    match get_profile st resolved.profile_id with
    | some pr => decide ((pr.uses_count : Int) ≥ m)
    | none => false
  | none => false

/-- The preferred-container filter of step 5.3: drop the preference when it
is not allowed or not enabled. -/
def preferredContainer (cand : ProfileCandidate) (resolved : ResolvedProfile)
    (env : CandEnv) : Option String :=
  match (match cand.preferred_container_id with
         | some c =>
           if resolved.allowed_containers ≠ [] &&
              !(resolved.allowed_containers.contains c) then none
           else some c
         | none => none) with
  | some c => if env.isEnabled c then some c else none
  | none => none

/-- Step 5.3: the preferred container when it survived the filters, else
the selector's pick. -/
def chooseContainer (cand : ProfileCandidate) (resolved : ResolvedProfile)
    (env : CandEnv) : Option String :=
  match preferredContainer cand resolved env with
  | some c => some c
  | none => env.selector

/-- Step 5.5, the busy pre-check: a raised `status()` exception is
swallowed (no skip). -/
def statusBusySkip (env : CandEnv) : Bool :=
  match env.statusPayload with
  | some sp => precheckBusy sp
  | none => false

/-- Steps 5.1–5.7 of the candidate loop of
`MultiContainerExecutor.execute`. -/
def candidateSetup (ctx : ExecCtx) (idx : Nat) (cand : ProfileCandidate)
    (env : CandEnv) (st : Store) : SetupOut :=
  match env.resolve with
  | .keyError => .skip st 0 0 []
  | .crash msg =>
    let fr := failStep st ctx ctx.job_id "INTERNAL_ERROR" msg 500
      (some cand.profile_id) none [] (.fields [("error", .dstr msg)])
    .done fr.1 fr.2.1 fr.2.2 []
  | .ok resolved =>
    let socks_key := socksKeyOf resolved
    if maxUsesSkip st resolved then .skip st 0 0 []
    else if profile_has_guest_chat st (some resolved.profile_id) then
      if ctx.explicit_profile then
        let gn := count_guest_chats_for_profile st (some resolved.profile_id)
        let fr := failStep st ctx ctx.job_id "PROFILE_BLOCKED"
          "Профиль заблокирован: обнаружены guest-чаты (chat_id='guest'). Новые чаты для этого профиля запрещены до очистки."
          409 (some resolved.profile_id) socks_key []
          (.fields [("reason", .dstr "guest_chat_present"),
                    ("profile_id", .dstr resolved.profile_id),
                    ("guest_chats", .dint gn),
                    ("hint", .dstr "Очистите guest-записи через POST /v1/profiles/{profile_id}/guest/clear")])
        .done fr.1 fr.2.1 fr.2.2 []
      else .skip st 0 0 []
    else if env.lockBusy then .skip st 1 0 []
    else
      match chooseContainer cand resolved env with
      | none => .skip st 0 1 []
      | some container_id =>
        if !env.poolGetOk then .skip st 0 1 []
        else
          let events0 := [Event.statusCall idx container_id]
          if statusBusySkip env then .skip st 0 1 events0
          else
            let st1 := update_job_identity st ctx.job_id
              (some resolved.profile_id) socks_key
            let st2 := set_job_selected_containers st1 ctx.job_id [container_id]
            match get_or_create_chat st2 container_id ctx.prompt_id ctx.ps
              resolved.profile_id socks_key ctx.force_new
              (some ctx.max_chat_uses) ctx.chat_url cand.preferred_chat_id
              ctx.now with
            | .error e => .escape e st2 events0
            | .ok (st3, sess0) =>
              let evts := events0 ++
                (if ensureSendsStartPrompt sess0 ctx.ps then
                  [Event.analyzeText idx container_id] else [])
              match ensure_chat_loaded st3 sess0 ctx.ps env.ensureOutcome
                ctx.now with
              | .busyRaised _ => .skip st3 0 1 evts
              | .escaped e => .escape e st3 evts
              | .done st4 sess =>
                if sess.disabled ≠ 0 ||
                   exec_is_blocked_chat sess.chat_id sess.tag then
                  if stripLower sess.chat_id = "guest" ||
                     stripLower sess.tag = "guest" then
                    let st5 := mark_chat_session_tag st4 sess.id "guest"
                      (some true) ctx.now
                    let gn := count_guest_chats_for_profile st5
                      (some resolved.profile_id)
                    let fr := failStep st5 ctx ctx.job_id
                      "PROFILE_BLOCKED"
                      "Профиль заблокирован: upstream вернул guest-чат (chat_id='guest')."
                      409 (some resolved.profile_id) socks_key [container_id]
                      (.fields [("reason", .dstr "guest_chat_created"),
                                ("profile_id", .dstr resolved.profile_id),
                                ("guest_chats", .dint gn),
                                ("chat_session_id", .dstr (toString sess.id)),
                                ("page_url", .dstr sess.page_url),
                                ("hint", .dstr "Очистите guest-записи через POST /v1/profiles/{profile_id}/guest/clear")])
                    .done fr.1 fr.2.1 fr.2.2 evts
                  else
                    let st5 := mark_chat_session_tag st4 sess.id "archive"
                      (some true) ctx.now
                    if ctx.explicit_profile then
                      let fr := failStep st5 ctx ctx.job_id
                        "CHAT_BLOCKED"
                        "Чат помечен как guest/archive и не может быть использован."
                        409 (some resolved.profile_id) socks_key [container_id]
                        (.fields [("reason", .dstr "chat_blocked"),
                                  ("chat_session_id", .dstr (toString sess.id)),
                                  ("chat_id", .dstr (sess.chat_id.getD "")),
                                  ("tag", .dstr (sess.tag.getD "")),
                                  ("page_url", .dstr sess.page_url)])
                      .done fr.1 fr.2.1 fr.2.2 evts
                    else .skip st5 0 0 evts
                else .proceed st4 resolved socks_key container_id sess evts

/-- Steps 5.8–5.9 of the candidate loop: create the attempt row, invoke the
upstream (text / image / both), and finalize as success or mapped
failure. -/
def candidateAnalyze (ctx : ExecCtx) (idx : Nat) (env : CandEnv)
    (resolved : ResolvedProfile) (socks_key : Option String)
    (container_id : String) (sess : ChatSessionRow) (st : Store)
    (evts : List Event) : StepOut :=
  let st5 := create_job_attempt st env.attemptId ctx.job_id
    container_id ctx.prompt_id "single"
    (some resolved.profile_id) socks_key sess.chat_id
    (some sess.page_url) (some (toString sess.id)) ctx.now
  let succeed := fun (st' : Store) (evts' : List Event)
      (lastRaw : RawResp) =>
    let out_text := pick_text_from_raw lastRaw
    let stA := finish_job_attempt st' env.attemptId "succeeded"
      (some out_text) none none ctx.now
    let stB := update_job_finish stA ctx.job_id
      (some "succeeded") (some out_text) none none ctx.now
      (some "multi")
    let stC := increment_profile_use stB resolved.profile_id 1
      ctx.now
    StepOut.done 200
      { ok := true, final_text := some out_text, error := none,
        meta := { job_id := ctx.job_id,
                  request_id := ctx.request_id,
                  prompt_id_selected := ctx.prompt_id,
                  fanout_requested := 1,
                  container_ids_used := [container_id],
                  profile_id := some resolved.profile_id,
                  socks_id := socks_key,
                  chat_ids_used := if strTruthy sess.chat_id
                    then [sess.chat_id.getD ""] else [],
                  page_url := some sess.page_url,
                  started_at := ctx.started_at,
                  finished_at := ctx.now } }
      stC evts'
  let failAnalyze := fun (st' : Store) (evts' : List Event)
      (o : UpstreamOutcome) =>
    let hr := handleAttemptError st' ctx env.attemptId
      container_id resolved.profile_id socks_key sess
      (analyzeErrorMapping o).1 (analyzeErrorMapping o).2.1
      (analyzeErrorMapping o).2.2.1 (analyzeErrorMapping o).2.2.2
    StepOut.done hr.1 hr.2.1 hr.2.2 evts'
  if ctx.text ≠ "" && !ctx.has_image then
    let e1 := evts ++ [Event.analyzeText idx container_id]
    match env.analyze1 with
    | .ok raw =>
      succeed (increment_chat_use st5 sess.id 1 ctx.now) e1 raw
    | o => failAnalyze st5 e1 o
  else if ctx.has_image && ctx.text = "" then
    let e1 := evts ++ [Event.analyzeImage idx container_id]
    match env.analyze1 with
    | .ok raw =>
      succeed (increment_chat_use st5 sess.id 1 ctx.now) e1 raw
    | o => failAnalyze st5 e1 o
  else
    let e1 := evts ++ [Event.analyzeText idx container_id]
    match env.analyze1 with
    | .ok _ =>
      let st6 := increment_chat_use st5 sess.id 1 ctx.now
      let e2 := e1 ++ [Event.analyzeImage idx container_id]
      match env.analyze2 with
      | .ok raw2 =>
        succeed (increment_chat_use st6 sess.id 1 ctx.now) e2
          raw2
      | o => failAnalyze st6 e2 o
    | o => failAnalyze st5 e1 o

/-- One iteration of the candidate loop of
`MultiContainerExecutor.execute` (steps 5.1–5.9 of the source). -/
def runCandidate (ctx : ExecCtx) (idx : Nat) (cand : ProfileCandidate)
    (env : CandEnv) (st : Store) : StepOut :=
  match candidateSetup ctx idx cand env st with
  | .skip st' a b ev => .skip st' a b ev
  | .done h r st' ev => .done h r st' ev
  | .escape e st' ev => .escape e st' ev
  | .proceed st' resolved socks_key container_id sess ev =>
    candidateAnalyze ctx idx env resolved socks_key container_id sess st' ev

/-- Result of the whole candidate loop. -/
inductive LoopOut
  /-- every candidate was skipped; final counters and trace. -/
  | exhausted (st : Store) (profile_busy container_busy : Nat)
      (trace : List Event)
  | returned (http : Nat) (resp : SolveResponse) (st : Store)
      (trace : List Event)
  | escaped (e : Escape) (st : Store) (trace : List Event)
  deriving DecidableEq, Repr

/-- The `for cand in candidates` loop of `execute`. -/
def runLoop (ctx : ExecCtx) (envs : Nat → CandEnv) :
    List ProfileCandidate → Nat → Store → Nat → Nat → List Event → LoopOut
  | [], _, st, pb, cb, tr => .exhausted st pb cb tr
  | c :: rest, idx, st, pb, cb, tr =>
    match runCandidate ctx idx c (envs idx) st with
    | .skip st' dpb dcb ev => runLoop ctx envs rest (idx + 1) st' (pb + dpb)
        (cb + dcb) (tr ++ ev)
    | .done h r st' ev => .returned h r st' (tr ++ ev)
    | .escape e st' ev => .escaped e st' (tr ++ ev)

/-! ## Socks normalization (`upstream_client.normalize_socks_for_compare`)

Used by the auto-path candidate builder to compare socks ids/URLs.  `%XX`
escapes in the userinfo are decoded byte-wise (multi-byte UTF-8 sequences
and IPv6 bracket hosts are out of scope for the socks URLs this repository
handles). -/

def isHexDigitChar (c : Char) : Bool :=
  c.isDigit || ('a' ≤ c.toLower && c.toLower ≤ 'f')

def hexDigitVal (c : Char) : Nat :=
  if c.isDigit then c.toNat - '0'.toNat else c.toLower.toNat - 'a'.toNat + 10

/-- `urllib.parse.unquote` at the byte level. -/
def unquoteChars : List Char → List Char
  | '%' :: a :: b :: rest =>
    if isHexDigitChar a && isHexDigitChar b then
      Char.ofNat (16 * hexDigitVal a + hexDigitVal b) :: unquoteChars rest
    else '%' :: unquoteChars (a :: b :: rest)
  | c :: rest => c :: unquoteChars rest
  | [] => []
termination_by l => l.length
decreasing_by
  all_goals try simp [List.length]
  all_goals omega

def unquoteStr (s : String) : String := String.mk (unquoteChars s.data)

/-- `"://" in v` and the `urlsplit` decomposition used by the source. -/
def normalize_socks_for_compare (value : Option String) : Option String :=
  match value with
  | none => none
  | some s0 =>
    let v := pyStrip s0
    if v = "" then none
    else
      match v.splitOn "://" with
      | [_] => some v
      | scheme :: restParts =>
        let rest := String.intercalate "://" restParts
        let netloc := String.mk (rest.data.takeWhile fun c =>
          c ≠ '/' && c ≠ '?' && c ≠ '#')
        let hasAt := netloc.data.contains '@'
        let hostportRev := netloc.data.reverse.takeWhile (· ≠ '@')
        let hostport := hostportRev.reverse
        let userinfo :=
          if hasAt then
            (netloc.data.reverse.drop (hostportRev.length + 1)).reverse
          else []
        let hasColon := hostport.contains ':'
        let portRev := hostport.reverse.takeWhile (· ≠ ':')
        let portStr := portRev.reverse
        let hostPart := if hasColon then
          (hostport.reverse.drop (portRev.length + 1)).reverse else hostport
        if hasColon && portStr ≠ [] && !portStr.all Char.isDigit then
          -- `parts.port` raises for a non-numeric port; the source's
          -- catch-all returns the stripped input unchanged.
          some v
        else
          let hostname := String.mk (hostPart.map Char.toLower)
          let port_str :=
            if hasColon && portStr ≠ [] then
              toString (String.mk portStr).toNat!
            else ""
          let user := unquoteStr (String.mk
            (userinfo.takeWhile (· ≠ ':')))
          let password := unquoteStr (String.mk
            (if userinfo.contains ':' then
              userinfo.drop ((userinfo.takeWhile (· ≠ ':')).length + 1)
            else []))
          let auth := if user ≠ "" || password ≠ "" then
            user ++ ":" ++ password ++ "@" else ""
          let host := if port_str ≠ "" then hostname ++ ":" ++ port_str
            else hostname
          some (pyLower scheme ++ "://" ++ auth ++ host)
      | [] => some v

/-! ## Candidate enumeration (`executor._build_candidates`) -/

/-- `executor._list_recent_prompt_sessions`: active, non-guest/archive
sessions of the prompt, newest `updated_at` first, limited.  SQLite leaves
the order of `updated_at` ties unspecified; the model resolves them by the
(stable) original table order. -/
def list_recent_prompt_sessions (st : Store) (prompt_id : String)
    (limit : Nat) : List ChatSessionRow :=
  ((st.chat_sessions.filter fun r =>
      r.prompt_id = prompt_id && r.disabled = 0 &&
      notGuestArchive r.chat_id && notGuestArchive r.tag).mergeSort
    (fun a b => decide (b.updated_at ≤ a.updated_at))).take limit

/-- One auto-path candidate derived from a recent chat session (the body of
the first loop of `_build_candidates`), or `none` when the row is skipped. -/
def sessionCand (socks_override : Option String) (max_chat_uses : Int)
    (s : ChatSessionRow) : Option ProfileCandidate :=
  let pid := pyStrip s.profile_id
  if pid = "" then none
  else if (s.uses_count : Int) ≥ max_chat_uses then none
  else if (if strTruthy socks_override then
      let want := pyStrip (socks_override.getD "")
      let hav := pyStrip s.socks_id
      want ≠ "" && hav ≠ "" && want ≠ hav &&
        normalize_socks_for_compare (some want) ≠
          normalize_socks_for_compare (some hav)
    else false) then none
  else
    some { profile_id := pid,
           socks_override := pyOr socks_override
             (if s.socks_id ≠ "" then some s.socks_id else none),
           preferred_container_id :=
             (let c := pyStrip s.container_id; if c = "" then none else some c),
           preferred_chat_id :=
             (let c := pyStrip (s.chat_id.getD "")
              if c = "" then none else some c) }

/-- One auto-path candidate derived from a profile row (the body of the
second loop of `_build_candidates`). -/
def profileCand (socks_override : Option String) (p : ProfileRow) :
    Option ProfileCandidate :=
  if p.pending_replace then none
  else if (match p.max_uses with
           | some m => decide ((p.uses_count : Int) ≥ m)
           | none => false) then none
  else
    let pid := pyStrip p.profile_id
    if pid = "" then none
    else some { profile_id := pid, socks_override := socks_override,
                preferred_container_id := none, preferred_chat_id := none }

/-- The `(profile_id, socks, container, chat)` dedup key of
`_build_candidates`. -/
def candKey (c : ProfileCandidate) :
    String × Option String × Option String × Option String :=
  (c.profile_id, c.socks_override, c.preferred_container_id,
   c.preferred_chat_id)

/-- The `seen` set threading of `_build_candidates`: keep the first
occurrence of each key. -/
def dedupByKey :
    List (String × Option String × Option String × Option String) →
    List ProfileCandidate → List ProfileCandidate
  | _, [] => []
  | seen, c :: rest =>
    if seen.contains (candKey c) then dedupByKey seen rest
    else c :: dedupByKey (candKey c :: seen) rest

/-- `profiles.sort(key=lambda p: (int(p.uses_count or 0), p.profile_id))`. -/
def profileSortLe (a b : ProfileRow) : Bool :=
  a.uses_count < b.uses_count ||
    (a.uses_count = b.uses_count && a.profile_id ≤ b.profile_id)

/-- `MultiContainerExecutor._build_candidates`: pinned `chat_url`
validation (a `ValueError` message on failure), the single-candidate
explicit-profile path, or the auto path (recent sessions then remaining
profiles, deduplicated). -/
def build_candidates (st : Store) (prompt_id : String)
    (profile_id socks_override : Option String) (max_chat_uses : Int)
    (chat_url : Option String) :
    Except String (List ProfileCandidate × Option ChatSessionRow) := do
  let (chat_url_row, pid, so) ←
    if strTruthy chat_url then
      match get_full_chat_session_by_url st (chat_url.getD "") with
      | none => Except.error "chat_url не найден в базе (неизвестный чат)"
      | some cs =>
        if cs.prompt_id ≠ prompt_id then
          Except.error "chat_url не соответствует prompt_id"
        else if cs.disabled ≠ 0 || exec_is_blocked_chat cs.chat_id cs.tag then
          Except.error
            "chat_url относится к заблокированному чату (guest/archive) или disabled=1"
        else
          let pid' := if strTruthy profile_id then profile_id
            else some cs.profile_id
          if normKey pid' ≠ cs.profile_id then
            Except.error "chat_url не принадлежит указанному профилю"
          else
            Except.ok (some cs, pid', pyOr socks_override (some cs.socks_id))
    else Except.ok (none, profile_id, socks_override)
  if strTruthy pid then
    Except.ok ([{ profile_id := pid.getD "", socks_override := so,
                  preferred_container_id :=
                    chat_url_row.map (fun r => r.container_id),
                  preferred_chat_id :=
                    chat_url_row.bind (fun r => r.chat_id) }], chat_url_row)
  else
    let sessions := list_recent_prompt_sessions st prompt_id 60
    let fromSessions := sessions.filterMap (sessionCand so max_chat_uses)
    let profs := (list_profiles st).mergeSort profileSortLe
    let fromProfiles := profs.filterMap (profileCand so)
    Except.ok (dedupByKey [] (fromSessions ++ fromProfiles), none)

/-! ## `MultiContainerExecutor.execute` -/

/-- The request-independent environment of one `execute` call: generated
ids, clock readings, the prompt registry, and the per-candidate external
world. -/
structure ExecEnv where
  request_id : String
  job_id : String
  /-- `PromptRegistry.get_prompt`; `none` models the `KeyError` for an
  unknown prompt id. -/
  promptGet : String → Option PromptSpec
  candEnv : Nat → CandEnv
  started_at : String
  now : String

/-- Result of `execute`: an HTTP status + response, or an uncaught
exception unwinding out of the method. -/
inductive ExecOut
  | ok (http : Nat) (resp : SolveResponse) (st : Store) (trace : List Event)
  | escaped (e : Escape) (st : Store) (trace : List Event)
  deriving DecidableEq, Repr

def ExecOut.store : ExecOut → Store
  | .ok _ _ st _ => st
  | .escaped _ st _ => st

/-- Line 479: `(options.prompt_id if truthy) or req.prompt_id or
"default"`. -/
def reqPromptIdOf (req : SolveRequest) : String :=
  (pyOr (match req.options with
         | some o => if strTruthy o.prompt_id then o.prompt_id else none
         | none => none)
    (pyOr req.prompt_id (some "default"))).getD "default"

/-- Line 481: the stripped input text, `""` when absent. -/
def reqTextOf (req : SolveRequest) : String :=
  match req.input with
  | some i => if strTruthy i.text then pyStrip (i.text.getD "") else ""
  | none => ""

/-- Line 482: `bool(req.input and req.input.image_b64)`. -/
def reqHasImage (req : SolveRequest) : Bool :=
  match req.input with
  | some i => strTruthy i.image_b64
  | none => false

/-- Line 484: the stripped image extension, `None` when absent. -/
def reqImageExtOf (req : SolveRequest) : Option String :=
  match req.input with
  | some i => if strTruthy i.image_ext then some (pyStrip (i.image_ext.getD ""))
      else none
  | none => none

/-- Result of the pre-loop part of `execute`: an early `_fail` return, or
the prepared context, candidate list and store carrying the inserted job
row. -/
inductive PrepOut
  | early (http : Nat) (resp : SolveResponse) (st : Store)
  | go (ctx : ExecCtx) (candidates : List ProfileCandidate) (st : Store)
  deriving DecidableEq, Repr

/-- Lines 1064–1085 of `execute`: the verdict when every candidate was
skipped — `PROFILE_BUSY 503` when only profile locks were hit, otherwise
`CONTAINER_BUSY 503`, both finalizing the job and reporting the two
counters. -/
def exhaustVerdict (ctx : ExecCtx) (env : ExecEnv) (st : Store)
    (pb cb : Nat) (tr : List Event) : ExecOut :=
  if pb ≠ 0 && cb = 0 then
    let fr := failStep st ctx env.job_id "PROFILE_BUSY"
      "Нет свободных профилей" 503 none none []
      (.fields [("profile_busy", .dint pb), ("container_busy", .dint cb)])
    .ok fr.1 fr.2.1 fr.2.2 tr
  else
    let fr := failStep st ctx env.job_id "CONTAINER_BUSY"
      "Нет доступных контейнеров" 503 none none []
      (.fields [("profile_busy", .dint pb), ("container_busy", .dint cb)])
    .ok fr.1 fr.2.1 fr.2.2 tr

/-- Validation, prompt resolution, job insertion and candidate enumeration
of `execute` (everything before the candidate loop). -/
def prepare (req : SolveRequest) (st : Store) (env : ExecEnv) : PrepOut :=
  let prompt_id := reqPromptIdOf req
  let text := reqTextOf req
  let has_image := reqHasImage req
  let image_b64 := req.input.bind fun i => i.image_b64
  let image_ext := reqImageExtOf req
  let ctx0 : ExecCtx :=
    { request_id := env.request_id, prompt_id := prompt_id, text := text,
      has_image := has_image, image_b64 := image_b64, image_ext := image_ext,
      force_new := false, include_debug := false, chat_url := none,
      max_chat_uses := 0, started_at := env.started_at, now := env.now,
      job_id := "",
      ps := ({ prompt_id := prompt_id, start_prompt := "",
               default_max_chat_uses := 0, file_path := "" } : PromptSpec),
      explicit_profile := false }
  if text = "" && !has_image then
    let fr := failStep st ctx0 "" "INVALID_REQUEST"
      "Нужно передать text и/или image_b64" 400 none none [] (.fields [])
    .early fr.1 fr.2.1 fr.2.2
  else if has_image && !strTruthy image_ext then
    let fr := failStep st ctx0 "" "INVALID_REQUEST"
      "Если передан image_b64, нужно указать image_ext" 400 none none []
      (.fields [])
    .early fr.1 fr.2.1 fr.2.2
  else
    match env.promptGet prompt_id with
    | none =>
      let fr := failStep st ctx0 "" "INVALID_REQUEST"
        ("Unknown prompt_id: " ++ prompt_id) 400 none none []
        (.fields [("error", .dstr ("Unknown prompt_id: " ++ prompt_id))])
      .early fr.1 fr.2.1 fr.2.2
    | some ps =>
      let default_max_chat_uses :=
        if ps.default_max_chat_uses ≠ 0 then ps.default_max_chat_uses else 50
      let profile_id_opt : Option String := match req.options with
        | some o => if strTruthy o.profile_id then
            some (pyStrip (o.profile_id.getD "")) else none
        | none => none
      let force_new := match req.options with
        | some o => o.force_new_chat
        | none => false
      let include_debug := match req.options with
        | some o => o.include_debug
        | none => false
      let chat_url : Option String := match req.options with
        | some o => if strTruthy o.chat_url then
            some (pyStrip (o.chat_url.getD "")) else none
        | none => none
      let max_chat_uses := match req.options with
        | some o => o.max_chat_uses.getD default_max_chat_uses
        | none => default_max_chat_uses
      let socks_override : Option String := match req.options with
        | some o => (pyOr o.socks_override (pyOr o.socks_id none)).map
            pyStrip
        | none => none
      let st1 := insert_job_start st env.job_id prompt_id
        (some env.request_id) (if text ≠ "" then some text else none)
        has_image image_ext profile_id_opt none env.started_at
        (some prompt_id) (some "multi") (some 1) (some 1) []
      let ctx : ExecCtx :=
        { ctx0 with force_new := force_new, include_debug := include_debug,
                    chat_url := chat_url, max_chat_uses := max_chat_uses,
                    job_id := env.job_id, ps := ps,
                    explicit_profile :=
                      strTruthy profile_id_opt || strTruthy chat_url }
      match build_candidates st1 prompt_id profile_id_opt socks_override
        max_chat_uses chat_url with
      | .error msg =>
        let fr := failStep st1 ctx env.job_id "INVALID_REQUEST" msg
          400 none none [] (.fields [("error", .dstr msg)])
        .early fr.1 fr.2.1 fr.2.2
      | .ok (candidates, _) =>
        if candidates.isEmpty then
          let fr := failStep st1 ctx env.job_id "INTERNAL_ERROR"
            "Нет доступных профилей (storage.list_profiles вернул пусто)" 500
            none none [] (.fields [])
          .early fr.1 fr.2.1 fr.2.2
        else .go ctx candidates st1

/-- `MultiContainerExecutor.execute`: input validation, prompt resolution,
job insertion, candidate enumeration, the per-candidate loop, and the
exhaustion verdict. -/
def execute (req : SolveRequest) (st : Store) (env : ExecEnv) : ExecOut :=
  match prepare req st env with
  | .early h r st' => .ok h r st' []
  | .go ctx candidates st1 =>
    match runLoop ctx env.candEnv candidates 0 st1 0 0 [] with
    | .returned h r st' tr => .ok h r st' tr
    | .escaped e st' tr => .escaped e st' tr
    | .exhausted st' pb cb tr => exhaustVerdict ctx env st' pb cb tr

/-! ## Shared concrete fixtures for witnesses and counterexamples -/

/-- A one-prompt registry entry with no start prompt. -/
def psDefault : PromptSpec :=
  { prompt_id := "default", start_prompt := "", default_max_chat_uses := 50,
    file_path := "prompts/default.txt" }

def sampleProfile : ProfileRow :=
  { profile_id := "p1", profile_value := "/prof/p1", socks_id := none,
    max_uses := none, uses_count := 0, pending_replace := false,
    created_at := "t0", updated_at := "t0" }

/-- A store with one profile and no sessions/jobs/attempts. -/
def store0 : Store :=
  { chat_sessions := [], jobs := [], job_attempts := [],
    profiles := [sampleProfile], next_chat_session_id := 1 }

def resolvedP1 : ResolvedProfile :=
  { profile_id := "p1", profile_value := "/prof/p1", socks_id := none,
    socks_url := none, allowed_containers := [], max_uses := none,
    pending_replace := false }

/-- A candidate environment where everything is available and every
upstream call succeeds with an empty payload. -/
def envOkBase : CandEnv :=
  { resolve := .ok resolvedP1, lockBusy := false, isEnabled := fun _ => true,
    selector := some "c1", poolGetOk := true,
    statusPayload := some ({ status := some (.pstr "ok"),
                             busy := some (.pbool false) } : StatusPayload),
    ensureOutcome := .ok RawResp.empty, analyze1 := .ok RawResp.empty,
    analyze2 := .ok RawResp.empty, attemptId := "att1" }

def execEnvOf (ce : CandEnv) : ExecEnv :=
  { request_id := "req1", job_id := "job1",
    promptGet := fun pid => if pid = "default" then some psDefault else none,
    candEnv := fun _ => ce, started_at := "t1", now := "t2" }

/-- A plain explicit-profile text solve request. -/
def reqText : SolveRequest :=
  { prompt_id := none,
    input := some ({ text := some "hi", image_b64 := none,
                     image_ext := none } : SolveInput),
    options := some ({ prompt_id := none, profile_id := some "p1",
                       socks_override := none, socks_id := none,
                       force_new_chat := false, max_chat_uses := none,
                       include_debug := false,
                       chat_url := none } : SolveOptions) }

/-- A sample chat-session row used by storage-level witnesses. -/
def sampleSession : ChatSessionRow :=
  { id := 7, container_id := "c1", prompt_id := "default",
    profile_id := "p1", socks_id := "", chat_id := some "abc",
    page_url := "https://chat.qwen.ai/c/abc", uses_count := 3, disabled := 0,
    locked_by := none, locked_until := none, tag := none,
    created_at := "t0", updated_at := "t0" }

def storeOneSession : Store :=
  { chat_sessions := [sampleSession], jobs := [], job_attempts := [],
    profiles := [sampleProfile], next_chat_session_id := 8 }

/-- The events of a candidate-step outcome. -/
def stepEvents : StepOut → List Event
  | .skip _ _ _ ev => ev
  | .done _ _ _ ev => ev
  | .escape _ _ ev => ev

/-- The events of a setup-stage outcome. -/
def setupEvents : SetupOut → List Event
  | .skip _ _ _ ev => ev
  | .done _ _ _ ev => ev
  | .escape _ _ ev => ev
  | .proceed _ _ _ _ _ ev => ev

/-- The upstream trace of an `execute` run. -/
def ExecOut.trace : ExecOut → List Event
  | .ok _ _ _ tr => tr
  | .escaped _ _ tr => tr

/-- The HTTP status of a normal `execute` return. -/
def ExecOut.httpCode : ExecOut → Option Nat
  | .ok h _ _ _ => some h
  | .escaped _ _ _ => none

/-- The request context `prepare` builds for `reqText` under `execEnvOf`. -/
def ctxW : ExecCtx :=
  { request_id := "req1", prompt_id := "default", text := "hi",
    has_image := false, image_b64 := none, image_ext := none,
    force_new := false, include_debug := false, chat_url := none,
    max_chat_uses := 50, started_at := "t1", now := "t2", job_id := "job1",
    ps := psDefault, explicit_profile := true }

/-- The same context in auto mode (no explicit profile or chat url). -/
def ctxAuto : ExecCtx := { ctxW with explicit_profile := false }

def candW : ProfileCandidate :=
  { profile_id := "p1", socks_override := none,
    preferred_container_id := none, preferred_chat_id := none }

/-- The analyze call of the candidate fails with an upstream 5xx. -/
def envAnalyzeFail : CandEnv := { envOkBase with analyze1 := .server "boom" }

/-- A status payload that is busy by truthiness (`busy=1`) but not by the
executor's `is True` identity test. -/
def payloadBusy1 : StatusPayload :=
  { status := some (.pstr "ok"), busy := some (.pint 1) }

def envBusy1 : CandEnv := { envOkBase with statusPayload := some payloadBusy1 }

/-- A status payload with `status=="busy"`. -/
def payloadBusyStatus : StatusPayload :=
  { status := some (.pstr "busy"), busy := none }

def envBusyStatus : CandEnv :=
  { envOkBase with statusPayload := some payloadBusyStatus }

/-- `try_lock` raises `ProfileBusyError` for the only candidate. -/
def envLockBusy : CandEnv := { envOkBase with lockBusy := true }

/-- A request with neither text nor image. -/
def reqEmpty : SolveRequest :=
  { prompt_id := none, input := none, options := none }

/-- A guest chat session of profile `p1`. -/
def guestSession : ChatSessionRow :=
  { sampleSession with id := 9, chat_id := some "guest" }

/-- `store0` after profile `p1` produced a guest chat. -/
def storeGuest : Store :=
  { store0 with chat_sessions := [guestSession], next_chat_session_id := 10 }

/-- The chat session `candidateSetup` creates for `ctxW`/`candW` on
`store0`. -/
def sessW : ChatSessionRow :=
  { id := 1, container_id := "c1", prompt_id := "default", profile_id := "p1",
    socks_id := "", chat_id := none, page_url := "https://chat.qwen.ai/",
    uses_count := 0, disabled := 0, locked_by := none, locked_until := none,
    tag := none, created_at := "t2", updated_at := "t2" }

/-- `store0` after that setup stage. -/
def st4W : Store :=
  { chat_sessions := [sessW], jobs := [], job_attempts := [],
    profiles := [sampleProfile], next_chat_session_id := 2 }

/-- What a failed analyze call leaves behind: the loop returns at once —
whatever candidates remain — with the mapped HTTP status and error of
outcome `o`, the fresh attempt row failed with the mapped code, and every
job row of the job failed with it. -/
def FailReturn (ctx : ExecCtx) (envs : Nat → CandEnv) (idx : Nat)
    (cand : ProfileCandidate) (rest : List ProfileCandidate) (st : Store)
    (pb cb : Nat) (tr : List Event) (o : UpstreamOutcome) (aid : String)
    (trace : List Event) : Prop :=
  ∃ resp st',
    runLoop ctx envs (cand :: rest) idx st pb cb tr =
      .returned (analyzeErrorMapping o).2.1 resp st' trace ∧
    resp.error = some (SolveError.mk (analyzeErrorMapping o).1
      (analyzeErrorMapping o).2.2.1 (analyzeErrorMapping o).2.2.2) ∧
    (∃ a ∈ st'.job_attempts, a.attempt_id = aid ∧ a.job_id = ctx.job_id ∧
      a.status = some "failed" ∧
      a.error_code = some (analyzeErrorMapping o).1 ∧
      a.finished_at = some ctx.now) ∧
    ∀ j ∈ st'.jobs, j.job_id = ctx.job_id →
      j.status = some "failed" ∧
      j.error_code = some (analyzeErrorMapping o).1 ∧
      j.finished_at = some ctx.now

/-! ## C10 — `increment_chat_use` -/

/-- **C10**: `Storage.increment_chat_use` with `by ≤ 0` leaves the store
completely unchanged; with positive `by` it adds exactly `by` to the
addressed row's `uses_count` (stamping `updated_at`) and leaves every other
row untouched; consequently no row's `uses_count` ever decreases through
this operation. -/
theorem C10_increment_chat_use_spec (st : Store) (sid : Nat) (by_ : Int)
    (now : String) :
    (by_ ≤ 0 → increment_chat_use st sid by_ now = st) ∧
    (0 < by_ →
      ((by_.toNat : Int) = by_ ∧
       (∀ r ∈ st.chat_sessions, r.id = sid →
         { r with uses_count := r.uses_count + by_.toNat,
                  updated_at := now } ∈
           (increment_chat_use st sid by_ now).chat_sessions) ∧
       (∀ r ∈ st.chat_sessions, r.id ≠ sid →
         r ∈ (increment_chat_use st sid by_ now).chat_sessions))) ∧
    (∀ r' ∈ (increment_chat_use st sid by_ now).chat_sessions,
       ∃ r ∈ st.chat_sessions, r.id = r'.id ∧ r.uses_count ≤ r'.uses_count) := by
  refine ⟨fun h => ?_, fun h => ?_, fun r' hr' => ?_⟩
  · simp [increment_chat_use, h]
  · have hnot : ¬ by_ ≤ 0 := by omega
    refine ⟨by omega, fun r hr hid => ?_, fun r hr hid => ?_⟩
    · simp only [increment_chat_use, if_neg hnot]
      exact List.mem_map.2 ⟨r, hr, by simp [hid]⟩
    · simp only [increment_chat_use, if_neg hnot]
      exact List.mem_map.2 ⟨r, hr, by simp [hid]⟩
  · by_cases h : by_ ≤ 0
    · simp only [increment_chat_use, if_pos h] at hr'
      exact ⟨r', hr', rfl, le_refl _⟩
    · simp only [increment_chat_use, if_neg h] at hr'
      rcases List.mem_map.1 hr' with ⟨r, hr, heq⟩
      by_cases hid : r.id = sid
      · refine ⟨r, hr, ?_, ?_⟩ <;> simp [← heq, hid]
      · refine ⟨r, hr, ?_, ?_⟩ <;> simp [← heq, hid]

/-- **C10 witness**: the spec evaluated at a concrete store, once with
`by = -3` (no-op) and once with `by = 2` (adds exactly 2). -/
theorem C10_increment_chat_use_witness :
    (increment_chat_use storeOneSession 7 (-3) "tX" = storeOneSession) ∧
    ({ sampleSession with uses_count := 5, updated_at := "tX" } ∈
      (increment_chat_use storeOneSession 7 2 "tX").chat_sessions) := by
  refine ⟨(C10_increment_chat_use_spec storeOneSession 7 (-3) "tX").1
    (by decide), ?_⟩
  have h := ((C10_increment_chat_use_spec storeOneSession 7 2 "tX").2.1
    (by decide)).2.1 sampleSession (by decide) (by decide)
  exact h

/-! ## C9 — empty profile id bypasses the profile lock -/

/-- **C9**: `ProfileLock.try_lock` and `ProfileLock.lock` with an empty or
whitespace-only `profile_id` yield immediately: no entry is created, no
reservation or acquisition happens and the state is untouched, so
`ProfileBusy` is never raised for the empty id, and a second concurrent
caller passes straight through as well (no mutual exclusion). -/
theorem C9_empty_profile_id_passthrough (st : LockState)
    (pid owner owner2 now now2 : String) (ts ts2 : Int)
    (h : pyStrip pid = "") :
    tryLockStart st pid owner now ts = .passthrough st ∧
    lockStart st pid = .passthrough st ∧
    tryLockStart st pid owner2 now2 ts2 = .passthrough st := by
  refine ⟨?_, ?_, ?_⟩ <;> simp [tryLockStart, lockStart, h]

/-- **C9 witness**: the whitespace-only profile id `"  "` on a state that
already holds a lock for profile `p1`. -/
theorem C9_empty_profile_id_witness :
    pyStrip "  " = "" ∧
    tryLockStart ⟨[("p1", { LockEntry.fresh with locked := true })]⟩ "  "
      "o1" "t" 0 =
      .passthrough ⟨[("p1", { LockEntry.fresh with locked := true })]⟩ := by
  refine ⟨by decide, ?_⟩
  exact (C9_empty_profile_id_passthrough _ "  " "o1" "o2" "t" "t" 0 0
    (by decide)).1

/-! ## C5 — lock rollback on cancellation -/

theorem find?_replace_self (l : List (String × LockEntry)) (pid : String)
    (e : LockEntry) (h : (l.find? fun x => x.1 = pid).isSome) :
    ((l.map fun x => if x.1 = pid then (pid, e) else x).find?
      fun x => x.1 = pid) = some (pid, e) := by
  induction l with
  | nil => simp at h
  | cons a t ih =>
    by_cases ha : a.1 = pid
    · simp [List.find?_cons, ha]
    · have h1 : ((a :: t).find? fun x => x.1 = pid) =
          t.find? fun x => x.1 = pid := by
        simp [List.find?_cons, ha]
      have h2 : (((a :: t).map fun x => if x.1 = pid then (pid, e) else x).find?
            fun x => x.1 = pid) =
          ((t.map fun x => if x.1 = pid then (pid, e) else x).find?
            fun x => x.1 = pid) := by
        simp [List.find?_cons, ha]
      rw [h2]
      exact ih (h1 ▸ h)

theorem find?_append_self (l : List (String × LockEntry)) (pid : String)
    (e : LockEntry) (h : (l.find? fun x => x.1 = pid) = none) :
    ((l ++ [(pid, e)]).find? fun x => x.1 = pid) = some (pid, e) := by
  induction l with
  | nil => simp
  | cons a t ih =>
    by_cases ha : a.1 = pid
    · rw [List.find?_cons] at h
      simp [ha] at h
    · have h1 : ((a :: t).find? fun x => x.1 = pid) =
          t.find? fun x => x.1 = pid := by
        simp [List.find?_cons, ha]
      have h2 : (((a :: t) ++ [(pid, e)]).find? fun x => x.1 = pid) =
          ((t ++ [(pid, e)]).find? fun x => x.1 = pid) := by
        simp [List.find?_cons, ha]
      rw [h2]
      exact ih (h1 ▸ h)

/-- Writing an entry makes it readable back (Python dict assignment). -/
theorem lockGet_set_self (st : LockState) (pid : String) (e : LockEntry) :
    (st.set pid e).get pid = some e := by
  unfold LockState.set LockState.get
  by_cases h : (st.entries.find? fun x => x.1 = pid).isSome
  · simp only [if_pos h]
    rw [find?_replace_self st.entries pid e h]
    rfl
  · rw [Option.not_isSome_iff_eq_none] at h
    have h2 : ¬ (st.entries.find? fun x => x.1 = pid).isSome = true := by
      simp [h]
    simp only [if_neg h2]
    rw [find?_append_self st.entries pid e h]
    rfl

/-- `pop` removes the key (Python `dict.pop`). -/
theorem lockGet_pop_self (st : LockState) (pid : String) :
    (st.pop pid).get pid = none := by
  unfold LockState.pop LockState.get
  have h : ((st.entries.filter fun x => x.1 ≠ pid).find?
      fun x => x.1 = pid) = none := by
    apply List.find?_eq_none.2
    intro x hx
    have h2 := (List.mem_filter.1 hx).2
    simpa using h2
  rw [h]
  rfl

/-- `try_lock` reserves whenever the id is non-empty and the entry is
neither locked nor reserved. -/
theorem tryLockStart_free (st : LockState) (pid owner now : String) (ts : Int)
    (hempty : ¬ pyStrip pid = "")
    (hl : ((st.get (pyStrip pid)).getD LockEntry.fresh).locked = false)
    (hr : ((st.get (pyStrip pid)).getD LockEntry.fresh).reserved = false) :
    tryLockStart st pid owner now ts = .reserved
      ((st.set (pyStrip pid) ((st.get (pyStrip pid)).getD LockEntry.fresh)).set
        (pyStrip pid)
        { (st.get (pyStrip pid)).getD LockEntry.fresh with
          reserved := true, reserved_by := some (normOwner owner),
          reserved_at_iso := some now, reserved_at_ts := some ts,
          holders :=
            ((st.get (pyStrip pid)).getD LockEntry.fresh).holders + 1 }) := by
  simp only [tryLockStart]
  rw [if_neg hempty, hl, hr]
  simp

/-- **C5**: a `try_lock` that reserved the profile and is then cancelled
before acquisition rolls back the reservation flag, owner fields and
holders count; the entry is garbage-collected when the rolled-back holders
count reaches zero (the mutex being unlocked and unreserved); and a
subsequent `try_lock` for the same profile succeeds again with a fresh
reservation rather than failing with `ProfileBusy`. -/
theorem C5_cancel_rolls_back_reservation (st st1 : LockState)
    (pid owner owner2 now now2 : String) (ts ts2 : Int)
    (h : tryLockStart st pid owner now ts = .reserved st1) :
    (((st.get (pyStrip pid)).getD LockEntry.fresh).holders ≤ 0 →
      (tryLockCancel st1 pid).get (pyStrip pid) = none) ∧
    (¬ ((st.get (pyStrip pid)).getD LockEntry.fresh).holders ≤ 0 →
      ∃ e, (tryLockCancel st1 pid).get (pyStrip pid) = some e ∧
        e.reserved = false ∧ e.reserved_by = none ∧
        e.reserved_at_iso = none ∧ e.reserved_at_ts = none ∧
        e.holders = ((st.get (pyStrip pid)).getD LockEntry.fresh).holders ∧
        e.locked = false) ∧
    (∃ st3, tryLockStart (tryLockCancel st1 pid) pid owner2 now2 ts2 =
      .reserved st3) := by
  unfold tryLockStart at h
  set pid' := pyStrip pid with hpid'
  by_cases hempty : pid' = ""
  · simp [hempty] at h
  · simp only [if_neg hempty] at h
    set E := (st.get pid').getD LockEntry.fresh with hE
    by_cases hlocked : E.locked
    · simp [hlocked] at h
    · by_cases hres : E.reserved
      · simp [hlocked, hres] at h
      · have hl : E.locked = false := by simpa using hlocked
        have hr : E.reserved = false := by simpa using hres
        simp only [hlocked, hres, Bool.false_eq_true, if_neg, if_false] at h
        have hst1 : st1 = (st.set pid' E).set pid'
            { locked := false, holders := E.holders + 1, reserved := true,
              reserved_by := some (normOwner owner),
              reserved_at_iso := some now, reserved_at_ts := some ts,
              locked_by := E.locked_by, locked_at_iso := E.locked_at_iso,
              locked_at_ts := E.locked_at_ts } := by
          cases h
          rfl
        have hget1 : st1.get pid' =
            some { locked := false, holders := E.holders + 1,
                   reserved := true,
                   reserved_by := some (normOwner owner),
                   reserved_at_iso := some now, reserved_at_ts := some ts,
                   locked_by := E.locked_by, locked_at_iso := E.locked_at_iso,
                   locked_at_ts := E.locked_at_ts } := by
          rw [hst1]
          exact lockGet_set_self _ _ _
        have hcancel : tryLockCancel st1 pid =
            (if E.holders + 1 - 1 ≤ 0 && !false && !false then
              st1.pop pid'
            else st1.set pid'
              { locked := false, holders := E.holders + 1 - 1,
                reserved := false, reserved_by := none,
                reserved_at_iso := none, reserved_at_ts := none,
                locked_by := E.locked_by, locked_at_iso := E.locked_at_iso,
                locked_at_ts := E.locked_at_ts }) := by
          simp only [tryLockCancel]
          rw [← hpid', hget1]
        refine ⟨fun hh => ?_, fun hh => ?_, ?_⟩
        · have hc : (decide (E.holders + 1 - 1 ≤ 0) && !false && !false)
              = true := by
            simp only [Bool.not_false, Bool.and_true, decide_eq_true_eq]
            omega
          rw [hcancel, if_pos hc]
          exact lockGet_pop_self _ _
        · have hc : ¬ ((decide (E.holders + 1 - 1 ≤ 0) && !false && !false)
              = true) := by
            simp only [Bool.not_false, Bool.and_true, decide_eq_true_eq]
            omega
          refine ⟨{ locked := false, holders := E.holders + 1 - 1,
                    reserved := false, reserved_by := none,
                    reserved_at_iso := none, reserved_at_ts := none,
                    locked_by := E.locked_by, locked_at_iso := E.locked_at_iso,
                    locked_at_ts := E.locked_at_ts },
                  ?_, rfl, rfl, rfl, rfl,
                  by show E.holders + 1 - 1 = E.holders; omega, rfl⟩
          rw [hcancel, if_neg hc]
          exact lockGet_set_self _ _ _
        · by_cases hc : (decide (E.holders + 1 - 1 ≤ 0) && !false && !false)
              = true
          · rw [hcancel, if_pos hc]
            have hg : (st1.pop pid').get pid' = none := lockGet_pop_self _ _
            refine ⟨_, tryLockStart_free (st1.pop pid') pid owner2 now2 ts2
              (hpid' ▸ hempty) ?_ ?_⟩
            · show (((st1.pop pid').get pid').getD LockEntry.fresh).locked
                = false
              rw [hg]
              rfl
            · show (((st1.pop pid').get pid').getD LockEntry.fresh).reserved
                = false
              rw [hg]
              rfl
          · rw [hcancel, if_neg hc]
            have hg : (st1.set pid'
                { locked := false, holders := E.holders + 1 - 1,
                  reserved := false, reserved_by := none,
                  reserved_at_iso := none, reserved_at_ts := none,
                  locked_by := E.locked_by, locked_at_iso := E.locked_at_iso,
                  locked_at_ts := E.locked_at_ts }).get pid' =
                some { locked := false, holders := E.holders + 1 - 1,
                       reserved := false, reserved_by := none,
                       reserved_at_iso := none, reserved_at_ts := none,
                       locked_by := E.locked_by,
                       locked_at_iso := E.locked_at_iso,
                       locked_at_ts := E.locked_at_ts } :=
              lockGet_set_self _ _ _
            refine ⟨_, tryLockStart_free _ pid owner2 now2 ts2
              (hpid' ▸ hempty) ?_ ?_⟩
            · show ((LockState.get _ pid').getD LockEntry.fresh).locked = false
              rw [hg]
              rfl
            · show ((LockState.get _ pid').getD LockEntry.fresh).reserved
                = false
              rw [hg]
              rfl

/-- The entry a fresh reservation by owner `o1` produces. -/
def reservedP1Entry : LockEntry :=
  { LockEntry.fresh with reserved := true, reserved_by := some "o1",
                         reserved_at_iso := some "t", reserved_at_ts := some 0,
                         holders := 1 }

/-- **C5 witness**: a concrete reservation on an empty lock table followed
by cancellation; the entry is garbage-collected and a second `try_lock`
reserves again. -/
theorem C5_cancel_witness :
    tryLockStart ⟨[]⟩ "p1" "o1" "t" 0 = .reserved ⟨[("p1", reservedP1Entry)]⟩ ∧
    (tryLockCancel ⟨[("p1", reservedP1Entry)]⟩ "p1").get "p1" = none ∧
    (∃ st3, tryLockStart (tryLockCancel ⟨[("p1", reservedP1Entry)]⟩ "p1")
      "p1" "o2" "t2" 1 = .reserved st3) := by
  have h0 : tryLockStart (⟨[]⟩ : LockState) "p1" "o1" "t" 0 =
      .reserved ⟨[("p1", reservedP1Entry)]⟩ := by decide
  have h := C5_cancel_rolls_back_reservation ⟨[]⟩ _ "p1" "o1" "o2" "t" "t2"
    0 1 h0
  exact ⟨h0, h.1 (by decide), h.2.2⟩

/-! ## C7 — upstream retry policy -/

theorem retryLoopFrom_nontransport (env : Nat → HttpAttempt) (retries a : Nat)
    (h : (request_json (env a)).isTransport = false) :
    retryLoopFrom env retries a = (request_json (env a), a, []) := by
  rw [retryLoopFrom]
  cases hr : request_json (env a) <;> simp_all [ReqResult.isTransport]

theorem retryLoopFrom_transport_last (env : Nat → HttpAttempt)
    (retries a : Nat) (m : String)
    (h : request_json (env a) = .transportErr m) (hge : a ≥ retries) :
    retryLoopFrom env retries a = (request_json (env a), a, []) := by
  rw [retryLoopFrom, h]
  simp [hge]

theorem retryLoopFrom_transport_step (env : Nat → HttpAttempt)
    (retries a : Nat) (m : String)
    (h : request_json (env a) = .transportErr m) (hlt : a < retries) :
    retryLoopFrom env retries a =
      ((retryLoopFrom env retries (a + 1)).1,
       (retryLoopFrom env retries (a + 1)).2.1,
       retryBackoff a :: (retryLoopFrom env retries (a + 1)).2.2) := by
  rw [retryLoopFrom, h]
  simp [Nat.not_le.2 hlt]

/-- Prefix of transport faults, then a non-transport outcome: the loop
stops right there, having slept once per retried attempt. -/
theorem retryLoopFrom_first_success (env : Nat → HttpAttempt) (c : Nat) :
    ∀ k a, a + k ≤ c →
      (∀ j, a ≤ j → j < a + k → (request_json (env j)).isTransport = true) →
      (request_json (env (a + k))).isTransport = false →
      retryLoopFrom env c a =
        (request_json (env (a + k)), a + k,
         (List.range' a k).map retryBackoff) := by
  intro k
  induction k with
  | zero =>
    intro a _ _ hend
    simpa using retryLoopFrom_nontransport env c a (by simpa using hend)
  | succ k ih =>
    intro a hle hpre hend
    have hta : (request_json (env a)).isTransport = true :=
      hpre a (le_refl a) (by omega)
    obtain ⟨m, hm⟩ : ∃ m, request_json (env a) = .transportErr m := by
      cases hr : request_json (env a) <;>
        simp [hr, ReqResult.isTransport] at hta ⊢
    have hlt : a < c := by omega
    rw [retryLoopFrom_transport_step env c a m hm hlt]
    have ih' := ih (a + 1) (by omega)
      (fun j h1 h2 => hpre j (by omega) (by omega))
      (by
        have : a + 1 + k = a + (k + 1) := by omega
        rw [this]
        exact hend)
    rw [ih']
    have : a + 1 + k = a + (k + 1) := by omega
    simp [List.range'_succ, this]

/-- All attempts fault: the loop exhausts the budget and re-raises the last
transport error. -/
theorem retryLoopFrom_all_transport (env : Nat → HttpAttempt) (c : Nat) :
    ∀ k a, a + k = c →
      (∀ j, a ≤ j → j ≤ c → (request_json (env j)).isTransport = true) →
      retryLoopFrom env c a =
        (request_json (env c), c, (List.range' a k).map retryBackoff) := by
  intro k
  induction k with
  | zero =>
    intro a hk hall
    have hta : (request_json (env a)).isTransport = true :=
      hall a (le_refl a) (by omega)
    obtain ⟨m, hm⟩ : ∃ m, request_json (env a) = .transportErr m := by
      cases hr : request_json (env a) <;>
        simp [hr, ReqResult.isTransport] at hta ⊢
    have ha : a = c := by omega
    rw [retryLoopFrom_transport_last env c a m hm (by omega)]
    simp [ha]
  | succ k ih =>
    intro a hk hall
    have hta : (request_json (env a)).isTransport = true :=
      hall a (le_refl a) (by omega)
    obtain ⟨m, hm⟩ : ∃ m, request_json (env a) = .transportErr m := by
      cases hr : request_json (env a) <;>
        simp [hr, ReqResult.isTransport] at hta ⊢
    have hlt : a < c := by omega
    rw [retryLoopFrom_transport_step env c a m hm hlt]
    rw [ih (a + 1) (by omega) (fun j h1 h2 => hall j (by omega) h2)]
    simp [List.range'_succ]

/-- The loop never issues an attempt beyond the retry budget. -/
theorem retryLoopFrom_stop_le (env : Nat → HttpAttempt) (c : Nat) :
    ∀ k a, c - a = k → a ≤ c → (retryLoopFrom env c a).2.1 ≤ c := by
  intro k
  induction k with
  | zero =>
    intro a hk hle
    cases hr : (request_json (env a)).isTransport
    · rw [retryLoopFrom_nontransport env c a hr]
      show a ≤ c
      omega
    · obtain ⟨m, hm⟩ : ∃ m, request_json (env a) = .transportErr m := by
        cases hq : request_json (env a) <;>
          simp [hq, ReqResult.isTransport] at hr ⊢
      rw [retryLoopFrom_transport_last env c a m hm (by omega)]
      show a ≤ c
      omega
  | succ k ih =>
    intro a hk hle
    cases hr : (request_json (env a)).isTransport
    · rw [retryLoopFrom_nontransport env c a hr]
      show a ≤ c
      omega
    · obtain ⟨m, hm⟩ : ∃ m, request_json (env a) = .transportErr m := by
        cases hq : request_json (env a) <;>
          simp [hq, ReqResult.isTransport] at hr ⊢
      have hlt : a < c := by omega
      rw [retryLoopFrom_transport_step env c a m hm hlt]
      exact ih (a + 1) (by omega) (by omega)

/-- **C7**: `analyze_retries` is clamped into [0,2] at construction; the
retry loop retries only on transport errors (any HTTP-status-classified
outcome, including 423/4xx/5xx, is raised at the attempt it occurs on,
with no further attempt), sleeping `min(0.25·2^attempt, 2.0)` seconds
between attempts; after exhausting the budget the last transport error is
raised; and no attempt beyond the clamped budget is ever issued. -/
theorem C7_retry_only_on_transport (analyze_retries : Int)
    (env : Nat → HttpAttempt) :
    (0 ≤ clampAnalyzeRetries analyze_retries ∧
     clampAnalyzeRetries analyze_retries ≤ 2 ∧
     (0 ≤ analyze_retries → analyze_retries ≤ 2 →
       clampAnalyzeRetries analyze_retries = analyze_retries)) ∧
    (∀ a, retryBackoff a = min ((1 / 4 : ℚ) * 2 ^ a) 2) ∧
    (∀ s p, (request_json (.response s p)).isTransport = false) ∧
    (∀ k, k ≤ (clampAnalyzeRetries analyze_retries).toNat →
      (∀ j, j < k → (request_json (env j)).isTransport = true) →
      (request_json (env k)).isTransport = false →
      request_json_with_retries env (clampAnalyzeRetries analyze_retries).toNat
        = (request_json (env k), k, (List.range k).map retryBackoff)) ∧
    ((∀ j, j ≤ (clampAnalyzeRetries analyze_retries).toNat →
        (request_json (env j)).isTransport = true) →
      request_json_with_retries env (clampAnalyzeRetries analyze_retries).toNat
        = (request_json (env (clampAnalyzeRetries analyze_retries).toNat),
           (clampAnalyzeRetries analyze_retries).toNat,
           (List.range (clampAnalyzeRetries analyze_retries).toNat).map
             retryBackoff)) ∧
    (request_json_with_retries env
        (clampAnalyzeRetries analyze_retries).toNat).2.1 ≤
      (clampAnalyzeRetries analyze_retries).toNat := by
  refine ⟨⟨?_, ?_, fun h1 h2 => ?_⟩, fun a => rfl, fun s p => ?_,
    fun k hk hpre hend => ?_, fun hall => ?_, ?_⟩
  · simp [clampAnalyzeRetries]
  · simp [clampAnalyzeRetries]
  · simp [clampAnalyzeRetries]
    omega
  · simp only [request_json]
    by_cases h1 : s = 423
    · simp [h1, ReqResult.isTransport]
    · by_cases h2 : 400 ≤ s ∧ s < 500
      · simp [h1, h2, ReqResult.isTransport]
      · by_cases h3 : 500 ≤ s
        · simp [h1, h2, h3, ReqResult.isTransport]
        · simp [h1, h2, h3, ReqResult.isTransport]
  · have heq := retryLoopFrom_first_success env
      (clampAnalyzeRetries analyze_retries).toNat k 0 (by omega)
      (fun j h1 h2 => hpre j (by omega)) (by simpa using hend)
    rw [request_json_with_retries, heq]
    simp [List.range_eq_range']
  · have heq := retryLoopFrom_all_transport env
      (clampAnalyzeRetries analyze_retries).toNat
      (clampAnalyzeRetries analyze_retries).toNat 0 (by omega)
      (fun j _ hj2 => hall j hj2)
    rw [request_json_with_retries, heq]
    simp [List.range_eq_range']
  · exact retryLoopFrom_stop_le env _ _ 0 rfl (by omega)

/-- **C7 witness**: budget clamped from 5 to 2; a transport fault on
attempt 0 followed by a 423 on attempt 1 yields `UpstreamBusyError` after
one sleep of 0.25 s; with faults everywhere, the attempt-2 transport error
is re-raised after two sleeps. -/
theorem C7_retry_witness :
    clampAnalyzeRetries 5 = 2 ∧
    request_json_with_retries
        (fun n => if n = 0 then .fault "t0" else .response 423 RawResp.empty) 2
      = (.busyErr 423 RawResp.empty, 1, [retryBackoff 0]) ∧
    request_json_with_retries (fun n => .fault (toString n)) 2
      = (.transportErr "2", 2, [retryBackoff 0, retryBackoff 1]) := by
  have h := C7_retry_only_on_transport 5
    (fun n => if n = 0 then .fault "t0" else .response 423 RawResp.empty)
  have h2 := C7_retry_only_on_transport 5 (fun n => .fault (toString n))
  refine ⟨by decide, ?_, ?_⟩
  · have := h.2.2.2.1 1 (by decide) (by decide) (by decide)
    simpa using this
  · have := h2.2.2.2.2.1 (by
      intro j hj
      simp [request_json, ReqResult.isTransport])
    simpa using this

/-! ## C6 — chat reuse/create decision -/

theorem maxById_ne_none (l : List ChatSessionRow) (r : ChatSessionRow) :
    maxById (r :: l) ≠ none := by
  simp only [maxById]
  cases maxById l with
  | none => simp
  | some m => by_cases h : r.id ≥ m.id <;> simp [h]

theorem maxById_spec (l : List ChatSessionRow) :
    ∀ m, maxById l = some m → m ∈ l ∧ ∀ x ∈ l, x.id ≤ m.id := by
  induction l with
  | nil => intro m h; simp [maxById] at h
  | cons r rs ih =>
    intro m h
    simp only [maxById] at h
    cases hm : maxById rs with
    | none =>
      simp only [hm] at h
      cases h
      have hnil : rs = [] := by
        cases rs with
        | nil => rfl
        | cons a t => exact absurd hm (maxById_ne_none t a)
      subst hnil
      exact ⟨List.mem_singleton.2 rfl, by simp⟩
    | some m' =>
      simp only [hm] at h
      obtain ⟨hmem, hmax⟩ := ih m' hm
      by_cases hge : r.id ≥ m'.id
      · rw [if_pos hge] at h
        cases h
        refine ⟨List.mem_cons_self _ _, fun x hx => ?_⟩
        rcases List.mem_cons.1 hx with h1 | h1
        · subst h1; exact le_refl _
        · exact le_trans (hmax x h1) hge
      · rw [if_neg hge] at h
        cases h
        refine ⟨List.mem_cons_of_mem _ hmem, fun x hx => ?_⟩
        rcases List.mem_cons.1 hx with h1 | h1
        · subst h1; omega
        · exact hmax x h1

/-- **C6**: without a pinned `chat_url`, `get_or_create_chat` reuses
exactly the newest (highest id) non-disabled, non-guest/archive session
matching `(container, prompt, profile, socks)` unless none exists,
`force_new` is set, or its `uses_count` has reached the limit, where the
limit is `max_chat_uses` if supplied, else the prompt's
`default_max_chat_uses` when non-zero, else 50; in the create case the new
row has `uses_count=0`, `disabled=0`, a NULL `chat_id` and the
service-root `page_url`. -/
theorem C6_get_or_create_chat_spec (st : Store)
    (container_id prompt_id : String) (ps : PromptSpec) (profile_id : String)
    (socks_id : Option String) (force_new : Bool)
    (max_chat_uses : Option Int) (now : String) :
    ((∀ m, usesLimit (some m) ps = m) ∧
     (ps.default_max_chat_uses ≠ 0 →
       usesLimit none ps = ps.default_max_chat_uses) ∧
     (ps.default_max_chat_uses = 0 → usesLimit none ps = 50)) ∧
    (∀ s, get_chat_session st prompt_id container_id (some profile_id)
        socks_id none = some s →
      force_new = false →
      (s.uses_count : Int) < usesLimit max_chat_uses ps →
      (get_or_create_chat st container_id prompt_id ps profile_id socks_id
          force_new max_chat_uses none none now = .ok (st, s) ∧
       chatSessionMatches (pyStrip container_id) prompt_id
         (normKey (some profile_id)) (normKey socks_id) s = true ∧
       (∀ r ∈ st.chat_sessions,
         chatSessionMatches (pyStrip container_id) prompt_id
           (normKey (some profile_id)) (normKey socks_id) r = true →
         r.id ≤ s.id))) ∧
    ((∀ s, get_chat_session st prompt_id container_id (some profile_id)
        socks_id none = some s →
      (force_new = true ∨ (s.uses_count : Int) ≥ usesLimit max_chat_uses ps)) →
      ∃ row st', get_or_create_chat st container_id prompt_id ps profile_id
          socks_id force_new max_chat_uses none none now = .ok (st', row) ∧
        row.uses_count = 0 ∧ row.disabled = 0 ∧ row.chat_id = none ∧
        row.page_url = "https://chat.qwen.ai/" ∧
        st'.chat_sessions = st.chat_sessions ++ [row]) := by
  refine ⟨⟨fun m => rfl, fun h => ?_, fun h => ?_⟩,
    fun s hs hf hlim => ?_, fun hcreate => ?_⟩
  · simp [usesLimit, h]
  · simp [usesLimit, h]
  · have hmatch : chatSessionMatches (pyStrip container_id) prompt_id
        (normKey (some profile_id)) (normKey socks_id) s = true ∧
        (∀ r ∈ st.chat_sessions,
          chatSessionMatches (pyStrip container_id) prompt_id
            (normKey (some profile_id)) (normKey socks_id) r = true →
          r.id ≤ s.id) := by
      unfold get_chat_session at hs
      by_cases hc : pyStrip container_id = ""
      · simp [hc] at hs
      · simp only [if_neg hc] at hs
        obtain ⟨hmem, hmax⟩ := maxById_spec _ _ hs
        refine ⟨(List.mem_filter.1 hmem).2, fun r hr hmr => ?_⟩
        exact hmax r (List.mem_filter.2 ⟨hr, hmr⟩)
    refine ⟨?_, hmatch.1, hmatch.2⟩
    have hnoneP : ¬ (strTruthy (none : Option String) = true) := by
      simp [strTruthy]
    simp only [get_or_create_chat]
    rw [if_neg hnoneP]
    simp only [hs]
    rw [if_neg ?hcond]
    case hcond =>
      rw [hf]
      simp only [Bool.false_or, decide_eq_true_eq]
      omega
  · have hnoneP : ¬ (strTruthy (none : Option String) = true) := by
      simp [strTruthy]
    cases hs : get_chat_session st prompt_id container_id (some profile_id)
        socks_id none with
    | none =>
      simp only [get_or_create_chat]
      rw [if_neg hnoneP]
      simp only [hs]
      exact ⟨_, _, rfl, rfl, rfl, rfl, rfl, rfl⟩
    | some s =>
      simp only [get_or_create_chat]
      rw [if_neg hnoneP]
      simp only [hs]
      rcases hcreate s hs with hf | hlim
      · rw [if_pos (by rw [hf]; simp)]
        exact ⟨_, _, rfl, rfl, rfl, rfl, rfl, rfl⟩
      · rw [if_pos ?hcond2]
        case hcond2 =>
          simp only [Bool.or_eq_true, decide_eq_true_eq]
          right
          omega
        exact ⟨_, _, rfl, rfl, rfl, rfl, rfl, rfl⟩

/-- **C6 witness**: with one matching session of `uses_count = 3`, the
session is reused under the default limit of 50, and a fresh service-root
row is created when `max_chat_uses = 3` caps it. -/
theorem C6_get_or_create_chat_witness :
    get_or_create_chat storeOneSession "c1" "default" psDefault "p1"
        none false none none none "t9" = .ok (storeOneSession, sampleSession) ∧
    (∃ row st', get_or_create_chat storeOneSession "c1" "default" psDefault
        "p1" none false (some 3) none none "t9" = .ok (st', row) ∧
      row.uses_count = 0 ∧ row.disabled = 0 ∧ row.chat_id = none ∧
      row.page_url = "https://chat.qwen.ai/" ∧
      st'.chat_sessions = storeOneSession.chat_sessions ++ [row]) := by
  constructor
  · exact ((C6_get_or_create_chat_spec storeOneSession "c1" "default"
      psDefault "p1" none false none "t9").2.1 sampleSession (by decide)
      rfl (by decide)).1
  · exact (C6_get_or_create_chat_spec storeOneSession "c1" "default"
      psDefault "p1" none false (some 3) "t9").2.2
      (by
        intro s hs
        right
        have : s = sampleSession := by
          have hd : get_chat_session storeOneSession "default" "c1"
              (some "p1") none none = some sampleSession := by decide
          rw [hd] at hs
          exact (Option.some_injective _ hs).symm
        rw [this]
        decide)

/-! ## Store bookkeeping facts shared by the executor claims -/

/-- Number of `jobs` rows carrying the id. -/
def jobCount (st : Store) (jid : String) : Nat :=
  st.jobs.countP fun j => j.job_id == jid

/-- Every job row with the id is terminal with a set `finished_at`. -/
def jobsTerminal (st : Store) (jid : String) : Prop :=
  ∀ j ∈ st.jobs, j.job_id = jid →
    (j.status = some "succeeded" ∨ j.status = some "failed") ∧
    j.finished_at.isSome = true

/-- Every attempt row of the job is terminal with a set `finished_at`. -/
def attemptsTerminal (st : Store) (jid : String) : Prop :=
  ∀ a ∈ st.job_attempts, a.job_id = jid →
    (a.status = some "succeeded" ∨ a.status = some "failed") ∧
    a.finished_at.isSome = true

theorem jobCount_map_preserving (jobs : List JobRow) (jid : String)
    (f : JobRow → JobRow) (hf : ∀ j, (f j).job_id = j.job_id) :
    ((jobs.map f).countP fun j => j.job_id == jid) =
      jobs.countP fun j => j.job_id == jid := by
  rw [List.countP_map]
  apply List.countP_congr
  intro j _
  simp [Function.comp, hf j]

theorem update_job_identity_facts (st : Store) (jid2 : String)
    (p s : Option String) (jid : String) :
    jobCount (update_job_identity st jid2 p s) jid = jobCount st jid ∧
    (update_job_identity st jid2 p s).job_attempts = st.job_attempts := by
  unfold update_job_identity jobCount
  by_cases h : jid2 = ""
  · rw [if_pos h]
    exact ⟨rfl, rfl⟩
  · rw [if_neg h]
    refine ⟨?_, rfl⟩
    apply jobCount_map_preserving
    intro j
    by_cases hj : j.job_id = jid2 <;> simp [hj]

theorem set_job_selected_containers_facts (st : Store) (jid2 : String)
    (cids : List String) (jid : String) :
    jobCount (set_job_selected_containers st jid2 cids) jid = jobCount st jid ∧
    (set_job_selected_containers st jid2 cids).job_attempts =
      st.job_attempts := by
  unfold set_job_selected_containers jobCount
  refine ⟨?_, rfl⟩
  apply jobCount_map_preserving
  intro j
  by_cases hj : j.job_id = jid2 <;> simp [hj]

theorem update_job_finish_facts (st : Store) (jid2 : String)
    (status result_text error_code error_message : Option String)
    (fin : String) (dm : Option String) (jid : String) :
    jobCount (update_job_finish st jid2 status result_text error_code
      error_message fin dm) jid = jobCount st jid ∧
    (update_job_finish st jid2 status result_text error_code error_message
      fin dm).job_attempts = st.job_attempts := by
  unfold update_job_finish jobCount
  refine ⟨?_, rfl⟩
  apply jobCount_map_preserving
  intro j
  by_cases hj : j.job_id = jid2 <;> simp [hj]

theorem finish_job_attempt_facts (st : Store) (aid status : String)
    (result_text error_code error_message : Option String) (fin : String)
    (jid : String) :
    jobCount (finish_job_attempt st aid status result_text error_code
      error_message fin) jid = jobCount st jid ∧
    (finish_job_attempt st aid status result_text error_code error_message
      fin).jobs = st.jobs := by
  unfold finish_job_attempt jobCount
  exact ⟨rfl, rfl⟩

theorem create_job_attempt_facts (st : Store) (aid jid2 cid pid role : String)
    (p s c u csid : Option String) (started : String) (jid : String) :
    jobCount (create_job_attempt st aid jid2 cid pid role p s c u csid
      started) jid = jobCount st jid ∧
    (create_job_attempt st aid jid2 cid pid role p s c u csid started).jobs =
      st.jobs := by
  unfold create_job_attempt jobCount
  exact ⟨rfl, rfl⟩

theorem increment_profile_use_facts (st : Store) (pid : String) (by_ : Int)
    (now : String) (jid : String) :
    jobCount (increment_profile_use st pid by_ now) jid = jobCount st jid ∧
    (increment_profile_use st pid by_ now).jobs = st.jobs ∧
    (increment_profile_use st pid by_ now).job_attempts = st.job_attempts := by
  unfold increment_profile_use jobCount
  split <;> exact ⟨rfl, rfl, rfl⟩

theorem increment_chat_use_stores (st : Store) (sid : Nat) (by_ : Int)
    (now : String) :
    (increment_chat_use st sid by_ now).jobs = st.jobs ∧
    (increment_chat_use st sid by_ now).job_attempts = st.job_attempts := by
  unfold increment_chat_use
  split <;> exact ⟨rfl, rfl⟩

theorem mark_chat_session_tag_stores (st : Store) (sid : Nat) (tag : String)
    (d : Option Bool) (now : String) :
    (mark_chat_session_tag st sid tag d now).jobs = st.jobs ∧
    (mark_chat_session_tag st sid tag d now).job_attempts =
      st.job_attempts := by
  unfold mark_chat_session_tag
  exact ⟨rfl, rfl⟩

theorem create_full_chat_session_stores (st : Store) (cid pid : String)
    (prof socks chat : Option String) (url now : String) :
    (create_full_chat_session st cid pid prof socks chat url now).1.jobs =
      st.jobs ∧
    (create_full_chat_session st cid pid prof socks chat url
      now).1.job_attempts = st.job_attempts := by
  unfold create_full_chat_session
  exact ⟨rfl, rfl⟩

theorem update_full_chat_session_by_id_stores (st : Store) (sid : Nat)
    (chat url : Option String) (d : Option Bool) (tag : Option String)
    (now : String) :
    (update_full_chat_session_by_id st sid chat url d tag now).1.jobs =
      st.jobs ∧
    (update_full_chat_session_by_id st sid chat url d tag
      now).1.job_attempts = st.job_attempts := by
  unfold update_full_chat_session_by_id
  exact ⟨rfl, rfl⟩

theorem get_or_create_chat_stores (st : Store) (cid pid : String)
    (ps : PromptSpec) (prof : String) (socks : Option String) (fn : Bool)
    (mcu : Option Int) (cu pref : Option String) (now : String)
    (st' : Store) (sess : ChatSessionRow)
    (h : get_or_create_chat st cid pid ps prof socks fn mcu cu pref now =
      .ok (st', sess)) :
    st'.jobs = st.jobs ∧ st'.job_attempts = st.job_attempts := by
  unfold get_or_create_chat at h
  split at h
  · split at h
    · exact absurd h (by simp)
    · split at h
      · exact absurd h (by simp)
      · cases h
        exact ⟨rfl, rfl⟩
  · split at h
    · split at h
      · cases h
        exact create_full_chat_session_stores st cid pid _ _ _ _ _
      · cases h
        exact ⟨rfl, rfl⟩
    · cases h
      exact create_full_chat_session_stores st cid pid _ _ _ _ _

theorem ensure_chat_loaded_stores (st : Store) (sess : ChatSessionRow)
    (ps : PromptSpec) (o : UpstreamOutcome) (now : String) (st' : Store)
    (sess' : ChatSessionRow)
    (h : ensure_chat_loaded st sess ps o now = .done st' sess') :
    st'.jobs = st.jobs ∧ st'.job_attempts = st.job_attempts := by
  unfold ensure_chat_loaded at h
  split at h
  · cases h
    exact ⟨rfl, rfl⟩
  · split at h
    · cases h
      exact ⟨rfl, rfl⟩
    · split at h
      · rename_i raw
        rcases hupd : update_full_chat_session_by_id st sess.id
            (extract_chat_id (some ((pyOr raw.page_url
              (some sess.page_url)).getD "")))
            (some ((pyOr raw.page_url (some sess.page_url)).getD ""))
            (some false) none now with ⟨st1, u⟩
        rw [hupd] at h
        cases u with
        | none => exact absurd h (by simp)
        | some updated =>
          cases h
          have hfst : (update_full_chat_session_by_id st sess.id
              (extract_chat_id (some ((pyOr raw.page_url
                (some sess.page_url)).getD "")))
              (some ((pyOr raw.page_url (some sess.page_url)).getD ""))
              (some false) none now).1 = st1 := congrArg Prod.fst hupd
          have hu := update_full_chat_session_by_id_stores st sess.id
            (extract_chat_id (some ((pyOr raw.page_url
              (some sess.page_url)).getD "")))
            (some ((pyOr raw.page_url (some sess.page_url)).getD ""))
            (some false) none now
          have hi := increment_chat_use_stores st1 sess'.id 1 now
          exact ⟨by rw [hi.1, ← hfst, hu.1], by rw [hi.2, ← hfst, hu.2]⟩
      · exact absurd h (by simp)
      · exact absurd h (by simp)
      · exact absurd h (by simp)
      · exact absurd h (by simp)
      · exact absurd h (by simp)

theorem update_job_finish_terminal (st : Store) (jid : String) (stv : String)
    (hstv : stv = "succeeded" ∨ stv = "failed") (rt ec em : Option String)
    (fin : String) (dm : Option String) :
    jobsTerminal (update_job_finish st jid (some stv) rt ec em fin dm) jid := by
  intro j hj hjid
  have hps : pstrip (some stv) = stv := by
    rcases hstv with h1 | h1 <;> subst h1 <;> decide
  unfold update_job_finish at hj
  rw [hps] at hj
  have hcond : (stv = "succeeded" || stv = "failed") = true := by
    rcases hstv with h1 | h1 <;> simp [h1]
  rw [if_pos hcond] at hj
  simp only [List.mem_map] at hj
  rcases hj with ⟨b, _, hbj⟩
  by_cases h : b.job_id = jid
  · rw [if_pos h] at hbj
    subst hbj
    exact ⟨by rcases hstv with h1 | h1 <;> simp [h1], rfl⟩
  · rw [if_neg h] at hbj
    subst hbj
    exact absurd hjid h

theorem update_job_finish_failed_rows (st : Store) (jid : String)
    (code msg fin : String) (dm : Option String) :
    ∀ j ∈ (update_job_finish st jid (some "failed") none (some code)
        (some msg) fin dm).jobs,
      j.job_id = jid →
      j.status = some "failed" ∧ j.error_code = some code ∧
      j.finished_at = some fin := by
  intro j hj hjid
  unfold update_job_finish at hj
  simp only [List.mem_map] at hj
  rcases hj with ⟨b, _, hbj⟩
  by_cases h : b.job_id = jid
  · rw [if_pos h] at hbj
    subst hbj
    refine ⟨?_, rfl, rfl⟩
    have : pstrip (some "failed") = "failed" := by decide
    rw [this]
    rfl
  · rw [if_neg h] at hbj
    subst hbj
    exact absurd hjid h

theorem finish_job_attempt_target (st : Store) (aid stv : String)
    (rt : Option String) (ec em : Option String) (fin : String) :
    ∀ a ∈ (finish_job_attempt st aid stv rt ec em fin).job_attempts,
      a.attempt_id = aid →
      a.status = some stv ∧ a.error_code = ec ∧ a.finished_at = some fin := by
  intro a ha haid
  unfold finish_job_attempt at ha
  simp only [List.mem_map] at ha
  rcases ha with ⟨b, _, hba⟩
  by_cases h : b.attempt_id = aid
  · rw [if_pos h] at hba
    subst hba
    exact ⟨rfl, rfl, rfl⟩
  · rw [if_neg h] at hba
    subst hba
    exact absurd haid h

theorem finish_job_attempt_terminal (st : Store) (aid stv : String)
    (hstv : stv = "succeeded" ∨ stv = "failed") (rt ec em : Option String)
    (fin : String) (jid : String)
    (hpre : ∀ a ∈ st.job_attempts, a.job_id = jid →
      a.attempt_id = aid ∨
      ((a.status = some "succeeded" ∨ a.status = some "failed") ∧
       a.finished_at.isSome = true)) :
    attemptsTerminal (finish_job_attempt st aid stv rt ec em fin) jid := by
  intro a ha hajid
  unfold finish_job_attempt at ha
  simp only [List.mem_map] at ha
  rcases ha with ⟨b, hb, hba⟩
  by_cases h : b.attempt_id = aid
  · rw [if_pos h] at hba
    subst hba
    exact ⟨by rcases hstv with h1 | h1 <;> simp [h1], rfl⟩
  · rw [if_neg h] at hba
    subst hba
    rcases hpre b hb hajid with h1 | h1
    · exact absurd h1 h
    · exact h1

/-- The attempt row just created is present after finalization. -/
theorem attempt_exists_after_finish (st : Store) (aid jid cid pid role : String)
    (p s c u csid : Option String) (started stv : String)
    (rt ec em : Option String) (fin : String) :
    ∃ a ∈ (finish_job_attempt
        (create_job_attempt st aid jid cid pid role p s c u csid started)
        aid stv rt ec em fin).job_attempts,
      a.attempt_id = aid ∧ a.job_id = jid := by
  unfold create_job_attempt finish_job_attempt
  simp only [List.map_append, List.mem_append, List.map_cons, List.map_nil]
  refine ⟨{ attempt_id := aid, job_id := jid, container_id := cid,
            prompt_id := pid, role := role, profile_id := p, socks_id := s,
            chat_id := c, page_url := u, chat_session_id := csid,
            status := some stv, result_text := rt, error_code := ec,
            error_message := em, started_at := started,
            finished_at := some fin }, Or.inr ?_, rfl, rfl⟩
  simp

/-- Job-count preservation and attempt preservation, the invariant every
skipped candidate maintains. -/
def SkipFacts (st st' : Store) (jid : String) : Prop :=
  jobCount st' jid = jobCount st jid ∧ st'.job_attempts = st.job_attempts

/-- A `return` additionally leaves the job row terminal. -/
def DoneFacts (ctx : ExecCtx) (st st' : Store) (jid : String) : Prop :=
  jobCount st' jid = jobCount st jid ∧ st'.job_attempts = st.job_attempts ∧
  jobsTerminal st' ctx.job_id

/-- What the setup stage of a candidate can do to the `jobs` and
`job_attempts` tables: skips and proceeds keep the job count and the
attempts; a `done` additionally finalizes the job as failed. -/
theorem candidateSetup_cases (ctx : ExecCtx) (idx : Nat)
    (cand : ProfileCandidate) (env : CandEnv) (st : Store) (jid : String)
    (hjid : ctx.job_id ≠ "") (o : SetupOut)
    (ho : candidateSetup ctx idx cand env st = o) :
    (match o with
     | .skip st' _ _ _ => SkipFacts st st' jid
     | .done _ _ st' _ => DoneFacts ctx st st' jid
     | .escape _ _ _ => True
     | .proceed st' _ _ _ _ _ => SkipFacts st st' jid) := by
  have hfail : ∀ (st0 : Store) code msg http pidp sidp cids d,
      jobCount (failStep st0 ctx ctx.job_id code msg http pidp sidp
          cids d).2.2 jid = jobCount st0 jid ∧
      (failStep st0 ctx ctx.job_id code msg http pidp sidp
          cids d).2.2.job_attempts = st0.job_attempts := by
    intro st0 code msg http pidp sidp cids d
    unfold failStep
    rw [if_pos hjid]
    exact ⟨(update_job_finish_facts st0 ctx.job_id _ _ _ _ _ _ jid).1,
      (update_job_finish_facts st0 ctx.job_id _ _ _ _ _ _ jid).2⟩
  have hfailT : ∀ (st0 : Store) code msg http pidp sidp cids d,
      jobsTerminal (failStep st0 ctx ctx.job_id code msg http pidp sidp
          cids d).2.2 ctx.job_id := by
    intro st0 code msg http pidp sidp cids d
    unfold failStep
    rw [if_pos hjid]
    exact update_job_finish_terminal st0 ctx.job_id "failed" (Or.inr rfl)
      _ _ _ _ _
  unfold candidateSetup at ho
  rcases hres : env.resolve with resolved | _ | msg
  · simp only [hres] at ho
    by_cases h1 : maxUsesSkip st resolved = true
    · rw [if_pos h1] at ho
      subst ho
      exact ⟨rfl, rfl⟩
    · rw [if_neg h1] at ho
      by_cases h2 : profile_has_guest_chat st (some resolved.profile_id) = true
      · rw [if_pos h2] at ho
        by_cases h3 : ctx.explicit_profile = true
        · rw [if_pos h3] at ho
          subst ho
          show DoneFacts ctx st _ jid
          exact ⟨(hfail st _ _ _ _ _ _ _).1, (hfail st _ _ _ _ _ _ _).2,
            hfailT st _ _ _ _ _ _ _⟩
        · rw [if_neg h3] at ho
          subst ho
          exact ⟨rfl, rfl⟩
      · rw [if_neg h2] at ho
        by_cases h4 : env.lockBusy = true
        · rw [if_pos h4] at ho
          subst ho
          exact ⟨rfl, rfl⟩
        · rw [if_neg h4] at ho
          rcases hcont : chooseContainer cand resolved env with _ | container_id
          · simp only [hcont] at ho
            subst ho
            exact ⟨rfl, rfl⟩
          · simp only [hcont] at ho
            by_cases h5 : (!env.poolGetOk) = true
            · rw [if_pos h5] at ho
              subst ho
              exact ⟨rfl, rfl⟩
            · rw [if_neg h5] at ho
              by_cases h6 : statusBusySkip env = true
              · rw [if_pos h6] at ho
                subst ho
                exact ⟨rfl, rfl⟩
              · rw [if_neg h6] at ho
                have hids := update_job_identity_facts st ctx.job_id
                  (some resolved.profile_id) (socksKeyOf resolved) jid
                have hsel := set_job_selected_containers_facts
                  (update_job_identity st ctx.job_id
                    (some resolved.profile_id) (socksKeyOf resolved))
                  ctx.job_id [container_id] jid
                rcases hchat : get_or_create_chat
                    (set_job_selected_containers
                      (update_job_identity st ctx.job_id
                        (some resolved.profile_id) (socksKeyOf resolved))
                      ctx.job_id [container_id])
                    container_id ctx.prompt_id ctx.ps resolved.profile_id
                    (socksKeyOf resolved) ctx.force_new
                    (some ctx.max_chat_uses) ctx.chat_url
                    cand.preferred_chat_id ctx.now with e | p
                · simp only [hchat] at ho
                  subst ho
                  exact trivial
                · rcases p with ⟨st3, sess0⟩
                  simp only [hchat] at ho
                  have hch := get_or_create_chat_stores _ _ _ _ _ _ _ _ _ _ _
                    _ _ hchat
                  have hc1 : jobCount st3 jid = jobCount st jid := by
                    unfold jobCount at hsel hids ⊢
                    rw [hch.1, hsel.1, hids.1]
                  have hc2 : st3.job_attempts = st.job_attempts := by
                    rw [hch.2, hsel.2, hids.2]
                  rcases hens : ensure_chat_loaded st3 sess0 ctx.ps
                      env.ensureOutcome ctx.now with ⟨st4, sess⟩ | pl | e
                  · simp only [hens] at ho
                    have hen := ensure_chat_loaded_stores _ _ _ _ _ _ _ hens
                    have hc3 : jobCount st4 jid = jobCount st jid := by
                      unfold jobCount at hc1 ⊢
                      rw [hen.1]
                      exact hc1
                    have hc4 : st4.job_attempts = st.job_attempts := by
                      rw [hen.2, hc2]
                    by_cases h7 : (decide (sess.disabled ≠ 0) ||
                        exec_is_blocked_chat sess.chat_id sess.tag) = true
                    · rw [if_pos h7] at ho
                      by_cases h8 : (decide (stripLower sess.chat_id = "guest")
                          || decide (stripLower sess.tag = "guest")) = true
                      · rw [if_pos h8] at ho
                        subst ho
                        show DoneFacts ctx st _ jid
                        have hmk := mark_chat_session_tag_stores st4 sess.id
                          "guest" (some true) ctx.now
                        refine ⟨?_, ?_, hfailT _ _ _ _ _ _ _ _⟩
                        · rw [(hfail (mark_chat_session_tag st4 sess.id
                            "guest" (some true) ctx.now) _ _ _ _ _ _ _).1]
                          unfold jobCount at hc3 ⊢
                          rw [hmk.1]
                          exact hc3
                        · rw [(hfail (mark_chat_session_tag st4 sess.id
                            "guest" (some true) ctx.now) _ _ _ _ _ _ _).2,
                            hmk.2, hc4]
                      · rw [if_neg h8] at ho
                        by_cases h9 : ctx.explicit_profile = true
                        · rw [if_pos h9] at ho
                          subst ho
                          show DoneFacts ctx st _ jid
                          have hmk := mark_chat_session_tag_stores st4 sess.id
                            "archive" (some true) ctx.now
                          refine ⟨?_, ?_, hfailT _ _ _ _ _ _ _ _⟩
                          · rw [(hfail (mark_chat_session_tag st4 sess.id
                              "archive" (some true) ctx.now) _ _ _ _ _ _ _).1]
                            unfold jobCount at hc3 ⊢
                            rw [hmk.1]
                            exact hc3
                          · rw [(hfail (mark_chat_session_tag st4 sess.id
                              "archive" (some true) ctx.now) _ _ _ _ _ _ _).2,
                              hmk.2, hc4]
                        · rw [if_neg h9] at ho
                          subst ho
                          show SkipFacts st _ jid
                          have hmk := mark_chat_session_tag_stores st4 sess.id
                            "archive" (some true) ctx.now
                          refine ⟨?_, ?_⟩
                          · unfold jobCount at hc3 ⊢
                            rw [hmk.1]
                            exact hc3
                          · rw [hmk.2, hc4]
                    · rw [if_neg h7] at ho
                      subst ho
                      exact ⟨hc3, hc4⟩
                  · simp only [hens] at ho
                    subst ho
                    exact ⟨hc1, hc2⟩
                  · simp only [hens] at ho
                    subst ho
                    exact trivial
  · simp only [hres] at ho
    subst ho
    exact ⟨rfl, rfl⟩
  · simp only [hres] at ho
    subst ho
    show DoneFacts ctx st _ jid
    exact ⟨(hfail st _ _ _ _ _ _ _).1, (hfail st _ _ _ _ _ _ _).2,
      hfailT st _ _ _ _ _ _ _⟩

theorem jobCount_of_eq (st' st : Store) (jid : String)
    (h : st'.jobs = st.jobs) : jobCount st' jid = jobCount st jid := by
  unfold jobCount
  rw [h]

theorem jobsTerminal_of_eq (st' st : Store) (jid : String)
    (h : st'.jobs = st.jobs) (ht : jobsTerminal st jid) :
    jobsTerminal st' jid := by
  intro j hj hjid
  exact ht j (h ▸ hj) hjid

theorem attemptsTerminal_of_eq (st' st : Store) (jid : String)
    (h : st'.job_attempts = st.job_attempts) (ht : attemptsTerminal st jid) :
    attemptsTerminal st' jid := by
  intro a ha hajid
  exact ht a (h ▸ ha) hajid

/-- The attempts table after `create_job_attempt`: the old rows plus the
fresh open attempt. -/
theorem create_job_attempt_attempts (st : Store)
    (aid jid2 cid pid role : String) (p s c u csid : Option String)
    (started : String) :
    (create_job_attempt st aid jid2 cid pid role p s c u csid
      started).job_attempts =
      st.job_attempts ++
        [{ attempt_id := aid, job_id := jid2, container_id := cid,
           prompt_id := pid, role := role, profile_id := p, socks_id := s,
           chat_id := c, page_url := u, chat_session_id := csid,
           status := none, result_text := none, error_code := none,
           error_message := none, started_at := started,
           finished_at := none }] := rfl

/-- After `create_job_attempt`, every attempt of the job is either the
fresh one or was already terminal. -/
theorem create_attempt_pre (st : Store) (aid jid2 cid pid role : String)
    (p s c u csid : Option String) (started : String) (stX : Store)
    (hatt : stX.job_attempts = (create_job_attempt st aid jid2 cid pid role
      p s c u csid started).job_attempts)
    (hat : attemptsTerminal st jid2) :
    ∀ a ∈ stX.job_attempts, a.job_id = jid2 →
      a.attempt_id = aid ∨
      ((a.status = some "succeeded" ∨ a.status = some "failed") ∧
       a.finished_at.isSome = true) := by
  intro a ha haj
  rw [hatt, create_job_attempt_attempts] at ha
  rcases List.mem_append.1 ha with h | h
  · exact Or.inr (hat a h haj)
  · simp only [List.mem_singleton] at h
    subst h
    exact Or.inl rfl

/-- The shared finalization tail of the analyze stage: finishing the
attempt and then the job with the same terminal status keeps the job
count, leaves the job rows terminal, and leaves the attempts terminal when
every other attempt of the job already was. -/
theorem finalize_pair_facts (stY : Store) (jid2 aid stv : String)
    (hstv : stv = "succeeded" ∨ stv = "failed")
    (rt ec em rt2 ec2 em2 : Option String) (now : String)
    (dm : Option String) (jid : String) :
    jobCount (update_job_finish (finish_job_attempt stY aid stv rt ec em now)
      jid2 (some stv) rt2 ec2 em2 now dm) jid = jobCount stY jid ∧
    jobsTerminal (update_job_finish (finish_job_attempt stY aid stv rt ec em
      now) jid2 (some stv) rt2 ec2 em2 now dm) jid2 ∧
    ((∀ a ∈ stY.job_attempts, a.job_id = jid2 →
        a.attempt_id = aid ∨
        ((a.status = some "succeeded" ∨ a.status = some "failed") ∧
         a.finished_at.isSome = true)) →
      attemptsTerminal (update_job_finish (finish_job_attempt stY aid stv rt
        ec em now) jid2 (some stv) rt2 ec2 em2 now dm) jid2) := by
  have hB := update_job_finish_facts (finish_job_attempt stY aid stv rt ec em
    now) jid2 (some stv) rt2 ec2 em2 now dm jid
  refine ⟨hB.1.trans (finish_job_attempt_facts stY aid stv rt ec em now
    jid).1, update_job_finish_terminal _ jid2 stv hstv rt2 ec2 em2 now dm,
    ?_⟩
  intro hpre a ha haj
  rw [(update_job_finish_facts (finish_job_attempt stY aid stv rt ec em now)
    jid2 (some stv) rt2 ec2 em2 now dm jid).2] at ha
  exact finish_job_attempt_terminal stY aid stv hstv rt ec em now jid2 hpre
    a ha haj

/-- Store facts of `_handle_attempt_error`. -/
theorem handleAttemptError_facts (stX : Store) (ctx : ExecCtx)
    (aid container_id pid : String) (socks : Option String)
    (sess : ChatSessionRow) (code : String) (http : Nat) (msg : String)
    (d : Details) (jid : String) :
    jobCount (handleAttemptError stX ctx aid container_id pid socks sess
      code http msg d).2.2 jid = jobCount stX jid ∧
    jobsTerminal (handleAttemptError stX ctx aid container_id pid socks sess
      code http msg d).2.2 ctx.job_id ∧
    ((∀ a ∈ stX.job_attempts, a.job_id = ctx.job_id →
        a.attempt_id = aid ∨
        ((a.status = some "succeeded" ∨ a.status = some "failed") ∧
         a.finished_at.isSome = true)) →
      attemptsTerminal (handleAttemptError stX ctx aid container_id pid socks
        sess code http msg d).2.2 ctx.job_id) :=
  finalize_pair_facts stX ctx.job_id aid "failed" (Or.inr rfl)
    none (some code) (some msg) none (some code) (some msg) ctx.now
    (some "multi") jid

/-- Store facts of the success finalization of the analyze stage. -/
theorem succeedStore_facts (stY : Store) (ctx : ExecCtx)
    (aid out pidr : String) (jid : String) :
    jobCount (increment_profile_use (update_job_finish (finish_job_attempt
      stY aid "succeeded" (some out) none none ctx.now) ctx.job_id
      (some "succeeded") (some out) none none ctx.now (some "multi")) pidr 1
      ctx.now) jid = jobCount stY jid ∧
    jobsTerminal (increment_profile_use (update_job_finish
      (finish_job_attempt stY aid "succeeded" (some out) none none ctx.now)
      ctx.job_id (some "succeeded") (some out) none none ctx.now
      (some "multi")) pidr 1 ctx.now) ctx.job_id ∧
    ((∀ a ∈ stY.job_attempts, a.job_id = ctx.job_id →
        a.attempt_id = aid ∨
        ((a.status = some "succeeded" ∨ a.status = some "failed") ∧
         a.finished_at.isSome = true)) →
      attemptsTerminal (increment_profile_use (update_job_finish
        (finish_job_attempt stY aid "succeeded" (some out) none none
        ctx.now) ctx.job_id (some "succeeded") (some out) none none ctx.now
        (some "multi")) pidr 1 ctx.now) ctx.job_id) := by
  have h := finalize_pair_facts stY ctx.job_id aid "succeeded" (Or.inl rfl)
    (some out) none none (some out) none none ctx.now (some "multi") jid
  have hI := increment_profile_use_facts (update_job_finish
    (finish_job_attempt stY aid "succeeded" (some out) none none ctx.now)
    ctx.job_id (some "succeeded") (some out) none none ctx.now
    (some "multi")) pidr 1 ctx.now jid
  exact ⟨hI.1.trans h.1, jobsTerminal_of_eq _ _ _ hI.2.1 h.2.1,
    fun hpre => attemptsTerminal_of_eq _ _ _ hI.2.2 (h.2.2 hpre)⟩

/-- The analyze stage (steps 5.8–5.9) always returns out of `execute`; it
keeps the job count, finalizes the job rows terminally, and keeps every
attempt of the job terminal. -/
theorem candidateAnalyze_facts (ctx : ExecCtx) (idx : Nat) (env : CandEnv)
    (resolved : ResolvedProfile) (socks_key : Option String)
    (container_id : String) (sess : ChatSessionRow) (st : Store)
    (evts : List Event) (jid : String) (o : StepOut)
    (ho : candidateAnalyze ctx idx env resolved socks_key container_id sess
      st evts = o) :
    (match o with
     | .done _ _ st' _ =>
       jobCount st' jid = jobCount st jid ∧ jobsTerminal st' ctx.job_id ∧
       (attemptsTerminal st ctx.job_id → attemptsTerminal st' ctx.job_id)
     | .skip _ _ _ _ => False
     | .escape _ _ _ => False) := by
  unfold candidateAnalyze at ho
  by_cases c1 : (ctx.text ≠ "" && !ctx.has_image) = true
  · rw [if_pos c1] at ho
    rcases ha1 : env.analyze1 with raw | p | p | m | m | m <;>
      rw [ha1] at ho <;> subst ho
    · exact
      ⟨(succeedStore_facts _ ctx env.attemptId _ resolved.profile_id
          jid).1.trans (jobCount_of_eq _ st jid
          ((increment_chat_use_stores _ sess.id 1 ctx.now).1.trans
            (create_job_attempt_facts st env.attemptId ctx.job_id
              container_id ctx.prompt_id "single" (some resolved.profile_id)
              socks_key sess.chat_id (some sess.page_url)
              (some (toString sess.id)) ctx.now jid).2)),
        (succeedStore_facts _ ctx env.attemptId _ resolved.profile_id
          jid).2.1,
        fun hat => (succeedStore_facts _ ctx env.attemptId _
          resolved.profile_id jid).2.2
          (create_attempt_pre st env.attemptId ctx.job_id container_id
            ctx.prompt_id "single" (some resolved.profile_id) socks_key
            sess.chat_id (some sess.page_url) (some (toString sess.id))
            ctx.now _ (increment_chat_use_stores _ sess.id 1 ctx.now).2
            hat)⟩
    all_goals exact
      ⟨(handleAttemptError_facts _ ctx env.attemptId container_id
          resolved.profile_id socks_key sess _ _ _ _ jid).1.trans
          (jobCount_of_eq _ st jid (create_job_attempt_facts st env.attemptId
            ctx.job_id container_id ctx.prompt_id "single"
            (some resolved.profile_id) socks_key sess.chat_id
            (some sess.page_url) (some (toString sess.id)) ctx.now jid).2),
        (handleAttemptError_facts _ ctx env.attemptId container_id
          resolved.profile_id socks_key sess _ _ _ _ jid).2.1,
        fun hat => (handleAttemptError_facts _ ctx env.attemptId container_id
          resolved.profile_id socks_key sess _ _ _ _ jid).2.2
          (create_attempt_pre st env.attemptId ctx.job_id container_id
            ctx.prompt_id "single" (some resolved.profile_id) socks_key
            sess.chat_id (some sess.page_url) (some (toString sess.id))
            ctx.now _ rfl hat)⟩
  · rw [if_neg c1] at ho
    by_cases c2 : (ctx.has_image && ctx.text = "") = true
    · rw [if_pos c2] at ho
      rcases ha1 : env.analyze1 with raw | p | p | m | m | m <;>
        rw [ha1] at ho <;> subst ho
      · exact
      ⟨(succeedStore_facts _ ctx env.attemptId _ resolved.profile_id
          jid).1.trans (jobCount_of_eq _ st jid
          ((increment_chat_use_stores _ sess.id 1 ctx.now).1.trans
            (create_job_attempt_facts st env.attemptId ctx.job_id
              container_id ctx.prompt_id "single" (some resolved.profile_id)
              socks_key sess.chat_id (some sess.page_url)
              (some (toString sess.id)) ctx.now jid).2)),
        (succeedStore_facts _ ctx env.attemptId _ resolved.profile_id
          jid).2.1,
        fun hat => (succeedStore_facts _ ctx env.attemptId _
          resolved.profile_id jid).2.2
          (create_attempt_pre st env.attemptId ctx.job_id container_id
            ctx.prompt_id "single" (some resolved.profile_id) socks_key
            sess.chat_id (some sess.page_url) (some (toString sess.id))
            ctx.now _ (increment_chat_use_stores _ sess.id 1 ctx.now).2
            hat)⟩
      all_goals exact
      ⟨(handleAttemptError_facts _ ctx env.attemptId container_id
          resolved.profile_id socks_key sess _ _ _ _ jid).1.trans
          (jobCount_of_eq _ st jid (create_job_attempt_facts st env.attemptId
            ctx.job_id container_id ctx.prompt_id "single"
            (some resolved.profile_id) socks_key sess.chat_id
            (some sess.page_url) (some (toString sess.id)) ctx.now jid).2),
        (handleAttemptError_facts _ ctx env.attemptId container_id
          resolved.profile_id socks_key sess _ _ _ _ jid).2.1,
        fun hat => (handleAttemptError_facts _ ctx env.attemptId container_id
          resolved.profile_id socks_key sess _ _ _ _ jid).2.2
          (create_attempt_pre st env.attemptId ctx.job_id container_id
            ctx.prompt_id "single" (some resolved.profile_id) socks_key
            sess.chat_id (some sess.page_url) (some (toString sess.id))
            ctx.now _ rfl hat)⟩
    · rw [if_neg c2] at ho
      rcases ha1 : env.analyze1 with raw | p | p | m | m | m <;>
        rw [ha1] at ho
      · rcases ha2 : env.analyze2 with raw2 | p | p | m | m | m <;>
          rw [ha2] at ho <;> subst ho
        · exact
        ⟨(succeedStore_facts _ ctx env.attemptId _ resolved.profile_id
            jid).1.trans (jobCount_of_eq _ st jid
            ((increment_chat_use_stores _ sess.id 1 ctx.now).1.trans
              ((increment_chat_use_stores _ sess.id 1 ctx.now).1.trans
                (create_job_attempt_facts st env.attemptId ctx.job_id
                  container_id ctx.prompt_id "single"
                  (some resolved.profile_id) socks_key sess.chat_id
                  (some sess.page_url) (some (toString sess.id)) ctx.now
                  jid).2))),
          (succeedStore_facts _ ctx env.attemptId _ resolved.profile_id
            jid).2.1,
          fun hat => (succeedStore_facts _ ctx env.attemptId _
            resolved.profile_id jid).2.2
            (create_attempt_pre st env.attemptId ctx.job_id container_id
              ctx.prompt_id "single" (some resolved.profile_id) socks_key
              sess.chat_id (some sess.page_url) (some (toString sess.id))
              ctx.now _ ((increment_chat_use_stores _ sess.id 1
                ctx.now).2.trans (increment_chat_use_stores _ sess.id 1
                ctx.now).2) hat)⟩
        all_goals exact
        ⟨(handleAttemptError_facts _ ctx env.attemptId container_id
            resolved.profile_id socks_key sess _ _ _ _ jid).1.trans
            (jobCount_of_eq _ st jid ((increment_chat_use_stores _ sess.id 1
              ctx.now).1.trans (create_job_attempt_facts st env.attemptId
              ctx.job_id container_id ctx.prompt_id "single"
              (some resolved.profile_id) socks_key sess.chat_id
              (some sess.page_url) (some (toString sess.id)) ctx.now
              jid).2)),
          (handleAttemptError_facts _ ctx env.attemptId container_id
            resolved.profile_id socks_key sess _ _ _ _ jid).2.1,
          fun hat => (handleAttemptError_facts _ ctx env.attemptId
            container_id resolved.profile_id socks_key sess _ _ _ _ jid).2.2
            (create_attempt_pre st env.attemptId ctx.job_id container_id
              ctx.prompt_id "single" (some resolved.profile_id) socks_key
              sess.chat_id (some sess.page_url) (some (toString sess.id))
              ctx.now _ (increment_chat_use_stores _ sess.id 1 ctx.now).2
              hat)⟩
      all_goals (subst ho; exact
        ⟨(handleAttemptError_facts _ ctx env.attemptId container_id
            resolved.profile_id socks_key sess _ _ _ _ jid).1.trans
            (jobCount_of_eq _ st jid (create_job_attempt_facts st env.attemptId
              ctx.job_id container_id ctx.prompt_id "single"
              (some resolved.profile_id) socks_key sess.chat_id
              (some sess.page_url) (some (toString sess.id)) ctx.now jid).2),
          (handleAttemptError_facts _ ctx env.attemptId container_id
            resolved.profile_id socks_key sess _ _ _ _ jid).2.1,
          fun hat => (handleAttemptError_facts _ ctx env.attemptId container_id
            resolved.profile_id socks_key sess _ _ _ _ jid).2.2
            (create_attempt_pre st env.attemptId ctx.job_id container_id
              ctx.prompt_id "single" (some resolved.profile_id) socks_key
              sess.chat_id (some sess.page_url) (some (toString sess.id))
              ctx.now _ rfl hat)⟩)

/-- One full candidate iteration: a skip keeps the job count and the
attempts, a return leaves the job finalized, escapes are unconstrained. -/
theorem runCandidate_cases (ctx : ExecCtx) (idx : Nat)
    (cand : ProfileCandidate) (env : CandEnv) (st : Store)
    (hjid : ctx.job_id ≠ "") (o : StepOut)
    (ho : runCandidate ctx idx cand env st = o) :
    (match o with
     | .skip st' _ _ _ =>
       jobCount st' ctx.job_id = jobCount st ctx.job_id ∧
       st'.job_attempts = st.job_attempts
     | .done _ _ st' _ =>
       jobCount st' ctx.job_id = jobCount st ctx.job_id ∧
       jobsTerminal st' ctx.job_id ∧
       (attemptsTerminal st ctx.job_id → attemptsTerminal st' ctx.job_id)
     | .escape _ _ _ => True) := by
  unfold runCandidate at ho
  rcases hsu : candidateSetup ctx idx cand env st with
    ⟨st2, a, b, ev⟩ | ⟨h, r, st2, ev⟩ | ⟨e, st2, ev⟩ |
    ⟨st2, res, sk, cid, sess, ev⟩ <;>
    rw [hsu] at ho
  · have hf := candidateSetup_cases ctx idx cand env st ctx.job_id hjid _ hsu
    subst ho
    exact hf
  · have hf := candidateSetup_cases ctx idx cand env st ctx.job_id hjid _ hsu
    subst ho
    exact ⟨hf.1, hf.2.2, fun hat => attemptsTerminal_of_eq _ _ _ hf.2.1 hat⟩
  · subst ho
    exact trivial
  · have hf := candidateSetup_cases ctx idx cand env st ctx.job_id hjid _ hsu
    have ha := candidateAnalyze_facts ctx idx env res sk cid sess st2 ev
      ctx.job_id o ho
    rcases o with ⟨st3, a2, b2, ev2⟩ | ⟨h2, r2, st3, ev2⟩ | ⟨e2, st3, ev2⟩
    · exact False.elim ha
    · exact ⟨ha.1.trans hf.1, ha.2.1, fun hat => ha.2.2
        (attemptsTerminal_of_eq _ _ _ hf.2 hat)⟩
    · exact trivial

/-- The candidate loop: exhaustion keeps the job count and the attempts; a
normal return leaves the job rows finalized and every attempt terminal. -/
theorem runLoop_facts (ctx : ExecCtx) (envs : Nat → CandEnv)
    (hjid : ctx.job_id ≠ "") :
    ∀ (cands : List ProfileCandidate) (idx : Nat) (st : Store)
      (pb cb : Nat) (tr : List Event),
      (match runLoop ctx envs cands idx st pb cb tr with
       | .exhausted st' _ _ _ =>
         jobCount st' ctx.job_id = jobCount st ctx.job_id ∧
         st'.job_attempts = st.job_attempts
       | .returned _ _ st' _ =>
         jobCount st' ctx.job_id = jobCount st ctx.job_id ∧
         jobsTerminal st' ctx.job_id ∧
         (attemptsTerminal st ctx.job_id → attemptsTerminal st' ctx.job_id)
       | .escaped _ _ _ => True) := by
  intro cands
  induction cands with
  | nil =>
    intro idx st pb cb tr
    exact ⟨rfl, rfl⟩
  | cons c rest ih =>
    intro idx st pb cb tr
    rcases hout : runCandidate ctx idx c (envs idx) st with
      ⟨st2, dpb, dcb, ev⟩ | ⟨h, r, st2, ev⟩ | ⟨e, st2, ev⟩
    · have hrc := runCandidate_cases ctx idx c (envs idx) st hjid _ hout
      have hrest := ih (idx + 1) st2 (pb + dpb) (cb + dcb) (tr ++ ev)
      simp only [runLoop, hout]
      rcases hr2 : runLoop ctx envs rest (idx + 1) st2 (pb + dpb) (cb + dcb)
        (tr ++ ev) with ⟨st3, pb3, cb3, tr3⟩ | ⟨h3, r3, st3, tr3⟩ |
        ⟨e3, st3, tr3⟩ <;>
        rw [hr2] at hrest
      · exact ⟨hrest.1.trans hrc.1, hrest.2.trans hrc.2⟩
      · exact ⟨hrest.1.trans hrc.1, hrest.2.1, fun hat => hrest.2.2
          (attemptsTerminal_of_eq _ _ _ hrc.2 hat)⟩
      · exact trivial
    · have hrc := runCandidate_cases ctx idx c (envs idx) st hjid _ hout
      simp only [runLoop, hout]
      exact hrc
    · simp only [runLoop, hout]

theorem insert_job_start_count (st : Store) (jid2 pid : String)
    (rid it : Option String) (iip : Bool) (ie pr so : Option String)
    (sa : String) (sp dm : Option String) (fr fu : Option Int)
    (cids : List String) :
    jobCount (insert_job_start st jid2 pid rid it iip ie pr so sa sp dm fr
      fu cids) jid2 = jobCount st jid2 + 1 ∧
    (insert_job_start st jid2 pid rid it iip ie pr so sa sp dm fr fu
      cids).job_attempts = st.job_attempts := by
  unfold insert_job_start jobCount
  refine ⟨?_, rfl⟩
  rw [List.countP_append]
  simp

/-- When `prepare` enters the candidate loop it has inserted exactly one
new job row under `env.job_id`, left the attempts alone, and the loop
context carries `env.job_id`. -/
theorem prepare_go_facts (req : SolveRequest) (st : Store) (env : ExecEnv)
    (ctx : ExecCtx) (cands : List ProfileCandidate) (st1 : Store)
    (h : prepare req st env = .go ctx cands st1) :
    ctx.job_id = env.job_id ∧
    jobCount st1 env.job_id = jobCount st env.job_id + 1 ∧
    st1.job_attempts = st.job_attempts := by
  simp only [prepare] at h
  by_cases c1 : (reqTextOf req = "" && !reqHasImage req) = true
  · rw [if_pos c1] at h
    exact PrepOut.noConfusion h
  · rw [if_neg c1] at h
    by_cases c2 : (reqHasImage req && !strTruthy (reqImageExtOf req)) = true
    · rw [if_pos c2] at h
      exact PrepOut.noConfusion h
    · rw [if_neg c2] at h
      rcases hpg : env.promptGet (reqPromptIdOf req) with _ | ps <;>
        simp only [hpg] at h
      · exact PrepOut.noConfusion h
      · split at h
        · exact PrepOut.noConfusion h
        · split at h
          · exact PrepOut.noConfusion h
          · cases h
            exact ⟨rfl,
              (insert_job_start_count st env.job_id _ _ _ _ _ _ _ _ _ _ _ _
                _).1,
              (insert_job_start_count st env.job_id _ _ _ _ _ _ _ _ _ _ _ _
                _).2⟩

/-- Store facts of `_fail` when a job row exists. -/
theorem failStep_store_facts (st0 : Store) (ctx2 : ExecCtx)
    (jid2 code msg : String) (http : Nat) (pidp sidp : Option String)
    (cids : List String) (d : Details) (hjid2 : jid2 ≠ "") (jid : String) :
    jobCount (failStep st0 ctx2 jid2 code msg http pidp sidp cids d).2.2
      jid = jobCount st0 jid ∧
    jobsTerminal (failStep st0 ctx2 jid2 code msg http pidp sidp cids
      d).2.2 jid2 ∧
    (failStep st0 ctx2 jid2 code msg http pidp sidp cids
      d).2.2.job_attempts = st0.job_attempts := by
  unfold failStep
  rw [if_pos hjid2]
  exact ⟨(update_job_finish_facts st0 jid2 _ _ _ _ _ _ jid).1,
    update_job_finish_terminal st0 jid2 "failed" (Or.inr rfl) _ _ _ _ _,
    (update_job_finish_facts st0 jid2 _ _ _ _ _ _ jid).2⟩

/-- A request rejected by any of the three input validations (no text and
no image; image without an extension; unknown prompt id) is failed with
400 before any job row is inserted: the store comes back untouched. -/
theorem prepare_validation_fail (req : SolveRequest) (st : Store)
    (env : ExecEnv)
    (hval : (reqTextOf req = "" ∧ reqHasImage req = false) ∨
      (reqHasImage req = true ∧ strTruthy (reqImageExtOf req) = false) ∨
      env.promptGet (reqPromptIdOf req) = none) :
    ∃ resp, prepare req st env = .early 400 resp st := by
  simp only [prepare]
  by_cases c1 : (reqTextOf req = "" && !reqHasImage req) = true
  · rw [if_pos c1]
    exact ⟨_, rfl⟩
  · rw [if_neg c1]
    by_cases c2 : (reqHasImage req && !strTruthy (reqImageExtOf req)) = true
    · rw [if_pos c2]
      exact ⟨_, rfl⟩
    · rw [if_neg c2]
      have hpg : env.promptGet (reqPromptIdOf req) = none := by
        rcases hval with ⟨h1, h2⟩ | ⟨h1, h2⟩ | h1
        · exact absurd (by simp [h1, h2]) c1
        · exact absurd (by simp [h1, h2]) c2
        · exact h1
      rw [hpg]
      exact ⟨_, rfl⟩

/-- Once the validations pass and the prompt resolves, the job row is
inserted: every way out of `prepare` — the two post-insert early failures
(rejected `chat_url`/candidates, empty profile list) and the loop entry —
carries exactly one new job row under `env.job_id`, terminal in the early
cases, with the attempts untouched. -/
theorem prepare_cases (req : SolveRequest) (st : Store) (env : ExecEnv)
    (hjid : env.job_id ≠ "") (ps : PromptSpec)
    (hC : env.promptGet (reqPromptIdOf req) = some ps)
    (hA : ¬((reqTextOf req = "" && !reqHasImage req) = true))
    (hB : ¬((reqHasImage req && !strTruthy (reqImageExtOf req)) = true))
    (o : PrepOut) (ho : prepare req st env = o) :
    (match o with
     | .early _ _ st2 =>
       jobCount st2 env.job_id = jobCount st env.job_id + 1 ∧
       jobsTerminal st2 env.job_id ∧
       st2.job_attempts = st.job_attempts
     | .go ctx _ st1 =>
       ctx.job_id = env.job_id ∧
       jobCount st1 env.job_id = jobCount st env.job_id + 1 ∧
       st1.job_attempts = st.job_attempts) := by
  simp only [prepare] at ho
  rw [if_neg hA, if_neg hB] at ho
  simp only [hC] at ho
  rcases hopt : req.options with _ | opt <;> simp only [hopt] at ho <;>
    repeat' (split at ho)
  all_goals subst ho
  all_goals first
    | exact ⟨rfl,
        (insert_job_start_count st env.job_id _ _ _ _ _ _ _ _ _ _ _ _ _).1,
        (insert_job_start_count st env.job_id _ _ _ _ _ _ _ _ _ _ _ _ _).2⟩
    | exact ⟨(failStep_store_facts _ _ env.job_id _ _ _ _ _ _ _ hjid
          env.job_id).1.trans
          (insert_job_start_count st env.job_id _ _ _ _ _ _ _ _ _ _ _ _
            _).1,
        (failStep_store_facts _ _ env.job_id _ _ _ _ _ _ _ hjid
          env.job_id).2.1,
        ((failStep_store_facts _ _ env.job_id _ _ _ _ _ _ _ hjid
          env.job_id).2.2).trans
          (insert_job_start_count st env.job_id _ _ _ _ _ _ _ _ _ _ _ _
            _).2⟩

/-- Lines 1064–1085: the all-skipped verdict — both counters in the
details, `PROFILE_BUSY` iff only profile locks were hit, job finalized as
failed with the chosen code. -/
theorem exhaustVerdict_facts (ctx : ExecCtx) (env : ExecEnv) (st : Store)
    (pb cb : Nat) (tr : List Event) (hjid : env.job_id ≠ "")
    (h : Nat) (r : SolveResponse) (st' : Store) (tr' : List Event)
    (he : exhaustVerdict ctx env st pb cb tr = .ok h r st' tr')
    (jid : String) :
    h = 503 ∧ tr' = tr ∧
    jobCount st' jid = jobCount st jid ∧
    st'.job_attempts = st.job_attempts ∧
    jobsTerminal st' env.job_id ∧
    ((pb ≠ 0 ∧ cb = 0) →
      r.error = some (SolveError.mk "PROFILE_BUSY" "Нет свободных профилей"
        (.fields [("profile_busy", .dint pb),
                  ("container_busy", .dint cb)])) ∧
      ∀ j ∈ st'.jobs, j.job_id = env.job_id →
        j.status = some "failed" ∧ j.error_code = some "PROFILE_BUSY" ∧
        j.finished_at = some ctx.now) ∧
    (¬(pb ≠ 0 ∧ cb = 0) →
      r.error = some (SolveError.mk "CONTAINER_BUSY"
        "Нет доступных контейнеров"
        (.fields [("profile_busy", .dint pb),
                  ("container_busy", .dint cb)])) ∧
      ∀ j ∈ st'.jobs, j.job_id = env.job_id →
        j.status = some "failed" ∧ j.error_code = some "CONTAINER_BUSY" ∧
        j.finished_at = some ctx.now) := by
  simp only [exhaustVerdict] at he
  by_cases hc : (pb ≠ 0 && cb = 0) = true
  · have hc' : pb ≠ 0 ∧ cb = 0 := by simpa using hc
    rw [if_pos hc] at he
    cases he
    have hst : (failStep st ctx env.job_id "PROFILE_BUSY"
        "Нет свободных профилей" 503 none none []
        (.fields [("profile_busy", .dint pb),
                  ("container_busy", .dint cb)])).2.2 =
        update_job_finish st env.job_id (some "failed") none
          (some "PROFILE_BUSY") (some "Нет свободных профилей") ctx.now
          (some "multi") := by
      unfold failStep
      rw [if_pos hjid]
    refine ⟨rfl, rfl, ?_, ?_, ?_, fun _ => ⟨rfl, ?_⟩,
      fun hn => absurd hc' hn⟩
    · rw [hst]
      exact (update_job_finish_facts st env.job_id _ _ _ _ _ _ jid).1
    · rw [hst]
      exact (update_job_finish_facts st env.job_id _ _ _ _ _ _ jid).2
    · rw [hst]
      exact update_job_finish_terminal st env.job_id "failed" (Or.inr rfl)
        _ _ _ _ _
    · rw [hst]
      exact update_job_finish_failed_rows st env.job_id "PROFILE_BUSY" _
        ctx.now _
  · have hc' : ¬(pb ≠ 0 ∧ cb = 0) := by
      intro hn
      exact hc (by simp [hn.1, hn.2])
    rw [if_neg hc] at he
    cases he
    have hst : (failStep st ctx env.job_id "CONTAINER_BUSY"
        "Нет доступных контейнеров" 503 none none []
        (.fields [("profile_busy", .dint pb),
                  ("container_busy", .dint cb)])).2.2 =
        update_job_finish st env.job_id (some "failed") none
          (some "CONTAINER_BUSY") (some "Нет доступных контейнеров") ctx.now
          (some "multi") := by
      unfold failStep
      rw [if_pos hjid]
    refine ⟨rfl, rfl, ?_, ?_, ?_, fun hp => absurd hp hc',
      fun _ => ⟨rfl, ?_⟩⟩
    · rw [hst]
      exact (update_job_finish_facts st env.job_id _ _ _ _ _ _ jid).1
    · rw [hst]
      exact (update_job_finish_facts st env.job_id _ _ _ _ _ _ jid).2
    · rw [hst]
      exact update_job_finish_terminal st env.job_id "failed" (Or.inr rfl)
        _ _ _ _ _
    · rw [hst]
      exact update_job_finish_failed_rows st env.job_id "CONTAINER_BUSY" _
        ctx.now _

/-- Text-only analyze with a failing first call reduces to
`_handle_attempt_error` on the mapped classification. -/
theorem candidateAnalyze_fail_text (ctx : ExecCtx) (idx : Nat)
    (env : CandEnv) (resolved : ResolvedProfile) (socks_key : Option String)
    (container_id : String) (sess : ChatSessionRow) (st : Store)
    (evts : List Event) (hmode : (ctx.text ≠ "" && !ctx.has_image) = true)
    (hfail : ∀ raw, env.analyze1 ≠ .ok raw) :
    candidateAnalyze ctx idx env resolved socks_key container_id sess st
      evts =
      .done (analyzeErrorMapping env.analyze1).2.1
        (handleAttemptError (create_job_attempt st env.attemptId ctx.job_id
            container_id ctx.prompt_id "single" (some resolved.profile_id)
            socks_key sess.chat_id (some sess.page_url)
            (some (toString sess.id)) ctx.now)
          ctx env.attemptId container_id resolved.profile_id socks_key sess
          (analyzeErrorMapping env.analyze1).1
          (analyzeErrorMapping env.analyze1).2.1
          (analyzeErrorMapping env.analyze1).2.2.1
          (analyzeErrorMapping env.analyze1).2.2.2).2.1
        (handleAttemptError (create_job_attempt st env.attemptId ctx.job_id
            container_id ctx.prompt_id "single" (some resolved.profile_id)
            socks_key sess.chat_id (some sess.page_url)
            (some (toString sess.id)) ctx.now)
          ctx env.attemptId container_id resolved.profile_id socks_key sess
          (analyzeErrorMapping env.analyze1).1
          (analyzeErrorMapping env.analyze1).2.1
          (analyzeErrorMapping env.analyze1).2.2.1
          (analyzeErrorMapping env.analyze1).2.2.2).2.2
        (evts ++ [Event.analyzeText idx container_id]) := by
  rcases ha1 : env.analyze1 with raw | pl | pl | m | m | m
  · exact absurd ha1 (hfail raw)
  all_goals (unfold candidateAnalyze; rw [ha1, if_pos hmode]; rfl)

/-- With a busy status payload, the setup stage never reaches the analyze
stage: its outcome carries no analyze events and is never `proceed`. -/
theorem candidateSetup_busy_events (ctx : ExecCtx) (idx : Nat)
    (cand : ProfileCandidate) (env : CandEnv) (st : Store)
    (hb : statusBusySkip env = true) (o : SetupOut)
    (ho : candidateSetup ctx idx cand env st = o) :
    (setupEvents o).all (fun e => !e.isAnalyze) = true ∧
    (∀ st2 res sk cid sess ev, o ≠ .proceed st2 res sk cid sess ev) := by
  unfold candidateSetup at ho
  rcases hres : env.resolve with resolved | _ | msg
  · simp only [hres] at ho
    by_cases h1 : maxUsesSkip st resolved = true
    · rw [if_pos h1] at ho
      subst ho
      exact ⟨rfl, fun st2 res sk cid sess ev h => SetupOut.noConfusion h⟩
    · rw [if_neg h1] at ho
      by_cases h2 : profile_has_guest_chat st (some resolved.profile_id) =
          true
      · rw [if_pos h2] at ho
        by_cases h3 : ctx.explicit_profile = true
        · rw [if_pos h3] at ho
          subst ho
          exact ⟨rfl, fun st2 res sk cid sess ev h => SetupOut.noConfusion h⟩
        · rw [if_neg h3] at ho
          subst ho
          exact ⟨rfl, fun st2 res sk cid sess ev h => SetupOut.noConfusion h⟩
      · rw [if_neg h2] at ho
        by_cases h4 : env.lockBusy = true
        · rw [if_pos h4] at ho
          subst ho
          exact ⟨rfl, fun st2 res sk cid sess ev h => SetupOut.noConfusion h⟩
        · rw [if_neg h4] at ho
          rcases hcont : chooseContainer cand resolved env with _ |
            container_id <;> simp only [hcont] at ho
          · subst ho
            exact ⟨rfl, fun st2 res sk cid sess ev h => SetupOut.noConfusion h⟩
          · by_cases h5 : (!env.poolGetOk) = true
            · rw [if_pos h5] at ho
              subst ho
              exact ⟨rfl, fun st2 res sk cid sess ev h => SetupOut.noConfusion h⟩
            · rw [if_neg h5] at ho
              rw [if_pos hb] at ho
              subst ho
              exact ⟨rfl, fun st2 res sk cid sess ev h => SetupOut.noConfusion h⟩
  · simp only [hres] at ho
    subst ho
    exact ⟨rfl, fun st2 res sk cid sess ev h => SetupOut.noConfusion h⟩
  · simp only [hres] at ho
    subst ho
    exact ⟨rfl, fun st2 res sk cid sess ev h => SetupOut.noConfusion h⟩

/-- `delete_guest_chats_for_profile` clears `profile_has_guest_chat`. -/
theorem delete_guest_clears (st : Store) (p : Option String) :
    profile_has_guest_chat (delete_guest_chats_for_profile st p).1 p =
      false := by
  by_cases h : normKey p = ""
  · simp [delete_guest_chats_for_profile, profile_has_guest_chat, h]
  · simp only [delete_guest_chats_for_profile, profile_has_guest_chat,
      if_neg h]
    simp only [List.any_eq_false]
    intro r hr hcontra
    have hk := (List.mem_filter.1 hr).2
    simp only [Bool.not_eq_true'] at hk
    rw [hk] at hcontra
    exact Bool.noConfusion hcontra

/-! ## C8 — verdict when every candidate was skipped -/

/-- **C8**: when every candidate of the loop is skipped, `execute` returns
HTTP 503 with code `PROFILE_BUSY` when the profile-busy counter is
positive and the container-busy counter is zero, and `CONTAINER_BUSY`
otherwise; in both cases the details carry both counters and the job is
finalized as failed with that code. -/
theorem C8_exhausted_verdict (req : SolveRequest) (st : Store)
    (env : ExecEnv) (ctx : ExecCtx) (cands : List ProfileCandidate)
    (st1 st2 : Store) (pb cb : Nat) (tr : List Event)
    (hjid : env.job_id ≠ "")
    (hprep : prepare req st env = .go ctx cands st1)
    (hloop : runLoop ctx env.candEnv cands 0 st1 0 0 [] =
      .exhausted st2 pb cb tr) :
    ∃ r st', execute req st env = .ok 503 r st' tr ∧
      ((pb ≠ 0 ∧ cb = 0) →
        r.error = some (SolveError.mk "PROFILE_BUSY"
          "Нет свободных профилей"
          (.fields [("profile_busy", .dint pb),
                    ("container_busy", .dint cb)])) ∧
        ∀ j ∈ st'.jobs, j.job_id = env.job_id →
          j.status = some "failed" ∧ j.error_code = some "PROFILE_BUSY" ∧
          j.finished_at = some ctx.now) ∧
      (¬(pb ≠ 0 ∧ cb = 0) →
        r.error = some (SolveError.mk "CONTAINER_BUSY"
          "Нет доступных контейнеров"
          (.fields [("profile_busy", .dint pb),
                    ("container_busy", .dint cb)])) ∧
        ∀ j ∈ st'.jobs, j.job_id = env.job_id →
          j.status = some "failed" ∧ j.error_code = some "CONTAINER_BUSY" ∧
          j.finished_at = some ctx.now) := by
  have hex : execute req st env = exhaustVerdict ctx env st2 pb cb tr := by
    simp only [execute, hprep, hloop]
  have hok : ∃ r st', exhaustVerdict ctx env st2 pb cb tr =
      .ok 503 r st' tr := by
    simp only [exhaustVerdict]
    by_cases hc : (pb ≠ 0 && cb = 0) = true
    · rw [if_pos hc]
      exact ⟨_, _, rfl⟩
    · rw [if_neg hc]
      exact ⟨_, _, rfl⟩
  obtain ⟨r, st', hv⟩ := hok
  have hf := exhaustVerdict_facts ctx env st2 pb cb tr hjid 503 r st' tr hv
    env.job_id
  exact ⟨r, st', by rw [hex, hv], hf.2.2.2.2.2.1, hf.2.2.2.2.2.2⟩

/-- **C8 witness**: `reqText` under `envLockBusy` — the single candidate is
skipped by the profile lock, so `pb = 1`, `cb = 0` and the verdict is
`PROFILE_BUSY 503` with both counters in the details. -/
theorem C8_exhausted_verdict_witness :
    ∃ r st', execute reqText store0 (execEnvOf envLockBusy) =
        .ok 503 r st' [] ∧
      r.error = some (SolveError.mk "PROFILE_BUSY" "Нет свободных профилей"
        (.fields [("profile_busy", .dint 1),
                  ("container_busy", .dint 0)])) ∧
      ∀ j ∈ st'.jobs, j.job_id = "job1" →
        j.status = some "failed" ∧ j.error_code = some "PROFILE_BUSY" ∧
        j.finished_at = some "t2" := by
  obtain ⟨r, st', hex, hpos, hneg⟩ := C8_exhausted_verdict reqText store0
    (execEnvOf envLockBusy) _ _ _ _ 1 0 [] (by decide) rfl rfl
  obtain ⟨he, hrows⟩ := hpos ⟨by decide, rfl⟩
  exact ⟨r, st', hex, he, hrows⟩

/-- `attempt_exists_after_finish` for any store whose attempts table is
the one `create_job_attempt` produced (the executor increments chat uses
in between). -/
theorem attempt_exists_after_finish_of (stX st : Store)
    (aid jid cid pid role : String) (p so c u csid : Option String)
    (started stv : String) (rt ec em : Option String) (fin : String)
    (hatt : stX.job_attempts = (create_job_attempt st aid jid cid pid role
      p so c u csid started).job_attempts) :
    ∃ a ∈ (finish_job_attempt stX aid stv rt ec em fin).job_attempts,
      a.attempt_id = aid ∧ a.job_id = jid := by
  unfold finish_job_attempt
  rw [hatt, create_job_attempt_attempts]
  simp only [List.map_append, List.mem_append, List.map_cons, List.map_nil]
  refine ⟨{ attempt_id := aid, job_id := jid, container_id := cid,
            prompt_id := pid, role := role, profile_id := p, socks_id := so,
            chat_id := c, page_url := u, chat_session_id := csid,
            status := some stv, result_text := rt, error_code := ec,
            error_message := em, started_at := started,
            finished_at := some fin }, Or.inr ?_, rfl, rfl⟩
  simp

/-- A loop iteration that ends in `_handle_attempt_error` on a mapped
classification satisfies `FailReturn`. -/
theorem failReturn_of_handle (ctx : ExecCtx) (envs : Nat → CandEnv)
    (idx : Nat) (cand : ProfileCandidate) (rest : List ProfileCandidate)
    (st st4 : Store) (resolved : ResolvedProfile)
    (socks_key : Option String) (container_id : String)
    (sess : ChatSessionRow) (stX : Store) (o : UpstreamOutcome)
    (pb cb : Nat) (tr tail : List Event)
    (hatt : stX.job_attempts = (create_job_attempt st4 (envs idx).attemptId
      ctx.job_id container_id ctx.prompt_id "single"
      (some resolved.profile_id) socks_key sess.chat_id (some sess.page_url)
      (some (toString sess.id)) ctx.now).job_attempts)
    (hloop2 : runLoop ctx envs (cand :: rest) idx st pb cb tr =
      .returned (analyzeErrorMapping o).2.1
        (handleAttemptError stX ctx (envs idx).attemptId container_id
          resolved.profile_id socks_key sess (analyzeErrorMapping o).1
          (analyzeErrorMapping o).2.1 (analyzeErrorMapping o).2.2.1
          (analyzeErrorMapping o).2.2.2).2.1
        (handleAttemptError stX ctx (envs idx).attemptId container_id
          resolved.profile_id socks_key sess (analyzeErrorMapping o).1
          (analyzeErrorMapping o).2.1 (analyzeErrorMapping o).2.2.1
          (analyzeErrorMapping o).2.2.2).2.2 tail) :
    FailReturn ctx envs idx cand rest st pb cb tr o (envs idx).attemptId
      tail := by
  refine ⟨_, _, hloop2, rfl, ?_, ?_⟩
  · obtain ⟨a, ha, ha1, ha2⟩ := attempt_exists_after_finish_of stX st4
      (envs idx).attemptId ctx.job_id container_id ctx.prompt_id "single"
      (some resolved.profile_id) socks_key sess.chat_id (some sess.page_url)
      (some (toString sess.id)) ctx.now "failed" none
      (some (analyzeErrorMapping o).1)
      (some (analyzeErrorMapping o).2.2.1) ctx.now hatt
    have ht := finish_job_attempt_target stX (envs idx).attemptId "failed"
      none (some (analyzeErrorMapping o).1)
      (some (analyzeErrorMapping o).2.2.1) ctx.now a ha ha1
    refine ⟨a, ?_, ha1, ha2, ht.1, ht.2.1, ht.2.2⟩
    show a ∈ (update_job_finish (finish_job_attempt stX (envs idx).attemptId
      "failed" none (some (analyzeErrorMapping o).1)
      (some (analyzeErrorMapping o).2.2.1) ctx.now) ctx.job_id
      (some "failed") none (some (analyzeErrorMapping o).1)
      (some (analyzeErrorMapping o).2.2.1) ctx.now
      (some "multi")).job_attempts
    rw [(update_job_finish_facts (finish_job_attempt stX
      (envs idx).attemptId "failed" none (some (analyzeErrorMapping o).1)
      (some (analyzeErrorMapping o).2.2.1) ctx.now) ctx.job_id
      (some "failed") none (some (analyzeErrorMapping o).1)
      (some (analyzeErrorMapping o).2.2.1) ctx.now (some "multi") "x").2]
    exact ha
  · show ∀ j ∈ (update_job_finish (finish_job_attempt stX
      (envs idx).attemptId "failed" none (some (analyzeErrorMapping o).1)
      (some (analyzeErrorMapping o).2.2.1) ctx.now) ctx.job_id
      (some "failed") none (some (analyzeErrorMapping o).1)
      (some (analyzeErrorMapping o).2.2.1) ctx.now (some "multi")).jobs,
      j.job_id = ctx.job_id →
        j.status = some "failed" ∧
        j.error_code = some (analyzeErrorMapping o).1 ∧
        j.finished_at = some ctx.now
    exact update_job_finish_failed_rows _ ctx.job_id _ _ ctx.now _

/-- Image-only analyze with a failing call reduces to
`_handle_attempt_error` on the mapped classification. -/
theorem candidateAnalyze_fail_image (ctx : ExecCtx) (idx : Nat)
    (env : CandEnv) (resolved : ResolvedProfile) (socks_key : Option String)
    (container_id : String) (sess : ChatSessionRow) (st : Store)
    (evts : List Event)
    (h1 : ¬((ctx.text ≠ "" && !ctx.has_image) = true))
    (h2 : (ctx.has_image && ctx.text = "") = true)
    (hfail : ∀ raw, env.analyze1 ≠ .ok raw) :
    candidateAnalyze ctx idx env resolved socks_key container_id sess st
      evts =
      .done (analyzeErrorMapping env.analyze1).2.1
        (handleAttemptError (create_job_attempt st env.attemptId ctx.job_id
            container_id ctx.prompt_id "single" (some resolved.profile_id)
            socks_key sess.chat_id (some sess.page_url)
            (some (toString sess.id)) ctx.now)
          ctx env.attemptId container_id resolved.profile_id socks_key sess
          (analyzeErrorMapping env.analyze1).1
          (analyzeErrorMapping env.analyze1).2.1
          (analyzeErrorMapping env.analyze1).2.2.1
          (analyzeErrorMapping env.analyze1).2.2.2).2.1
        (handleAttemptError (create_job_attempt st env.attemptId ctx.job_id
            container_id ctx.prompt_id "single" (some resolved.profile_id)
            socks_key sess.chat_id (some sess.page_url)
            (some (toString sess.id)) ctx.now)
          ctx env.attemptId container_id resolved.profile_id socks_key sess
          (analyzeErrorMapping env.analyze1).1
          (analyzeErrorMapping env.analyze1).2.1
          (analyzeErrorMapping env.analyze1).2.2.1
          (analyzeErrorMapping env.analyze1).2.2.2).2.2
        (evts ++ [Event.analyzeImage idx container_id]) := by
  rcases ha1 : env.analyze1 with raw | pl | pl | m | m | m
  · exact absurd ha1 (hfail raw)
  all_goals (unfold candidateAnalyze; rw [ha1, if_neg h1, if_pos h2]; rfl)

/-- Text+image analyze whose *first* call fails. -/
theorem candidateAnalyze_fail_both1 (ctx : ExecCtx) (idx : Nat)
    (env : CandEnv) (resolved : ResolvedProfile) (socks_key : Option String)
    (container_id : String) (sess : ChatSessionRow) (st : Store)
    (evts : List Event)
    (h1 : ¬((ctx.text ≠ "" && !ctx.has_image) = true))
    (h2 : ¬((ctx.has_image && ctx.text = "") = true))
    (hfail : ∀ raw, env.analyze1 ≠ .ok raw) :
    candidateAnalyze ctx idx env resolved socks_key container_id sess st
      evts =
      .done (analyzeErrorMapping env.analyze1).2.1
        (handleAttemptError (create_job_attempt st env.attemptId ctx.job_id
            container_id ctx.prompt_id "single" (some resolved.profile_id)
            socks_key sess.chat_id (some sess.page_url)
            (some (toString sess.id)) ctx.now)
          ctx env.attemptId container_id resolved.profile_id socks_key sess
          (analyzeErrorMapping env.analyze1).1
          (analyzeErrorMapping env.analyze1).2.1
          (analyzeErrorMapping env.analyze1).2.2.1
          (analyzeErrorMapping env.analyze1).2.2.2).2.1
        (handleAttemptError (create_job_attempt st env.attemptId ctx.job_id
            container_id ctx.prompt_id "single" (some resolved.profile_id)
            socks_key sess.chat_id (some sess.page_url)
            (some (toString sess.id)) ctx.now)
          ctx env.attemptId container_id resolved.profile_id socks_key sess
          (analyzeErrorMapping env.analyze1).1
          (analyzeErrorMapping env.analyze1).2.1
          (analyzeErrorMapping env.analyze1).2.2.1
          (analyzeErrorMapping env.analyze1).2.2.2).2.2
        (evts ++ [Event.analyzeText idx container_id]) := by
  rcases ha1 : env.analyze1 with raw | pl | pl | m | m | m
  · exact absurd ha1 (hfail raw)
  all_goals (unfold candidateAnalyze; rw [ha1, if_neg h1, if_neg h2]; rfl)

/-- Text+image analyze whose first call succeeds and whose *second* call
fails: the chat use of the first call is already counted, then
`_handle_attempt_error` runs on the second call's classification. -/
theorem candidateAnalyze_fail_both2 (ctx : ExecCtx) (idx : Nat)
    (env : CandEnv) (resolved : ResolvedProfile) (socks_key : Option String)
    (container_id : String) (sess : ChatSessionRow) (st : Store)
    (evts : List Event) (raw : RawResp)
    (h1 : ¬((ctx.text ≠ "" && !ctx.has_image) = true))
    (h2 : ¬((ctx.has_image && ctx.text = "") = true))
    (ha1 : env.analyze1 = .ok raw)
    (hfail2 : ∀ raw2, env.analyze2 ≠ .ok raw2) :
    candidateAnalyze ctx idx env resolved socks_key container_id sess st
      evts =
      .done (analyzeErrorMapping env.analyze2).2.1
        (handleAttemptError (increment_chat_use (create_job_attempt st
            env.attemptId ctx.job_id container_id ctx.prompt_id "single"
            (some resolved.profile_id) socks_key sess.chat_id
            (some sess.page_url) (some (toString sess.id)) ctx.now)
            sess.id 1 ctx.now)
          ctx env.attemptId container_id resolved.profile_id socks_key sess
          (analyzeErrorMapping env.analyze2).1
          (analyzeErrorMapping env.analyze2).2.1
          (analyzeErrorMapping env.analyze2).2.2.1
          (analyzeErrorMapping env.analyze2).2.2.2).2.1
        (handleAttemptError (increment_chat_use (create_job_attempt st
            env.attemptId ctx.job_id container_id ctx.prompt_id "single"
            (some resolved.profile_id) socks_key sess.chat_id
            (some sess.page_url) (some (toString sess.id)) ctx.now)
            sess.id 1 ctx.now)
          ctx env.attemptId container_id resolved.profile_id socks_key sess
          (analyzeErrorMapping env.analyze2).1
          (analyzeErrorMapping env.analyze2).2.1
          (analyzeErrorMapping env.analyze2).2.2.1
          (analyzeErrorMapping env.analyze2).2.2.2).2.2
        ((evts ++ [Event.analyzeText idx container_id]) ++
          [Event.analyzeImage idx container_id]) := by
  rcases ha2 : env.analyze2 with raw2 | pl | pl | m | m | m
  · exact absurd ha2 (hfail2 raw2)
  all_goals (unfold candidateAnalyze; rw [ha1, ha2, if_neg h1, if_neg h2]; rfl)

/-! ## C3 — analyze failure classification and immediate return -/

/-- **C3**: the classification of a failed analyze call (busy →
`CONTAINER_BUSY` 503, bad request → `INVALID_REQUEST` 400,
server/transport → `UPSTREAM_ERROR` 502, anything else →
`INTERNAL_ERROR` 500); and in every failing case of the per-candidate
analyze step — the text-only call, the image-only call, the first call of
a text+image request, or its second call — the loop returns immediately,
for every remainder of the candidate list, with the mapped HTTP status and
code, the fresh attempt row and the job rows finalized as failed with that
code (`FailReturn`). -/
theorem C3_analyze_failure_mapping (ctx : ExecCtx) (envs : Nat → CandEnv)
    (idx : Nat) (cand : ProfileCandidate) (st st4 : Store)
    (resolved : ResolvedProfile) (socks_key : Option String)
    (container_id : String) (sess : ChatSessionRow) (ev : List Event)
    (hsetup : candidateSetup ctx idx cand (envs idx) st =
      .proceed st4 resolved socks_key container_id sess ev) :
    (∀ pl, analyzeErrorMapping (.busy pl) =
      ("CONTAINER_BUSY", 503, "Контейнер занят", .payload pl)) ∧
    (∀ pl, analyzeErrorMapping (.badRequest pl) =
      ("INVALID_REQUEST", 400, "Неверный запрос", .payload pl)) ∧
    (∀ m, analyzeErrorMapping (.server m) =
      ("UPSTREAM_ERROR", 502, m, .fields [("error", .dstr m)])) ∧
    (∀ m, analyzeErrorMapping (.transport m) =
      ("UPSTREAM_ERROR", 502, m, .fields [("error", .dstr m)])) ∧
    (∀ m, analyzeErrorMapping (.other m) =
      ("INTERNAL_ERROR", 500, m, .fields [("error", .dstr m)])) ∧
    ∀ (rest : List ProfileCandidate) (pb cb : Nat) (tr : List Event),
      ((ctx.text ≠ "" && !ctx.has_image) = true →
        (∀ raw, (envs idx).analyze1 ≠ .ok raw) →
        FailReturn ctx envs idx cand rest st pb cb tr (envs idx).analyze1
          (envs idx).attemptId
          (tr ++ (ev ++ [Event.analyzeText idx container_id]))) ∧
      ((ctx.has_image && ctx.text = "") = true →
        (∀ raw, (envs idx).analyze1 ≠ .ok raw) →
        FailReturn ctx envs idx cand rest st pb cb tr (envs idx).analyze1
          (envs idx).attemptId
          (tr ++ (ev ++ [Event.analyzeImage idx container_id]))) ∧
      (¬((ctx.text ≠ "" && !ctx.has_image) = true) →
        ¬((ctx.has_image && ctx.text = "") = true) →
        (∀ raw, (envs idx).analyze1 ≠ .ok raw) →
        FailReturn ctx envs idx cand rest st pb cb tr (envs idx).analyze1
          (envs idx).attemptId
          (tr ++ (ev ++ [Event.analyzeText idx container_id]))) ∧
      (∀ raw, ¬((ctx.text ≠ "" && !ctx.has_image) = true) →
        ¬((ctx.has_image && ctx.text = "") = true) →
        (envs idx).analyze1 = .ok raw →
        (∀ raw2, (envs idx).analyze2 ≠ .ok raw2) →
        FailReturn ctx envs idx cand rest st pb cb tr (envs idx).analyze2
          (envs idx).attemptId
          (tr ++ ((ev ++ [Event.analyzeText idx container_id]) ++
            [Event.analyzeImage idx container_id]))) := by
  refine ⟨fun pl => rfl, fun pl => rfl, fun m => rfl, fun m => rfl,
    fun m => rfl, ?_⟩
  intro rest pb cb tr
  have hrc : runCandidate ctx idx cand (envs idx) st =
      candidateAnalyze ctx idx (envs idx) resolved socks_key container_id
        sess st4 ev := by
    simp only [runCandidate, hsetup]
  refine ⟨?_, ?_, ?_, ?_⟩
  · intro hmode hfail
    have hca := candidateAnalyze_fail_text ctx idx (envs idx) resolved
      socks_key container_id sess st4 ev hmode hfail
    exact failReturn_of_handle ctx envs idx cand rest st st4 resolved
      socks_key container_id sess _ _ pb cb tr _ rfl
      (by simp only [runLoop, hrc.trans hca])
  · intro hmode hfail
    have h1 : ¬((ctx.text ≠ "" && !ctx.has_image) = true) := by
      have hm := hmode
      rw [Bool.and_eq_true] at hm
      simp [of_decide_eq_true hm.2]
    have hca := candidateAnalyze_fail_image ctx idx (envs idx) resolved
      socks_key container_id sess st4 ev h1 hmode hfail
    exact failReturn_of_handle ctx envs idx cand rest st st4 resolved
      socks_key container_id sess _ _ pb cb tr _ rfl
      (by simp only [runLoop, hrc.trans hca])
  · intro h1 h2 hfail
    have hca := candidateAnalyze_fail_both1 ctx idx (envs idx) resolved
      socks_key container_id sess st4 ev h1 h2 hfail
    exact failReturn_of_handle ctx envs idx cand rest st st4 resolved
      socks_key container_id sess _ _ pb cb tr _ rfl
      (by simp only [runLoop, hrc.trans hca])
  · intro raw h1 h2 ha1 hfail2
    have hca := candidateAnalyze_fail_both2 ctx idx (envs idx) resolved
      socks_key container_id sess st4 ev raw h1 h2 ha1 hfail2
    exact failReturn_of_handle ctx envs idx cand rest st st4 resolved
      socks_key container_id sess _ _ pb cb tr _
      (increment_chat_use_stores _ sess.id 1 ctx.now).2
      (by simp only [runLoop, hrc.trans hca])

/-- **C3 witness**: a single text-only candidate whose analyze raises an
upstream 5xx — the loop returns `UPSTREAM_ERROR 502` at once with the
attempt and job rows failed. -/
theorem C3_analyze_failure_witness :
    FailReturn ctxW (fun _ => envAnalyzeFail) 0 candW [] store0 0 0 []
      (UpstreamOutcome.server "boom") "att1"
      ([] ++ ([Event.statusCall 0 "c1"] ++ [Event.analyzeText 0 "c1"])) :=
  ((C3_analyze_failure_mapping ctxW (fun _ => envAnalyzeFail) 0 candW
    store0 st4W resolvedP1 none "c1" sessW [Event.statusCall 0 "c1"]
    (by decide)).2.2.2.2.2 [] 0 0 []).1 (by decide)
    (fun raw hr => by simp [envAnalyzeFail, envOkBase] at hr)

/-! ## C2 — the busy pre-check -/

/-- **C2 (amended)**: whenever a candidate's status payload passes the
executor's busy pre-check — `status=="busy" or busy is True`
(`precheckBusy`) — no `analyze_text`/`analyze_image_b64` call is issued
for that candidate; every pre-check-busy payload is busy for the
truthiness classification of `selector._is_busy` as well.  The converse
fails (the executor tests identity `busy is True`, not truthiness), so a
payload like `busy=1` is *not* skipped — see the counterexample. -/
theorem C2_busy_precheck_no_analyze (ctx : ExecCtx) (idx : Nat)
    (cand : ProfileCandidate) (env : CandEnv) (st : Store)
    (p : StatusPayload) (hstat : env.statusPayload = some p)
    (hbusy : precheckBusy p = true) :
    (stepEvents (runCandidate ctx idx cand env st)).all
      (fun e => !e.isAnalyze) = true ∧
    selector_is_busy p = true := by
  have hb : statusBusySkip env = true := by
    unfold statusBusySkip
    rw [hstat]
    exact hbusy
  constructor
  · unfold runCandidate
    rcases hsu : candidateSetup ctx idx cand env st with
      ⟨st2, a, b, ev⟩ | ⟨h2, r2, st2, ev⟩ | ⟨e2, st2, ev⟩ |
      ⟨st2, res, sk, cid, sess, ev⟩
    · exact (candidateSetup_busy_events ctx idx cand env st hb _ hsu).1
    · exact (candidateSetup_busy_events ctx idx cand env st hb _ hsu).1
    · exact (candidateSetup_busy_events ctx idx cand env st hb _ hsu).1
    · exact absurd rfl
        ((candidateSetup_busy_events ctx idx cand env st hb _ hsu).2
          st2 res sk cid sess ev)
  · have hor : p.status = some (.pstr "busy") ∨
        p.busy = some (.pbool true) := by
      have := hbusy
      unfold precheckBusy at this
      simpa using this
    rcases hor with h | h
    · simp [selector_is_busy, h]
    · simp [selector_is_busy, h, PyVal.truthy]

/-- **C2 witness**: a payload with `status=="busy"` passes the pre-check
and the candidate issues no analyze call. -/
theorem C2_busy_precheck_witness :
    precheckBusy payloadBusyStatus = true ∧
    ((stepEvents (runCandidate ctxW 0 candW envBusyStatus store0)).all
        (fun e => !e.isAnalyze) = true ∧
      selector_is_busy payloadBusyStatus = true) :=
  ⟨by decide, C2_busy_precheck_no_analyze ctxW 0 candW envBusyStatus store0
    payloadBusyStatus rfl (by decide)⟩

/-- **C2 counterexample**: `busy=1` is busy by truthiness (the
classification the claim and `selector._is_busy` describe), but the
executor's inline pre-check tests `busy is True`, so the candidate is not
skipped and an `analyze_text` is issued against the container. -/
theorem C2_busy_precheck_counterexample :
    selector_is_busy payloadBusy1 = true ∧
    precheckBusy payloadBusy1 = false ∧
    (execute reqText store0 (execEnvOf envBusy1)).trace =
      [Event.statusCall 0 "c1", Event.analyzeText 0 "c1"] ∧
    ((execute reqText store0 (execEnvOf envBusy1)).trace.any
      Event.isAnalyze) = true := by
  have htr : (execute reqText store0 (execEnvOf envBusy1)).trace =
      [Event.statusCall 0 "c1", Event.analyzeText 0 "c1"] := by decide
  exact ⟨by decide, by decide, htr, by rw [htr]; decide⟩

/-! ## C4 — guest contagion -/

/-- **C4**: once profile `p` owns a chat-session row with chat id or tag
`"guest"`, every candidate iteration that resolves `p` in an
explicit-profile request fails with `PROFILE_BLOCKED 409`, carrying the
guest-chat count in the details and finalizing the job as failed; in auto
mode the candidate is skipped instead; and
`delete_guest_chats_for_profile` clears the blocking condition. -/
theorem C4_guest_contagion (ctx : ExecCtx) (idx : Nat)
    (cand : ProfileCandidate) (env : CandEnv) (st : Store)
    (resolved : ResolvedProfile)
    (hres : env.resolve = .ok resolved)
    (hmax : maxUsesSkip st resolved = false)
    (hguest : profile_has_guest_chat st (some resolved.profile_id) = true)
    (hjid : ctx.job_id ≠ "") :
    (∃ r ∈ st.chat_sessions,
      r.profile_id = normKey (some resolved.profile_id) ∧
      isGuestRow r = true) ∧
    (ctx.explicit_profile = true →
      ∃ resp st',
        candidateSetup ctx idx cand env st = .done 409 resp st' [] ∧
        resp.error = some (SolveError.mk "PROFILE_BLOCKED"
          "Профиль заблокирован: обнаружены guest-чаты (chat_id='guest'). Новые чаты для этого профиля запрещены до очистки."
          (.fields [("reason", .dstr "guest_chat_present"),
                    ("profile_id", .dstr resolved.profile_id),
                    ("guest_chats", .dint (count_guest_chats_for_profile st
                      (some resolved.profile_id))),
                    ("hint", .dstr "Очистите guest-записи через POST /v1/profiles/{profile_id}/guest/clear")])) ∧
        ∀ j ∈ st'.jobs, j.job_id = ctx.job_id →
          j.status = some "failed" ∧
          j.error_code = some "PROFILE_BLOCKED" ∧
          j.finished_at = some ctx.now) ∧
    (ctx.explicit_profile = false →
      candidateSetup ctx idx cand env st = .skip st 0 0 []) ∧
    profile_has_guest_chat
      (delete_guest_chats_for_profile st (some resolved.profile_id)).1
      (some resolved.profile_id) = false := by
  refine ⟨?_, ?_, ?_, delete_guest_clears st (some resolved.profile_id)⟩
  · have hg := hguest
    simp only [profile_has_guest_chat] at hg
    by_cases h : normKey (some resolved.profile_id) = ""
    · rw [if_pos h] at hg
      exact Bool.noConfusion hg
    · rw [if_neg h] at hg
      obtain ⟨r, hr, hpr⟩ := List.any_eq_true.1 hg
      rw [Bool.and_eq_true] at hpr
      exact ⟨r, hr, by simpa using hpr.1, hpr.2⟩
  · intro hexp
    have heq : candidateSetup ctx idx cand env st =
        .done (failStep st ctx ctx.job_id "PROFILE_BLOCKED"
          "Профиль заблокирован: обнаружены guest-чаты (chat_id='guest'). Новые чаты для этого профиля запрещены до очистки."
          409 (some resolved.profile_id) (socksKeyOf resolved) []
          (.fields [("reason", .dstr "guest_chat_present"),
                    ("profile_id", .dstr resolved.profile_id),
                    ("guest_chats", .dint (count_guest_chats_for_profile st
                      (some resolved.profile_id))),
                    ("hint", .dstr "Очистите guest-записи через POST /v1/profiles/{profile_id}/guest/clear")])).1
          (failStep st ctx ctx.job_id "PROFILE_BLOCKED"
          "Профиль заблокирован: обнаружены guest-чаты (chat_id='guest'). Новые чаты для этого профиля запрещены до очистки."
          409 (some resolved.profile_id) (socksKeyOf resolved) []
          (.fields [("reason", .dstr "guest_chat_present"),
                    ("profile_id", .dstr resolved.profile_id),
                    ("guest_chats", .dint (count_guest_chats_for_profile st
                      (some resolved.profile_id))),
                    ("hint", .dstr "Очистите guest-записи через POST /v1/profiles/{profile_id}/guest/clear")])).2.1
          (failStep st ctx ctx.job_id "PROFILE_BLOCKED"
          "Профиль заблокирован: обнаружены guest-чаты (chat_id='guest'). Новые чаты для этого профиля запрещены до очистки."
          409 (some resolved.profile_id) (socksKeyOf resolved) []
          (.fields [("reason", .dstr "guest_chat_present"),
                    ("profile_id", .dstr resolved.profile_id),
                    ("guest_chats", .dint (count_guest_chats_for_profile st
                      (some resolved.profile_id))),
                    ("hint", .dstr "Очистите guest-записи через POST /v1/profiles/{profile_id}/guest/clear")])).2.2
          [] := by
      simp only [candidateSetup, hres]
      rw [if_neg (show ¬maxUsesSkip st resolved = true by simp [hmax]),
        if_pos hguest, if_pos hexp]
    refine ⟨_, _, heq, rfl, ?_⟩
    have hst : (failStep st ctx ctx.job_id "PROFILE_BLOCKED"
        "Профиль заблокирован: обнаружены guest-чаты (chat_id='guest'). Новые чаты для этого профиля запрещены до очистки."
        409 (some resolved.profile_id) (socksKeyOf resolved) []
        (.fields [("reason", .dstr "guest_chat_present"),
                  ("profile_id", .dstr resolved.profile_id),
                  ("guest_chats", .dint (count_guest_chats_for_profile st
                    (some resolved.profile_id))),
                  ("hint", .dstr "Очистите guest-записи через POST /v1/profiles/{profile_id}/guest/clear")])).2.2 =
        update_job_finish st ctx.job_id (some "failed") none
          (some "PROFILE_BLOCKED")
          (some "Профиль заблокирован: обнаружены guest-чаты (chat_id='guest'). Новые чаты для этого профиля запрещены до очистки.")
          ctx.now (some "multi") := by
      unfold failStep
      rw [if_pos hjid]
    rw [hst]
    exact update_job_finish_failed_rows st ctx.job_id "PROFILE_BLOCKED" _
      ctx.now _
  · intro hexp
    simp only [candidateSetup, hres]
    rw [if_neg (show ¬maxUsesSkip st resolved = true by simp [hmax]),
      if_pos hguest, if_neg (show ¬ctx.explicit_profile = true by
        simp [hexp])]

/-- **C4 witness**: `storeGuest` holds a guest row for `p1`; the explicit
request fails with `PROFILE_BLOCKED 409` (one guest chat in the details),
the auto request merely skips, and deleting the guest rows unblocks. -/
theorem C4_guest_contagion_witness :
    (∃ r ∈ storeGuest.chat_sessions,
      r.profile_id = normKey (some "p1") ∧ isGuestRow r = true) ∧
    (∃ resp st',
      candidateSetup ctxW 0 candW envOkBase storeGuest =
        .done 409 resp st' [] ∧
      resp.error = some (SolveError.mk "PROFILE_BLOCKED"
        "Профиль заблокирован: обнаружены guest-чаты (chat_id='guest'). Новые чаты для этого профиля запрещены до очистки."
        (.fields [("reason", .dstr "guest_chat_present"),
                  ("profile_id", .dstr "p1"),
                  ("guest_chats", .dint (count_guest_chats_for_profile
                    storeGuest (some "p1"))),
                  ("hint", .dstr "Очистите guest-записи через POST /v1/profiles/{profile_id}/guest/clear")])) ∧
      ∀ j ∈ st'.jobs, j.job_id = "job1" →
        j.status = some "failed" ∧ j.error_code = some "PROFILE_BLOCKED" ∧
        j.finished_at = some "t2") ∧
    candidateSetup ctxAuto 0 candW envOkBase storeGuest =
      .skip storeGuest 0 0 [] ∧
    profile_has_guest_chat
      (delete_guest_chats_for_profile storeGuest (some "p1")).1
      (some "p1") = false := by
  have h1 := C4_guest_contagion ctxW 0 candW envOkBase storeGuest
    resolvedP1 rfl (by decide) (by decide) (by decide)
  have h2 := C4_guest_contagion ctxAuto 0 candW envOkBase storeGuest
    resolvedP1 rfl (by decide) (by decide) (by decide)
  exact ⟨h1.1, h1.2.1 rfl, h2.2.2.1 rfl, h1.2.2.2⟩

/-! ## C1 — job-row accounting -/

/-- **C1 (amended)**: the job row is inserted only *after* the input
validations (`insert_job_start`, executor line 581, follows the checks at
lines 499–543), so a request rejected by any of the three validations —
missing text and image, image without `image_ext`, unknown `prompt_id` —
leaves *no* job row: `execute` returns 400 with the store untouched.  Once
the validations pass and the prompt resolves (the row is inserted) and
`execute` returns normally — through the loop *or* through the post-insert
early failures (rejected candidates, empty profile list) — exactly one
job row exists for the job id, it is terminal (`succeeded`/`failed`) with
a set `finished_at`, and every attempt row of the job is terminal as
well. -/
theorem C1_job_row_accounting (req : SolveRequest) (st : Store)
    (env : ExecEnv) (hjid : env.job_id ≠ "")
    (hcount : jobCount st env.job_id = 0)
    (hatt : attemptsTerminal st env.job_id) :
    (((reqTextOf req = "" ∧ reqHasImage req = false) ∨
      (reqHasImage req = true ∧ strTruthy (reqImageExtOf req) = false) ∨
      env.promptGet (reqPromptIdOf req) = none) →
      ∃ resp, execute req st env = .ok 400 resp st [] ∧
        jobCount st env.job_id = 0) ∧
    (∀ ps, env.promptGet (reqPromptIdOf req) = some ps →
      ¬((reqTextOf req = "" && !reqHasImage req) = true) →
      ¬((reqHasImage req && !strTruthy (reqImageExtOf req)) = true) →
      ∀ h r st' tr, execute req st env = .ok h r st' tr →
        jobCount st' env.job_id = 1 ∧ jobsTerminal st' env.job_id ∧
        attemptsTerminal st' env.job_id) := by
  constructor
  · intro hval
    obtain ⟨resp, hp⟩ := prepare_validation_fail req st env hval
    refine ⟨resp, ?_, hcount⟩
    simp only [execute, hp]
  · intro ps hC hA hB h r st' tr hexec
    rcases hoprep : prepare req st env with ⟨h2, r2, st2⟩ |
      ⟨ctx, cands, st1⟩
    · have hpc := prepare_cases req st env hjid ps hC hA hB _ hoprep
      simp only [execute, hoprep] at hexec
      cases hexec
      have hcnt : jobCount st' env.job_id = jobCount st env.job_id + 1 :=
        hpc.1
      rw [hcount] at hcnt
      exact ⟨hcnt, hpc.2.1,
        attemptsTerminal_of_eq st' st env.job_id hpc.2.2 hatt⟩
    · have hpc := prepare_cases req st env hjid ps hC hA hB _ hoprep
      obtain ⟨hcj, hc1, hattp⟩ := hpc
      have hjid2 : ctx.job_id ≠ "" := by
        rw [hcj]
        exact hjid
      have hrl := runLoop_facts ctx env.candEnv hjid2 cands 0 st1 0 0 []
      rw [hcj] at hrl
      simp only [execute, hoprep] at hexec
      rcases hloop : runLoop ctx env.candEnv cands 0 st1 0 0 [] with
        ⟨st2, pb, cb, tr2⟩ | ⟨h2, r2, st2, tr2⟩ | ⟨e2, st2, tr2⟩ <;>
        simp only [hloop] at hexec hrl
      · have hv := exhaustVerdict_facts ctx env st2 pb cb tr2 hjid h r st'
          tr hexec env.job_id
        have hcnt : jobCount st' env.job_id = jobCount st env.job_id + 1 :=
          (hv.2.2.1.trans hrl.1).trans hc1
        rw [hcount] at hcnt
        have hae : st'.job_attempts = st.job_attempts :=
          hv.2.2.2.1.trans (hrl.2.trans hattp)
        exact ⟨hcnt, hv.2.2.2.2.1,
          attemptsTerminal_of_eq st' st env.job_id hae hatt⟩
      · cases hexec
        have hcnt : jobCount st' env.job_id = jobCount st env.job_id + 1 :=
          hrl.1.trans hc1
        rw [hcount] at hcnt
        exact ⟨hcnt, hrl.2.1, hrl.2.2
          (attemptsTerminal_of_eq st1 st env.job_id hattp hatt)⟩
      · exact ExecOut.noConfusion hexec

/-- **C1 witness**: the successful `reqText` run — one terminal job row,
all attempts terminal. -/
theorem C1_job_row_accounting_witness :
    jobCount (execute reqText store0 (execEnvOf envOkBase)).store "job1" =
      1 ∧
    jobsTerminal (execute reqText store0 (execEnvOf envOkBase)).store
      "job1" ∧
    attemptsTerminal (execute reqText store0 (execEnvOf envOkBase)).store
      "job1" :=
  (C1_job_row_accounting reqText store0 (execEnvOf envOkBase)
    (by decide) (by decide)
    (fun a ha _ => absurd ha (List.not_mem_nil a))).2
    psDefault rfl (by decide) (by decide) _ _ _ _ rfl

/-- **C1 counterexample**: the empty request is rejected by validation and
leaves *zero* job rows — no audit row exists, contrary to "exactly one
jobs row … including requests rejected by input validation". -/
theorem C1_job_row_counterexample :
    (execute reqEmpty store0 (execEnvOf envOkBase)).httpCode = some 400 ∧
    (execute reqEmpty store0 (execEnvOf envOkBase)).store.jobs = [] :=
  ⟨by decide, by decide⟩

end Orchestrator
